import Mathlib

/-!
# Process lifecycle, address-space windows and scheduler

A shallow embedding of the kernel's process lifecycle controller
(`syscall.c`, `process.c`), its address space manager (`page.c`,
`x86_desc.h`), the terminal session manager (`drivers/terminal.c`), the
timer-driven scheduler (`drivers/pit.c`), the descriptor and video-mapping
system calls (`syscall.c`), the fault handlers (`intr.c`) and the parts of the
read-only file system (`drivers/fsys.c`) that `execute` and `open` consume.

Conventions.

* Machine integers are natural numbers; every place where the C code computes
  in `uint32_t` carries an explicit reduction modulo `2 ^ 32`.
* Pointers are addresses (natural numbers).  Kernel memory that holds process
  control blocks is a map from addresses to `pcb_t`; `NULL` table pointers are
  `none`.
* Functions that leave by a raw control transfer (`execute_asm`, `halt_asm`,
  `swtch_ctx`) or that may run into undefined behaviour produce an `Outcome`
  that records how control left and with which state.
* The console bookkeeping of `lib.c` (screen coordinates, drawing pointer,
  hardware cursor) is a small record; what `printf` does to it is a parameter
  of the environment.  Port I/O, interrupt masking and TLB flushes have no
  counterpart in the state.
-/

namespace OS

/-! ## 32-bit arithmetic -/

/-- Addition in `uint32_t`. -/
def add32 (a b : Nat) : Nat := (a + b) % 4294967296

/-- Subtraction in `uint32_t`. -/
def sub32 (a b : Nat) : Nat := (a + (4294967296 - b % 4294967296)) % 4294967296

/-- Multiplication in `uint32_t`. -/
def mul32 (a b : Nat) : Nat := (a * b) % 4294967296

/-- Left shift of a 32-bit value: bits shifted past bit 31 are lost. -/
def shl32 (a k : Nat) : Nat := (a <<< k) % 4294967296

/-- Bitwise complement of a 32-bit value. -/
def not32 (a : Nat) : Nat := 4294967295 - a % 4294967296

/-- Modelled from the spec: the `CHECK_FLAG(flags, bit)` macro, whose header is
not among the sources; the in-use sets are bitsets and the macro tests one bit,
`flags & (1 << bit)`. -/
def CHECK_FLAG (flags bit : Nat) : Nat := flags &&& shl32 1 bit

/-! ## Constants (`page.h`, `process.h`, `terminal.h`, `fsys.h`) -/

def _4KB : Nat := 0x00001000
def _4MB : Nat := 0x00400000
def VMEM_BASE_ADDR : Nat := 0x000B8000
def KERNEL_MEM_BASE_ADDR : Nat := 0x00400000
def USER_MEM_BASE_ADDR : Nat := 0x00800000
def VIRTUAL_USER_BASE_ADDR : Nat := 0x08000000
def VIRTUAL_VMEM_BASE_ADDR : Nat := 0x08401000
def USER_MEM_PD_ENTRY : Nat := 32
def PAGE_PRIVILEGED : Nat := 0
def PAGE_UNPRIVILEGED : Nat := 1
def MAX_PROCESSES : Nat := 8
def _8KB : Nat := 8192
def MAX_FDS : Nat := 8
def MAX_TERMINALS : Nat := 3
def DISK_BLOCK_SIZE : Nat := 4096
def RTC_FILE_TYPE : Nat := 0
def DIRECTORY_FILE_TYPE : Nat := 1
def REGULAR_FILE_TYPE : Nat := 2
def KERNEL_DS : Nat := 0x0018

/-! ## Paging structures (`x86_desc.h`) -/

/-- A page directory entry.  The C type is a union of two bit-field layouts
over one 32-bit word; the fields below are the 4MB layout (bit 0 upwards:
`present`, `read_write`, `user_supervisor`, `write_through`, `cache_disable`,
`accessed`, `dirty`, `page_size`, `global`, `available` (3 bits),
`page_table_attr_idx`, `page_base_addr` (19 bits)).  In the 4KB layout bit 6 is
called `reserved` and bits 12..31 form the 20-bit `table_base_addr`. -/
structure pde_desc_t where
  present : Nat
  read_write : Nat
  user_supervisor : Nat
  write_through : Nat
  cache_disable : Nat
  accessed : Nat
  dirty : Nat
  page_size : Nat
  global : Nat
  available : Nat
  page_table_attr_idx : Nat
  page_base_addr : Nat
deriving DecidableEq, Repr

/-- The 32-bit word of a page directory entry (union member `val`). -/
def pde_desc_t.val (p : pde_desc_t) : Nat :=
  p.present + 2 * p.read_write + 4 * p.user_supervisor + 8 * p.write_through
    + 16 * p.cache_disable + 32 * p.accessed + 64 * p.dirty + 128 * p.page_size
    + 256 * p.global + 512 * p.available + 4096 * p.page_table_attr_idx
    + 8192 * p.page_base_addr

/-- The 20-bit `table_base_addr` field of the 4KB layout (bits 12..31). -/
def pde_desc_t.table_base_addr (p : pde_desc_t) : Nat :=
  p.page_table_attr_idx + 2 * p.page_base_addr

/-- A page table entry (bit 0 upwards: `present`, `read_write`,
`user_supervisor`, `write_through`, `cache_disable`, `accessed`, `dirty`,
`page_table_attr_idx`, `global`, `available` (3 bits), `page_base_addr`
(20 bits)). -/
structure pte_desc_t where
  present : Nat
  read_write : Nat
  user_supervisor : Nat
  write_through : Nat
  cache_disable : Nat
  accessed : Nat
  dirty : Nat
  page_table_attr_idx : Nat
  global : Nat
  available : Nat
  page_base_addr : Nat
deriving DecidableEq, Repr

/-- `SET_4KB_PD_ENTRY(str, addr, avail, priv, rw, pres)`: every field of the
4KB layout is assigned, each value truncated to the width of its bit-field. -/
def SET_4KB_PD_ENTRY (addr avail priv rw pres : Nat) : pde_desc_t :=
  let table_base_addr := ((addr % 4294967296 &&& 0xFFFFF000) >>> 12) % 1048576
  { present := pres % 2
    read_write := rw % 2
    user_supervisor := priv % 2
    available := avail % 8
    page_table_attr_idx := table_base_addr % 2
    page_base_addr := table_base_addr / 2
    write_through := 0
    cache_disable := 0
    accessed := 0
    dirty := 0
    page_size := 0
    global := 0 }

/-- `SET_4MB_PD_ENTRY(str, addr, avail, priv, rw, pres)`: every field of the
4MB layout is assigned, each value truncated to the width of its bit-field. -/
def SET_4MB_PD_ENTRY (addr avail priv rw pres : Nat) : pde_desc_t :=
  { present := pres % 2
    read_write := rw % 2
    user_supervisor := priv % 2
    available := avail % 8
    page_base_addr := ((addr % 4294967296 &&& 0xFFC00000) >>> 13) % 524288
    write_through := 0
    cache_disable := 0
    accessed := 0
    dirty := 0
    page_size := 1
    global := 0
    page_table_attr_idx := 0 }

/-- `SET_PT_ENTRY(str, addr, avail, priv, rw, pres)`. -/
def SET_PT_ENTRY (addr avail priv rw pres : Nat) : pte_desc_t :=
  { present := pres % 2
    read_write := rw % 2
    user_supervisor := priv % 2
    available := avail % 8
    page_base_addr := ((addr % 4294967296 &&& 0xFFFFF000) >>> 12) % 1048576
    write_through := 0
    cache_disable := 0
    accessed := 0
    dirty := 0
    page_table_attr_idx := 0
    global := 0 }

/-- Physical base address of the 4MB frame selected by a 4MB page directory
entry: bits 22..31 of the entry's word. -/
def pde_desc_t.frame_base (p : pde_desc_t) : Nat :=
  (p.val % 4294967296) / 4194304 * 4194304

/-- Physical address reached through a 4MB page directory entry by a virtual
address: frame base plus the low 22 bits of the virtual address. -/
def pde_desc_t.translate (p : pde_desc_t) (vaddr : Nat) : Nat :=
  p.frame_base + vaddr % 4194304

/-! ## File system image (`drivers/fsys.h`, `drivers/fsys.c`) -/

/-- A directory entry: 32-byte name (not necessarily NUL-terminated), type and
inode index. -/
structure dentry_t where
  file_name : List Nat
  file_type : Nat
  inode_idx : Nat
deriving DecidableEq, Repr

/-- An inode: file size in bytes and the data block indices. -/
structure inode_t where
  file_size : Nat
  block_idx_arr : Nat → Nat

/-- The memory-mapped, read-only file system image after `init_fsys`: the
three counters of the boot block, the directory table, the inode array and the
bytes of the data-block region (`data a` is the byte at offset `a` from the
first data block, so byte `i` of block `b` is `data (b * 4096 + i)`). -/
structure Disk where
  num_dir_entries : Nat
  num_inodes : Nat
  num_dblocks : Nat
  file_dir_arr : Nat → dentry_t
  inodes_arr : Nat → inode_t
  data : Nat → Nat

/-- Byte `i` of a character array held as a list; positions past the stored
bytes read as NUL. -/
def byte_at (s : List Nat) (i : Nat) : Nat := s.getD i 0

/-- A `char` (signed 8-bit) read from a byte. -/
def as_int8 (b : Nat) : Int := if b % 256 < 128 then (b % 256 : Nat) else (b % 256 : Nat) - 256

/-- A `uint32_t` converted to `int32_t`. -/
def as_int32 (n : Nat) : Int :=
  if n % 4294967296 < 2147483648 then (n % 4294967296 : Nat) else (n % 4294967296 : Nat) - 4294967296

/-- Modelled from the spec: `strncmp(s1, s2, n)` of `lib.c`, which is not among
the sources; the name lookup and the signature check compare byte strings, and
the function is taken with its C meaning: the difference at the first
position, among the first `n`, where the strings differ or `s1` ends; `0` when
there is none.  The comparison starts at index `i`. -/
def strncmp (s1 s2 : List Nat) : Nat → Nat → Int
  | 0, _ => 0
  | n + 1, i =>
    if byte_at s1 i ≠ byte_at s2 i ∨ byte_at s1 i = 0 then
      as_int8 (byte_at s1 i) - as_int8 (byte_at s2 i)
    else strncmp s1 s2 n (i + 1)

/-- The loop of `read_dentry_by_name`, from index `i` with `n` entries left. -/
def read_dentry_by_name_loop (d : Disk) (fname : List Nat) : Nat → Nat → Option dentry_t
  | 0, _ => none
  | n + 1, i =>
    if strncmp (d.file_dir_arr i).file_name fname 32 0 = 0 then some (d.file_dir_arr i)
    else read_dentry_by_name_loop d fname n (i + 1)

/-- `read_dentry_by_name(fname, dentry)`: the first directory entry whose name
equals `fname` in its first 32 bytes (`some`, return value 0), or `none`
(return value -1). -/
def read_dentry_by_name (d : Disk) (fname : List Nat) : Option dentry_t :=
  read_dentry_by_name_loop d fname d.num_dir_entries 0

/-- `memcpy` source: `n` consecutive bytes of the data-block region starting at
byte `off` of block `blk`. -/
def copy_bytes (d : Disk) (blk off n : Nat) : List Nat :=
  (List.range n).map (fun k => d.data (blk * DISK_BLOCK_SIZE + off + k))

/-- The check for bad data block indices in `read_data`: some entry among the
first 63 is not below `num_dblocks`. -/
def bad_block_idx (d : Disk) (ino : inode_t) : Bool :=
  (List.range 63).any (fun i => decide (d.num_dblocks ≤ ino.block_idx_arr i))

/-- `read_data(inode, offset, buf, length)`: the return value and the bytes
written to `buf` (none when the call fails). -/
def read_data (d : Disk) (inode offset length : Nat) : Int × List Nat :=
  if d.num_inodes ≤ inode then (-1, [])
  else
    let curr_inode := d.inodes_arr inode
    if curr_inode.file_size ≤ offset then (-1, [])
    else if curr_inode.file_size < add32 offset length then (-1, [])
    else if bad_block_idx d curr_inode then (-1, [])
    else
      let startingblock_idx := offset / DISK_BLOCK_SIZE
      let startingbyte_addr := offset % DISK_BLOCK_SIZE
      let endingblock_idx := add32 offset length / DISK_BLOCK_SIZE
      let endingbyte_addr := add32 offset length % DISK_BLOCK_SIZE
      let copied : List Nat :=
        if startingblock_idx = endingblock_idx then
          copy_bytes d (curr_inode.block_idx_arr startingblock_idx) startingbyte_addr length
        else
          copy_bytes d (curr_inode.block_idx_arr startingblock_idx) startingbyte_addr
              (DISK_BLOCK_SIZE - startingbyte_addr)
            ++ ((List.range' (startingblock_idx + 1) (endingblock_idx - (startingblock_idx + 1))).map
                  (fun i => copy_bytes d (curr_inode.block_idx_arr i) 0 DISK_BLOCK_SIZE)).flatten
            ++ copy_bytes d (curr_inode.block_idx_arr endingblock_idx) 0 endingbyte_addr
      let bytes_read := copied.length % 4294967296
      if add32 offset bytes_read = curr_inode.file_size then (0, copied)
      else (as_int32 bytes_read, copied)

/-- `get_file_length(fname)`: the file size as `int32_t`, or -1. -/
def get_file_length (d : Disk) (fname : List Nat) : Int :=
  match read_dentry_by_name d fname with
  | none => -1
  | some dentry =>
    if dentry.file_type ≠ REGULAR_FILE_TYPE then -1
    else if d.num_inodes ≤ dentry.inode_idx then -1
    else as_int32 (d.inodes_arr dentry.inode_idx).file_size

/-! ## Process and terminal records (`process.h`, `drivers/terminal.h`) -/

/-- The five file-operation jump tables a descriptor slot can point to. -/
inductive fops_jumptable_t where
  | rtc_jmptable
  | file_jmptable
  | directory_jmptable
  | stdin_jmptable
  | stdout_jmptable
deriving DecidableEq, Repr

/-- A file descriptor slot; `fops_table_ptr = none` is the `NULL` pointer. -/
structure file_desc_t where
  fops_table_ptr : Option fops_jumptable_t
  inode_num : Nat
  file_pos : Nat
  flags : Nat
deriving DecidableEq, Repr

/-- The shared descriptor copied into slot 1 of every new process. -/
def stdout_file_desc : file_desc_t :=
  { fops_table_ptr := some .stdout_jmptable, inode_num := 0, file_pos := 0, flags := 0 }

/-- The shared descriptor copied into slot 0 of every new process. -/
def stdin_file_desc : file_desc_t :=
  { fops_table_ptr := some .stdin_jmptable, inode_num := 0, file_pos := 0, flags := 0 }

/-- The `close` member of a jump table: `some 0` for the RTC, file and
directory tables (their close functions return 0 and do nothing), `none` for
the console tables, whose `close` member is `NULL`. -/
def fops_jumptable_t.close : fops_jumptable_t → Option Int
  | .rtc_jmptable => some 0
  | .file_jmptable => some 0
  | .directory_jmptable => some 0
  | .stdin_jmptable => none
  | .stdout_jmptable => none

/-- Process control block.  `cmd_args` holds the argument string up to its
terminating NUL. -/
structure pcb_t where
  id : Nat
  parent_pid : Nat
  parent_esp0 : Nat
  parent_ebp : Nat
  open_files : Nat
  vidmap_inuse : Nat
  cmd_args : List Nat
  file_desc_arr : Nat → file_desc_t

/-- Per-terminal context record. -/
structure terminal_t where
  saved_ebp : Nat
  saved_esp0 : Nat
  currentPID : Nat
  currentPCB : Nat
  cursor_x : Nat
  cursor_y : Nat
  keyboard_buffer : List Nat
  keyboard_idx : Nat
  terminal_newline : Nat
  rtc_interrupt_occurred : Nat
  rtc_freq_bit : Nat
deriving DecidableEq, Repr

/-- The two fields of the task state segment that the kernel writes. -/
structure tss_t where
  ss0 : Nat
  esp0 : Nat
deriving DecidableEq, Repr

/-- Modelled from the spec: the console bookkeeping of `lib.c`, which is not
among the sources: the screen coordinates read by `getX`/`getY` and written by
`editScreenCoords`, the drawing pointer written by `setVidPointer`, and the
hardware cursor position programmed by `update_cursor`. -/
structure Console where
  screen_x : Nat
  screen_y : Nat
  video_mem : Nat
  hw_cursor_x : Nat
  hw_cursor_y : Nat
deriving DecidableEq, Repr

/-- The kernel's global variables.  `terminal_active` and `terminal_shown` are
pointers into `terminal_arr`, held as the index of the record they point to;
`pcbs` is kernel memory viewed as process control blocks, keyed by address. -/
structure State where
  tss : tss_t
  page_dir : Nat → pde_desc_t
  user_page_table : Nat → pte_desc_t
  activeProcesses : Nat
  currentPID : Nat
  current_PCB : Nat
  pcbs : Nat → pcb_t
  exception_flag : Nat
  TA_idx : Nat
  TS_idx : Nat
  terminal_active : Nat
  terminal_shown : Nat
  terminal_arr : Nat → terminal_t
  pit_counter : Nat
  console : Console

/-- What is fixed once the kernel is loaded: the file system image, the
address of the `user_page_table` array, and the effect of `printf` (`lib.c`,
not among the sources) on the console bookkeeping, given the text printed. -/
structure Env where
  disk : Disk
  user_page_table_addr : Nat
  printf : List Nat → Console → Console

/-- How a kernel entry point gives up control. -/
inductive Outcome where
  /-- The C function returned `ret` to its caller. -/
  | returned (s : State) (ret : Int)
  /-- `execute_asm`: privilege transfer into user code at `eip` with stack `esp`. -/
  | user_mode (s : State) (esp eip : Nat)
  /-- `halt_asm(parent_ebp, ret_val)`: unwinds to the `execute` call whose frame
  pointer is `parent_ebp`, which then returns `ret_val`. -/
  | to_parent (s : State) (parent_ebp ret_val : Nat)
  /-- `swtch_ctx(ebp)`: resumes the kernel stack saved in `ebp`. -/
  | switched (s : State) (ebp : Nat)
  /-- Undefined behaviour: a call through a `NULL` pointer, an access outside an
  array, or a result that depends on an uninitialised byte. -/
  | undefined

/-- The state an outcome leaves behind, if it is defined. -/
def Outcome.state? : Outcome → Option State
  | .returned s _ => some s
  | .user_mode s _ _ => some s
  | .to_parent s _ _ => some s
  | .switched s _ => some s
  | .undefined => none

/-! ## Address space manager (`page.c`) -/

/-- `set_user_page(pid)`. -/
def set_user_page (s : State) (pid : Nat) : State :=
  let entry := SET_4MB_PD_ENTRY (add32 USER_MEM_BASE_ADDR (mul32 pid _4MB)) 0x0 PAGE_UNPRIVILEGED 0x1 0x1
  { s with page_dir := Function.update s.page_dir USER_MEM_PD_ENTRY entry }

/-- `set_video_mem_page(present)`. -/
def set_video_mem_page (e : Env) (s : State) (present : Nat) : State :=
  let dir_entry := SET_4KB_PD_ENTRY e.user_page_table_addr 0x0 PAGE_UNPRIVILEGED 0x1 (present &&& 1)
  let s1 : State := { s with page_dir := Function.update s.page_dir (USER_MEM_PD_ENTRY + 1) dir_entry }
  let idx := (VIRTUAL_VMEM_BASE_ADDR >>> 12) &&& 0x3FF
  if s1.TA_idx ≠ s1.TS_idx then
    let shadow := add32 VMEM_BASE_ADDR (mul32 (add32 s1.TA_idx 1) _4KB)
    let tbl_entry := SET_PT_ENTRY shadow 0x0 PAGE_UNPRIVILEGED 0x1 (present &&& 1)
    { s1 with user_page_table := Function.update s1.user_page_table idx tbl_entry }
  else
    let tbl_entry := SET_PT_ENTRY VMEM_BASE_ADDR 0x0 PAGE_UNPRIVILEGED 0x1 (present &&& 1)
    { s1 with user_page_table := Function.update s1.user_page_table idx tbl_entry }

/-! ## Terminal session manager (`drivers/terminal.c`) -/

/-- Address of the process control block of `pid`:
`USER_MEM_BASE_ADDR - (pid + 1) * _8KB`. -/
def pcb_addr (pid : Nat) : Nat := sub32 USER_MEM_BASE_ADDR (mul32 (add32 pid 1) _8KB)

/-- Top of the kernel stack of `pid`: `USER_MEM_BASE_ADDR - pid * _8KB`. -/
def kernel_stack_top (pid : Nat) : Nat := sub32 USER_MEM_BASE_ADDR (mul32 pid _8KB)

/-- The record `init_terminals` writes for terminal `i`. -/
def init_terminal_record (i : Nat) : terminal_t :=
  { saved_ebp := 0
    saved_esp0 := kernel_stack_top i
    currentPCB := pcb_addr i
    currentPID := i
    cursor_x := 0
    cursor_y := 0
    keyboard_buffer := List.replicate 128 0
    keyboard_idx := 0
    terminal_newline := 0
    rtc_interrupt_occurred := 0
    rtc_freq_bit := 8 }

/-- The loop of `init_terminals`, from terminal `i` with `n` terminals left. -/
def init_terminals_loop (arr : Nat → terminal_t) : Nat → Nat → Nat → terminal_t
  | 0, _ => arr
  | n + 1, i => init_terminals_loop (Function.update arr i (init_terminal_record i)) n (i + 1)

/-- `init_terminals()`. -/
def init_terminals (s : State) : State :=
  { s with
    terminal_arr := init_terminals_loop s.terminal_arr MAX_TERMINALS 0
    TA_idx := 0
    TS_idx := 0
    terminal_active := 0
    terminal_shown := 0 }

/-- `set_active_terminal(next_TA_idx)`. -/
def set_active_terminal (s : State) (next_TA_idx : Nat) : State :=
  -- save esp0, PCB/PID and screen coordinates of the current terminal
  let outgoing : terminal_t :=
    { s.terminal_arr s.terminal_active with
      saved_esp0 := s.tss.esp0
      currentPCB := s.current_PCB
      currentPID := s.currentPID
      cursor_x := s.console.screen_x
      cursor_y := s.console.screen_y }
  let arr := Function.update s.terminal_arr s.terminal_active outgoing
  -- set vidmem pointer for printfs
  let c1 : Console :=
    if next_TA_idx ≠ s.TS_idx then
      { s.console with video_mem := add32 VMEM_BASE_ADDR (mul32 (add32 next_TA_idx 1) _4KB) }
    else { s.console with video_mem := VMEM_BASE_ADDR }
  -- update terminal active
  let incoming := arr next_TA_idx
  -- change screen coords and update cursor if needed
  let c2 : Console :=
    if next_TA_idx = s.TS_idx then
      { c1 with hw_cursor_x := incoming.cursor_x, hw_cursor_y := incoming.cursor_y }
    else c1
  let c3 : Console := { c2 with screen_x := incoming.cursor_x, screen_y := incoming.cursor_y }
  set_user_page
    { s with
      terminal_arr := arr
      console := c3
      TA_idx := next_TA_idx
      terminal_active := next_TA_idx
      tss := { s.tss with esp0 := incoming.saved_esp0 }
      current_PCB := incoming.currentPCB
      currentPID := incoming.currentPID }
    incoming.currentPID

/-! ## Process lifecycle controller (`process.c`, `syscall.c`) -/

/-- The text `too many processes!` followed by a newline. -/
def msg_too_many_processes : List Nat := [116, 111, 111, 32, 109, 97, 110, 121, 32, 112, 114, 111, 99, 101, 115, 115, 101, 115, 33, 10]

/-- The text `failed to load executable!` followed by a newline. -/
def msg_failed_to_load : List Nat := [102, 97, 105, 108, 101, 100, 32, 116, 111, 32, 108, 111, 97, 100, 32, 101, 120, 101, 99, 117, 116, 97, 98, 108, 101, 33, 10]

/-- The command `shell`. -/
def shell_command : List Nat := [115, 104, 101, 108, 108]

/-- The magic string `ELF` that `execute` compares with bytes 1..3 of the file. -/
def elf_str : List Nat := [69, 76, 70]

/-- The loop of `restore_parent` that closes the open files, from descriptor
`i` with `n` descriptors left; `none` when a call goes through a `NULL`
pointer. -/
def close_open_files (pcb : pcb_t) : Nat → Nat → Option Unit
  | 0, _ => some ()
  | n + 1, i =>
    if pcb.open_files &&& shl32 1 i ≠ 0 then
      match (pcb.file_desc_arr i).fops_table_ptr with
      | none => none
      | some table =>
        match table.close with
        | none => none
        | some _ => close_open_files pcb n (i + 1)
    else close_open_files pcb n (i + 1)

/-- Lines 22-36 of `restore_parent`: what follows the loop that closes the
open files. -/
def restore_parent_state (e : Env) (s : State) : State :=
  let pcb := s.pcbs s.current_PCB
  let s1 : State :=
    { s with
      -- restore ESP0 to the ESP0 of the parent process
      tss := { s.tss with esp0 := pcb.parent_esp0 }
      -- masks out the current process indicating availability
      activeProcesses := s.activeProcesses &&& not32 (shl32 1 pcb.id)
      -- changes id to parent id
      currentPID := pcb.parent_pid
      -- changes current pcb to the parent pcb
      current_PCB := pcb_addr pcb.parent_pid }
  -- set the user page to the parent PID
  let s2 := set_user_page s1 s1.currentPID
  -- set virtual page for vidmap
  set_video_mem_page e s2 (s2.pcbs s2.current_PCB).vidmap_inuse

/-- `restore_parent()`; `none` when closing a file calls through `NULL`. -/
def restore_parent (e : Env) (s : State) : Option State :=
  -- close all open files except stdin (fd=0), stdout (fd=1)
  match close_open_files (s.pcbs s.current_PCB) (MAX_FDS - 2) 2 with
  | none => none
  | some _ => some (restore_parent_state e s)

/-- The first loop of `execute`: index of the first space or NUL of the
command (the end of the list is the terminating NUL). -/
def find_args_idx (command : List Nat) : Nat :=
  (command.takeWhile (fun c => decide (c ≠ 32) && decide (c ≠ 0))).length

/-- The executable file name `execute` copies out of the command: its first
`args_idx` bytes, at most 32. -/
def exe_fname (command : List Nat) : List Nat :=
  if 32 ≤ find_args_idx command then command.take 32 else command.take (find_args_idx command)

/-- Modelled from the spec: `strncpy(dest, src, n)` of `lib.c`, which is not
among the sources, taken with its C meaning.  The result is the `n` bytes it
writes to `dest`: the bytes of `src` up to its NUL, then NUL padding. -/
def strncpy (src : List Nat) (n : Nat) : List Nat :=
  (List.range n).map
    (fun i => if i < (src.takeWhile (fun c => decide (c ≠ 0))).length then byte_at src i else 0)

/-- Lines 195-199 of `execute`, the argument string stored in the new process
control block.  `args` holds the bytes of the local array `args` that the
earlier `strncpy` wrote; the rest of the array is uninitialised.  `none` when
the code reads an uninitialised byte: `args[0]` when nothing was written, or
`strcpy` running past the written bytes without meeting a NUL. -/
def cmd_args_of (args : List Nat) : Option (List Nat) :=
  match args with
  | [] => none
  | a0 :: rest =>
    if a0 = 0 then some []
    else if rest.all (fun c => decide (c ≠ 0)) then none
    else some (rest.takeWhile (fun c => decide (c ≠ 0)))

/-- The loop of `execute` that looks for an inactive pid, from `i` with `n`
candidates left. -/
def find_pid (activeProcesses : Nat) : Nat → Nat → Option Nat
  | 0, _ => none
  | n + 1, i => if CHECK_FLAG activeProcesses i = 0 then some i else find_pid activeProcesses n (i + 1)

/-- A 32-bit little-endian word read from the first four bytes of a buffer. -/
def le32 (b : List Nat) : Nat :=
  byte_at b 0 + 256 * byte_at b 1 + 65536 * byte_at b 2 + 16777216 * byte_at b 3

/-- The three assignments `terminal_active->saved_esp0 = tss.esp0`,
`terminal_active->currentPCB = current_PCB` and
`terminal_active->currentPID = currentPID` that end the critical sections of
`execute` and `halt`. -/
def publish_owner (s : State) : State :=
  let term : terminal_t :=
    { s.terminal_arr s.terminal_active with
      saved_esp0 := s.tss.esp0
      currentPCB := s.current_PCB
      currentPID := s.currentPID }
  { s with terminal_arr := Function.update s.terminal_arr s.terminal_active term }

/-- The failure block that follows each of the three load calls of `execute`:
print the message, reset the user page to the caller's, return -1. -/
def load_failed (e : Env) (s1 : State) : Outcome :=
  .returned (set_user_page { s1 with console := e.printf msg_failed_to_load s1.console } s1.currentPID) (-1)

/-- The process control block `execute` writes for `pid` over the previous
content `old` of that memory: lines 189-199, 208 and 213. -/
def new_pcb (old : pcb_t) (pid parent_pid parent_esp0 saved_ebp : Nat) (cmd_args : List Nat) : pcb_t :=
  { old with
    id := pid
    parent_pid := parent_pid
    -- set bits 1 and 0 for stdio
    open_files := 0x03
    -- not using vidmap
    vidmap_inuse := 0
    file_desc_arr := Function.update (Function.update old.file_desc_arr 0 stdin_file_desc) 1 stdout_file_desc
    cmd_args := cmd_args
    -- save current/parent process execute EBP to current PCB
    parent_ebp := saved_ebp
    -- ESP0 of the parent
    parent_esp0 := parent_esp0 }

/-- Lines 187-220 of `execute`: fill the process control block of `pid`,
publish the new process and record it in the active terminal. -/
def spawn (s1 : State) (pid : Nat) (cmd_args : List Nat) (saved_ebp : Nat) : State :=
  -- initialize pcb and allocate kernel memory for program stack
  let process_pcb := pcb_addr pid
  let pcb := new_pcb (s1.pcbs process_pcb) pid s1.currentPID s1.tss.esp0 saved_ebp cmd_args
  publish_owner
    { s1 with
      pcbs := Function.update s1.pcbs process_pcb pcb
      -- update process data
      activeProcesses := (s1.activeProcesses ||| shl32 1 pid) % 4294967296
      currentPID := pid
      current_PCB := process_pcb
      -- child's kernel-mode stack
      tss := { ss0 := KERNEL_DS, esp0 := kernel_stack_top pid } }

/-- `execute(command)`.  `saved_ebp` is the frame pointer of this call.  The
program image that the second `read_data` copies to virtual address 0x8048000
lands in the user frame, which is not part of the modelled state. -/
def execute (e : Env) (s : State) (command : List Nat) (saved_ebp : Nat) : Outcome :=
  -- parse command arguments (space delimited)
  let args_idx := find_args_idx command
  let fname := exe_fname command
  -- copy the rest of the arguments: strncpy(args, &command[args_idx], 128 - args_idx)
  let n := sub32 128 args_idx
  if 128 < n then .undefined
  else
  let args := strncpy (command.drop args_idx) n
  -- check if filename from argument is valid and fill dentry
  match read_dentry_by_name e.disk fname with
  | none => .returned s (-1)
  | some dentry =>
  -- check if file is executable file by checking the ELF magic bytes
  if (read_data e.disk dentry.inode_idx 1 3).1 = -1 then .returned s (-1)
  else if strncmp elf_str (read_data e.disk dentry.inode_idx 1 3).2 3 0 ≠ 0 then .returned s (-1)
  else
  -- try to find an inactive pid
  match find_pid s.activeProcesses MAX_PROCESSES 0 with
  | none => .returned { s with console := e.printf msg_too_many_processes s.console } (-1)
  | some pid =>
  -- allocate a 4MB page at physical address 8MB (virtual memory address 128MB)
  let s1 := set_user_page s pid
  -- load user program from disk into allocated page
  if get_file_length e.disk dentry.file_name = -1 then load_failed e s1
  else
  let file_size := (get_file_length e.disk dentry.file_name % 4294967296).toNat
  -- copy executable file from disk to virtual memory
  if (read_data e.disk dentry.inode_idx 0 file_size).1 = -1 then load_failed e s1
  -- get the EIP for the executable from bytes [24, 27]
  else if (read_data e.disk dentry.inode_idx 24 4).1 = -1 then load_failed e s1
  else
  let program_eip := le32 (read_data e.disk dentry.inode_idx 24 4).2
  -- the argument string for the new process
  match cmd_args_of args with
  | none => .undefined
  | some cmd_args =>
  -- context switch
  .user_mode (spawn s1 pid cmd_args saved_ebp) (VIRTUAL_USER_BASE_ADDR + _4MB) program_eip

/-- The part of `halt` from the call of `restore_parent` on. -/
def halt_resume (e : Env) (s : State) (status parent_ebp : Nat) : Outcome :=
  -- restore the parent ESP0, page, and other stuff
  match restore_parent e s with
  | none => .undefined
  | some s1 =>
    -- update current terminal's esp0 and current PCB/PID
    let s2 := publish_owner s1
    -- check if program was halted from exception or not
    if s2.exception_flag ≠ 0 then
      .to_parent { s2 with exception_flag := 0 } parent_ebp 256
    else
      .to_parent s2 parent_ebp (status % 256)

/-- `halt(status)`.  `status` is a `uint8_t`; `exec_ebp` is the frame pointer
the nested `execute` call would have. -/
def halt (e : Env) (s : State) (status exec_ebp : Nat) : Outcome :=
  -- save parent's execute C function EBP
  let parent_ebp := (s.pcbs s.current_PCB).parent_ebp
  -- check attempt to halt base shell
  if s.currentPID < MAX_TERMINALS then
    let s1 : State := { s with activeProcesses := s.activeProcesses &&& not32 (shl32 1 s.currentPID) }
    match execute e s1 shell_command exec_ebp with
    | .returned s2 _ => halt_resume e s2 status parent_ebp
    | other => other
  else halt_resume e s status parent_ebp

/-! ## Scheduler (`drivers/pit.c`) -/

/-- The part of `PIT_Handler` from the round-robin step on. -/
def PIT_round_robin (e : Env) (s : State) : Outcome :=
  -- round robin scheduling
  let s1 := set_active_terminal s (add32 s.TA_idx 1 % MAX_TERMINALS)
  -- update virtual user page for video memory
  let s2 := set_video_mem_page e s1 (s1.pcbs s1.current_PCB).vidmap_inuse
  -- context switch to other kernel stack
  .switched s2 (s2.terminal_arr s2.terminal_active).saved_ebp

/-- The assignment `terminal_active->saved_ebp = saved_ebp` that opens
`PIT_Handler`. -/
def save_handler_ebp (s : State) (saved_ebp : Nat) : State :=
  let term : terminal_t := { s.terminal_arr s.terminal_active with saved_ebp := saved_ebp }
  { s with terminal_arr := Function.update s.terminal_arr s.terminal_active term }

/-- `PIT_Handler()`.  `saved_ebp` is the frame pointer of the handler,
`exec_ebp` the frame pointer the nested `execute` call would have. -/
def PIT_Handler (e : Env) (s : State) (saved_ebp exec_ebp : Nat) : Outcome :=
  -- save current terminal's PIT_Handler EBP
  let s0 := save_handler_ebp s saved_ebp
  -- execute first 3 base shells
  if s0.pit_counter < 3 then
    -- set active terminal
    let s1 := set_active_terminal s0 s0.pit_counter
    -- increment pit counter
    let s2 : State := { s1 with pit_counter := add32 s1.pit_counter 1 }
    -- execute base shell
    match execute e s2 shell_command exec_ebp with
    | .returned s3 _ => PIT_round_robin e s3
    | other => other
  else PIT_round_robin e s0

/-! ## The stages of `execute`, named for the statements below -/

/-- The directory entry `execute` goes on with when the name lookup and the
executable-format check both pass; `none` when one of them fails. -/
def passes_checks (d : Disk) (command : List Nat) : Option dentry_t :=
  match read_dentry_by_name d (exe_fname command) with
  | none => none
  | some dentry =>
    if (read_data d dentry.inode_idx 1 3).1 = -1 then none
    else if strncmp elf_str (read_data d dentry.inode_idx 1 3).2 3 0 ≠ 0 then none
    else some dentry

/-- The entry address `execute` obtains when `get_file_length` and the two
`read_data` calls that follow the binding of the user window all succeed;
`none` when one of them fails. -/
def load_image (d : Disk) (dentry : dentry_t) : Option Nat :=
  if get_file_length d dentry.file_name = -1 then none
  else if (read_data d dentry.inode_idx 0 (get_file_length d dentry.file_name % 4294967296).toNat).1 = -1 then
    none
  else if (read_data d dentry.inode_idx 24 4).1 = -1 then none
  else some (le32 (read_data d dentry.inode_idx 24 4).2)

/-- The bytes `execute` writes into its local array `args`. -/
def args_of (command : List Nat) : List Nat :=
  strncpy (command.drop (find_args_idx command)) (sub32 128 (find_args_idx command))

/-- Slot `i` of a process control block points to a jump table whose `close`
member is a function. -/
def slot_closable (pcb : pcb_t) (i : Nat) : Bool :=
  ((pcb.file_desc_arr i).fops_table_ptr.bind fops_jumptable_t.close).isSome

/-- Every slot in 2..7 whose bit is set in `open_files` can be closed. -/
def open_slots_closable (pcb : pcb_t) : Prop :=
  ∀ i, i < MAX_FDS → 2 ≤ i → pcb.open_files &&& shl32 1 i ≠ 0 → slot_closable pcb i = true

instance (pcb : pcb_t) : Decidable (open_slots_closable pcb) :=
  inferInstanceAs (Decidable (∀ i, i < MAX_FDS → _))

/-! ## Memory seen through the user window -/

/-- A byte read by user code at virtual address `vaddr` of the user window:
the physical byte selected by page directory entry `USER_MEM_PD_ENTRY`. -/
def user_read (s : State) (mem : Nat → Nat) (vaddr : Nat) : Nat :=
  mem ((s.page_dir USER_MEM_PD_ENTRY).translate vaddr)

/-- Physical memory after user code stores byte `b` at virtual address `vaddr`
of the user window. -/
def user_write (s : State) (mem : Nat → Nat) (vaddr b : Nat) : Nat → Nat :=
  Function.update mem ((s.page_dir USER_MEM_PD_ENTRY).translate vaddr) b

/-! ## A concrete machine used to exercise the definitions -/

/-- A name stored in a 32-byte directory entry field, NUL padded. -/
def pad32 (name : List Nat) : List Nat := name ++ List.replicate (32 - name.length) 0

/-- First 40 bytes of an executable: the magic bytes, and the entry address
0x080482E8 in bytes 24..27. -/
def sample_shell_image : List Nat := [127, 69, 76, 70, 1, 1, 1, 0, 0, 0, 0, 0, 0, 0, 0, 0, 0, 0, 0, 0, 0, 0, 0, 0, 232, 130, 4, 8, 0, 0, 0, 0, 0, 0, 0, 0, 0, 0, 0, 0]

/-- A 10-byte file that starts with the magic bytes but is too short to hold
an entry address. -/
def sample_tiny_image : List Nat := [127, 69, 76, 70, 1, 1, 1, 0, 0, 0]

/-- A text file with the content `hello`. -/
def sample_text : List Nat := [104, 101, 108, 108, 111]

/-- A file system with the directory `.`, the executable `shell`, the
truncated executable `tiny` and the text file `frame0.txt`; each file occupies
one data block. -/
def sample_disk : Disk :=
  { num_dir_entries := 4
    num_inodes := 4
    num_dblocks := 3
    file_dir_arr := fun i =>
      if i = 0 then { file_name := pad32 [46], file_type := DIRECTORY_FILE_TYPE, inode_idx := 0 }
      else if i = 1 then { file_name := pad32 shell_command, file_type := REGULAR_FILE_TYPE, inode_idx := 1 }
      else if i = 2 then { file_name := pad32 [116, 105, 110, 121], file_type := REGULAR_FILE_TYPE, inode_idx := 2 }
      else if i = 3 then
        { file_name := pad32 [102, 114, 97, 109, 101, 48, 46, 116, 120, 116], file_type := REGULAR_FILE_TYPE, inode_idx := 3 }
      else { file_name := pad32 [], file_type := 0, inode_idx := 0 }
    inodes_arr := fun i =>
      if i = 1 then { file_size := 40, block_idx_arr := fun _ => 0 }
      else if i = 2 then { file_size := 10, block_idx_arr := fun k => if k = 0 then 1 else 0 }
      else if i = 3 then { file_size := 5, block_idx_arr := fun k => if k = 0 then 2 else 0 }
      else { file_size := 0, block_idx_arr := fun _ => 0 }
    data := fun a =>
      if a < 4096 then byte_at sample_shell_image a
      else if a < 8192 then byte_at sample_tiny_image (a - 4096)
      else byte_at sample_text (a - 8192) }

/-- An environment around `sample_disk`; `printf` moves the screen column by
the length of the text. -/
def sample_env : Env :=
  { disk := sample_disk
    user_page_table_addr := 0x00412000
    printf := fun text c => { c with screen_x := c.screen_x + text.length } }

/-- A process control block with every field zero. -/
def zero_pcb : pcb_t :=
  { id := 0, parent_pid := 0, parent_esp0 := 0, parent_ebp := 0, open_files := 0, vidmap_inuse := 0
    cmd_args := []
    file_desc_arr := fun _ => { fops_table_ptr := none, inode_num := 0, file_pos := 0, flags := 0 } }

/-- A page directory entry with every field zero. -/
def zero_pde : pde_desc_t :=
  { present := 0, read_write := 0, user_supervisor := 0, write_through := 0, cache_disable := 0
    accessed := 0, dirty := 0, page_size := 0, global := 0, available := 0
    page_table_attr_idx := 0, page_base_addr := 0 }

/-- A page table entry with every field zero. -/
def zero_pte : pte_desc_t :=
  { present := 0, read_write := 0, user_supervisor := 0, write_through := 0, cache_disable := 0
    accessed := 0, dirty := 0, page_table_attr_idx := 0, global := 0, available := 0
    page_base_addr := 0 }

/-- The globals as the loader leaves them (zeroed), with the kernel stack
pointer at 8MB. -/
def zero_state : State :=
  { tss := { ss0 := KERNEL_DS, esp0 := 0x800000 }
    page_dir := fun _ => zero_pde
    user_page_table := fun _ => zero_pte
    activeProcesses := 0
    currentPID := 0
    current_PCB := 0
    pcbs := fun _ => zero_pcb
    exception_flag := 0
    TA_idx := 0
    TS_idx := 0
    terminal_active := 0
    terminal_shown := 0
    terminal_arr := fun _ => init_terminal_record 0
    pit_counter := 0
    console := { screen_x := 0, screen_y := 0, video_mem := VMEM_BASE_ADDR, hw_cursor_x := 0, hw_cursor_y := 0 } }

/-- The state at the first timer interrupt: terminals initialised, no process
yet. -/
def boot_state : State := init_terminals zero_state

/-- The command `nonexistent_file`. -/
def nonexistent_file : List Nat := [110, 111, 110, 101, 120, 105, 115, 116, 101, 110, 116, 95, 102, 105, 108, 101]

/-- The command `tiny`. -/
def tiny_command : List Nat := [116, 105, 110, 121]

/-- The state an outcome leaves behind (`zero_state` when undefined). -/
def outcome_state : Outcome → State
  | .returned s _ => s
  | .user_mode s _ _ => s
  | .to_parent s _ _ => s
  | .switched s _ => s
  | .undefined => zero_state

/-- The state after the first timer tick on the sample machine. -/
def tick0_state : State := outcome_state (PIT_Handler sample_env boot_state 0x7FDF00 0x7FDE00)

/-- The state after the second timer tick on the sample machine. -/
def tick1_state : State := outcome_state (PIT_Handler sample_env tick0_state 0x7FFF00 0x7FFE00)

/-- The state after the third timer tick on the sample machine: one shell per
terminal. -/
def tick2_state : State := outcome_state (PIT_Handler sample_env tick1_state 0x7FDF00 0x7FDE00)

/-- The shell of terminal 2 has launched a program, which received id 3. -/
def child_state : State := outcome_state (execute sample_env tick2_state shell_command 0x7FBE00)

/-! ## Sequences of timer ticks and system calls -/

/-- The outcomes of successive timer interrupts, each taken in the state the
previous one left; `ebps` gives, per interrupt, the frame pointer of the
handler and the frame pointer of the `execute` call it may make.  The sequence
ends when an outcome is undefined. -/
def tick_outcomes (e : Env) : State → List (Nat × Nat) → List Outcome
  | _, [] => []
  | s, t :: rest =>
    PIT_Handler e s t.1 t.2 ::
      (match (PIT_Handler e s t.1 t.2).state? with
       | none => []
       | some s' => tick_outcomes e s' rest)

/-- The boot state reached from memory content `s0`: `init_terminals` has run,
`init_PIT` has zeroed `pit_counter`, and no process is active. -/
def boot_from (s0 : State) : State :=
  { init_terminals s0 with pit_counter := 0, activeProcesses := 0 }

/-- What can happen between two looks at the scheduler: a timer interrupt, or
the running user code entering `execute` or `halt`. -/
inductive Event where
  | tick (saved_ebp exec_ebp : Nat)
  | execute (command : List Nat) (saved_ebp : Nat)
  | halt (status exec_ebp : Nat)

/-- The outcome of an event in a state. -/
def Event.outcome (e : Env) (s : State) : Event → Outcome
  | .tick saved_ebp exec_ebp => PIT_Handler e s saved_ebp exec_ebp
  | .execute command saved_ebp => OS.execute e s command saved_ebp
  | .halt status exec_ebp => OS.halt e s status exec_ebp

/-- Physical address reached through a page table entry by a virtual address:
the 4KB frame of the entry plus the low 12 bits of the virtual address. -/
def pte_desc_t.translate (p : pte_desc_t) (vaddr : Nat) : Nat :=
  p.page_base_addr * 4096 + vaddr % 4096

/-- The loop of `open` that looks for a free descriptor, from `fd` with `n`
candidates left; the result is the value of `fd` when the loop is left. -/
def find_fd (open_files : Nat) : Nat → Nat → Nat
  | 0, fd => fd
  | n + 1, fd => if CHECK_FLAG open_files fd = 0 then fd else find_fd open_files n (fd + 1)

/-- The `open` member of a jump table, called with the file name: the state it
leaves and its return value.  `rtc_open` sets the active terminal's frequency
bit to 8, the file, directory and console functions do nothing; all return 0. -/
def fops_jumptable_t.open_member (t : fops_jumptable_t) (s : State) : State × Int :=
  match t with
  | .rtc_jmptable =>
    let term : terminal_t := { s.terminal_arr s.terminal_active with rtc_freq_bit := 8 }
    ({ s with terminal_arr := Function.update s.terminal_arr s.terminal_active term }, 0)
  | .file_jmptable => (s, 0)
  | .directory_jmptable => (s, 0)
  | .stdin_jmptable => (s, 0)
  | .stdout_jmptable => (s, 0)

/-- The jump table the `switch` of `open` stores for a file type; `old` is the
pointer the slot held before, which stays when no case matches. -/
def select_jmptable (file_type : Nat) (old : Option fops_jumptable_t) : Option fops_jumptable_t :=
  if file_type = RTC_FILE_TYPE then some .rtc_jmptable
  else if file_type = DIRECTORY_FILE_TYPE then some .directory_jmptable
  else if file_type = REGULAR_FILE_TYPE then some .file_jmptable
  else old

/-- The current process control block with slot `fd` replaced. -/
def set_slot (s : State) (fd : Nat) (slot : file_desc_t) : State :=
  let pcb := s.pcbs s.current_PCB
  let pcb1 : pcb_t := { pcb with file_desc_arr := Function.update pcb.file_desc_arr fd slot }
  { s with pcbs := Function.update s.pcbs s.current_PCB pcb1 }

/-- The current process control block with `open_files` replaced; the field is
a `uint8_t`. -/
def set_open_files (s : State) (mask : Nat) : State :=
  let pcb := s.pcbs s.current_PCB
  let pcb1 : pcb_t := { pcb with open_files := mask % 256 }
  { s with pcbs := Function.update s.pcbs s.current_PCB pcb1 }

/-- `open(filename)`.  The system call is named `sys_open` here, `open` being a
reserved word. -/
def sys_open (e : Env) (s : State) (filename : List Nat) : Outcome :=
  -- calculate an available fd index by bit shifting
  let fd := find_fd (s.pcbs s.current_PCB).open_files (MAX_FDS - 2) 2
  -- check if there are any available file descriptors
  if fd = MAX_FDS then .returned s (-1)
  else
  -- try to find the given filename
  match read_dentry_by_name e.disk filename with
  | none => .returned s (-1)
  | some dentry =>
  -- conditionally determine jump table from file type, initialize file descriptor
  let table := select_jmptable dentry.file_type ((s.pcbs s.current_PCB).file_desc_arr fd).fops_table_ptr
  let s1 := set_slot s fd { fops_table_ptr := table, inode_num := dentry.inode_idx, file_pos := 0, flags := 0 }
  -- call the respective file's open syscall
  match table with
  | none => .undefined
  | some t =>
  if (t.open_member s1).2 = -1 then .returned (t.open_member s1).1 (-1)
  else
  -- set the corresponding bit in open_files
  let s2 := (t.open_member s1).1
  .returned (set_open_files s2 ((s2.pcbs s2.current_PCB).open_files ||| shl32 1 fd)) fd

/-- The slot `close` leaves behind: every field cleared. -/
def cleared_file_desc : file_desc_t :=
  { fops_table_ptr := none, inode_num := 0, file_pos := 0, flags := 0 }

/-- `close(fd)`; `fd` is an `int32_t`. -/
def close (s : State) (fd : Int) : Outcome :=
  -- check if the fd is in range [2, 8), cannot close stdin, stdout
  if fd < 2 ∨ (MAX_FDS : Int) ≤ fd then .returned s (-1)
  -- check fd bit of open_files for file availability
  else if CHECK_FLAG (s.pcbs s.current_PCB).open_files fd.toNat = 0 then .returned s (-1)
  else
  -- call the respective file's close syscall
  match ((s.pcbs s.current_PCB).file_desc_arr fd.toNat).fops_table_ptr with
  | none => .undefined
  | some t =>
  match t.close with
  | none => .undefined
  | some r =>
  if r = -1 then .returned s (-1)
  else
  -- clear respective file descriptor, clear the corresponding bit in open_files
  let s1 := set_slot s fd.toNat cleared_file_desc
  .returned (set_open_files s1 ((s1.pcbs s1.current_PCB).open_files &&& not32 (shl32 1 fd.toNat))) 0

/-- `vidmap(screen_start)`.  The word stored through `screen_start` lands in
the user frame, which is not part of the modelled state. -/
def vidmap (e : Env) (s : State) (screen_start : Nat) : Outcome :=
  -- validate screen_start is within user memory
  if screen_start < VIRTUAL_USER_BASE_ADDR ∨ VIRTUAL_USER_BASE_ADDR + _4MB ≤ screen_start then
    .returned s (-1)
  else
  -- set the video memory page
  let s1 := set_video_mem_page e s 1
  -- set using vidmap flag
  let pcb := s1.pcbs s1.current_PCB
  let pcb1 : pcb_t := { pcb with vidmap_inuse := 1 }
  .returned { s1 with pcbs := Function.update s1.pcbs s1.current_PCB pcb1 } 0


/-! ## Fault handlers (`intr.c`) -/

/-- How a fault handler ends. -/
inductive FaultOutcome where
  /-- The handler reached `while (1) {}` with interrupts disabled: nothing runs
  any more, and the globals stay as given. -/
  | system_stopped (s : State)
  /-- The handler called `halt`, which gave up control as recorded. -/
  | halted (o : Outcome)

/-- The body shared by the handlers that terminate the running program:
`printf(msg); exception_flag = 1; halt(NULL);`.  `msg` is the format string;
the values some handlers print with it (`ecode`, `oldeip`, `source`) have no
counterpart in the state. -/
def terminate_program (e : Env) (s : State) (msg : List Nat) (exec_ebp : Nat) : FaultOutcome :=
  let s1 : State := { s with console := e.printf msg s.console }
  let s2 : State := { s1 with exception_flag := 1 }
  .halted (halt e s2 0 exec_ebp)

/-- The body shared by the handlers that stop the system:
`printf(msg); while (1) {}`. -/
def blue_screen (e : Env) (s : State) (msg : List Nat) : FaultOutcome :=
  .system_stopped { s with console := e.printf msg s.console }

/-- The text `Divide Error` followed by a newline. -/
def msg_Divide_Error : List Nat := [68, 105, 118, 105, 100, 101, 32, 69, 114, 114, 111, 114, 10]

/-- `Divide_Error_Handler()`; `exec_ebp` is the frame pointer the nested `execute` call
of `halt` would have. -/
def Divide_Error_Handler (e : Env) (s : State) (exec_ebp : Nat) : FaultOutcome :=
  terminate_program e s msg_Divide_Error exec_ebp

/-- The text `Debug Exception` followed by a newline. -/
def msg_Debug_Expection : List Nat := [68, 101, 98, 117, 103, 32, 69, 120, 99, 101, 112, 116, 105, 111, 110, 10]

/-- `Debug_Expection_Handler()`; `exec_ebp` is the frame pointer the nested `execute` call
of `halt` would have. -/
def Debug_Expection_Handler (e : Env) (s : State) (exec_ebp : Nat) : FaultOutcome :=
  terminate_program e s msg_Debug_Expection exec_ebp

/-- The text `NMI Interrupt` followed by a newline. -/
def msg_NMI_Interrupt : List Nat := [78, 77, 73, 32, 73, 110, 116, 101, 114, 114, 117, 112, 116, 10]

/-- `NMI_Interrupt_Handler()`. -/
def NMI_Interrupt_Handler (e : Env) (s : State) : FaultOutcome :=
  blue_screen e s msg_NMI_Interrupt

/-- The text `Breakpoint` followed by a newline. -/
def msg_Breakpoint : List Nat := [66, 114, 101, 97, 107, 112, 111, 105, 110, 116, 10]

/-- `Breakpoint_Handler()`; `exec_ebp` is the frame pointer the nested `execute` call
of `halt` would have. -/
def Breakpoint_Handler (e : Env) (s : State) (exec_ebp : Nat) : FaultOutcome :=
  terminate_program e s msg_Breakpoint exec_ebp

/-- The text `Overflow` followed by a newline. -/
def msg_Overflow : List Nat := [79, 118, 101, 114, 102, 108, 111, 119, 10]

/-- `Overflow_Handler()`; `exec_ebp` is the frame pointer the nested `execute` call
of `halt` would have. -/
def Overflow_Handler (e : Env) (s : State) (exec_ebp : Nat) : FaultOutcome :=
  terminate_program e s msg_Overflow exec_ebp

/-- The text `Bound Range Exceeded` followed by a newline. -/
def msg_Bound_Range_Exceeded : List Nat := [66, 111, 117, 110, 100, 32, 82, 97, 110, 103, 101, 32, 69, 120, 99, 101, 101, 100, 101, 100, 10]

/-- `Bound_Range_Exceeded_Handler()`; `exec_ebp` is the frame pointer the nested `execute` call
of `halt` would have. -/
def Bound_Range_Exceeded_Handler (e : Env) (s : State) (exec_ebp : Nat) : FaultOutcome :=
  terminate_program e s msg_Bound_Range_Exceeded exec_ebp

/-- The text `Invalid Opcode` followed by a newline. -/
def msg_Invalid_Opcode : List Nat := [73, 110, 118, 97, 108, 105, 100, 32, 79, 112, 99, 111, 100, 101, 10]

/-- `Invalid_Opcode_Handler()`; `exec_ebp` is the frame pointer the nested `execute` call
of `halt` would have. -/
def Invalid_Opcode_Handler (e : Env) (s : State) (exec_ebp : Nat) : FaultOutcome :=
  terminate_program e s msg_Invalid_Opcode exec_ebp

/-- The text `Device Not Available` followed by a newline. -/
def msg_Device_Not_Available : List Nat := [68, 101, 118, 105, 99, 101, 32, 78, 111, 116, 32, 65, 118, 97, 105, 108, 97, 98, 108, 101, 10]

/-- `Device_Not_Available_Handler()`; `exec_ebp` is the frame pointer the nested `execute` call
of `halt` would have. -/
def Device_Not_Available_Handler (e : Env) (s : State) (exec_ebp : Nat) : FaultOutcome :=
  terminate_program e s msg_Device_Not_Available exec_ebp

/-- The text `Double Fault` followed by a newline. -/
def msg_Double_Fault : List Nat := [68, 111, 117, 98, 108, 101, 32, 70, 97, 117, 108, 116, 10]

/-- `Double_Fault_Handler()`. -/
def Double_Fault_Handler (e : Env) (s : State) : FaultOutcome :=
  blue_screen e s msg_Double_Fault

/-- The text `Coprocessor Segment Overrun` followed by a newline. -/
def msg_Coprocessor_Segment_Overrun : List Nat := [67, 111, 112, 114, 111, 99, 101, 115, 115, 111, 114, 32, 83, 101, 103, 109, 101, 110, 116, 32, 79, 118, 101, 114, 114, 117, 110, 10]

/-- `Coprocessor_Segment_Overrun_Handler()`. -/
def Coprocessor_Segment_Overrun_Handler (e : Env) (s : State) : FaultOutcome :=
  blue_screen e s msg_Coprocessor_Segment_Overrun

/-- The text `Invalid TSS` followed by a newline. -/
def msg_Invalid_TSS : List Nat := [73, 110, 118, 97, 108, 105, 100, 32, 84, 83, 83, 10]

/-- `Invalid_TSS_Handler()`. -/
def Invalid_TSS_Handler (e : Env) (s : State) : FaultOutcome :=
  blue_screen e s msg_Invalid_TSS

/-- The text `Segment Not Present` followed by a newline and the format of the values printed after it. -/
def msg_Segment_Not_Present : List Nat := [83, 101, 103, 109, 101, 110, 116, 32, 78, 111, 116, 32, 80, 114, 101, 115, 101, 110, 116, 10, 9, 69, 67, 79, 68, 69, 58, 32, 37, 120, 35, 35, 35, 35, 35, 35, 35, 35, 35, 35, 35, 35, 35, 35, 35, 35, 35, 35, 35, 35, 35, 35, 35, 35, 35, 10, 9, 79, 76, 68, 32, 69, 73, 80, 58, 32, 37, 120, 35, 35, 35, 35, 35, 35, 35, 35, 35, 35, 35, 35, 35, 35, 35, 35, 35, 35, 35, 35, 35, 35, 35, 35, 35, 10]

/-- `Segment_Not_Present_Handler()`. -/
def Segment_Not_Present_Handler (e : Env) (s : State) : FaultOutcome :=
  blue_screen e s msg_Segment_Not_Present

/-- The text `Stack Segment Fault` followed by a newline. -/
def msg_Stack_Segment_Fault : List Nat := [83, 116, 97, 99, 107, 32, 83, 101, 103, 109, 101, 110, 116, 32, 70, 97, 117, 108, 116, 10]

/-- `Stack_Segment_Fault_Handler()`. -/
def Stack_Segment_Fault_Handler (e : Env) (s : State) : FaultOutcome :=
  blue_screen e s msg_Stack_Segment_Fault

/-- The text `General Protection` followed by a newline and the format of the values printed after it. -/
def msg_General_Protection : List Nat := [71, 101, 110, 101, 114, 97, 108, 32, 80, 114, 111, 116, 101, 99, 116, 105, 111, 110, 10, 9, 69, 67, 79, 68, 69, 58, 32, 37, 120, 10, 9, 79, 76, 68, 32, 69, 73, 80, 58, 32, 37, 120, 10]

/-- `General_Protection_Handler()`. -/
def General_Protection_Handler (e : Env) (s : State) : FaultOutcome :=
  blue_screen e s msg_General_Protection

/-- The text `Page Fault` followed by a newline and the format of the values printed after it. -/
def msg_Page_Fault : List Nat := [80, 97, 103, 101, 32, 70, 97, 117, 108, 116, 10, 9, 69, 67, 79, 68, 69, 58, 32, 37, 120, 10, 9, 79, 76, 68, 32, 69, 73, 80, 58, 32, 37, 120, 10, 9, 83, 79, 85, 82, 67, 69, 32, 65, 68, 68, 82, 58, 32, 37, 120, 10]

/-- `Page_Fault_Handler()`; `exec_ebp` is the frame pointer the nested `execute` call
of `halt` would have. -/
def Page_Fault_Handler (e : Env) (s : State) (exec_ebp : Nat) : FaultOutcome :=
  terminate_program e s msg_Page_Fault exec_ebp

/-- The text `Assertion Fail` followed by a newline. -/
def msg_Assertion_Fail : List Nat := [65, 115, 115, 101, 114, 116, 105, 111, 110, 32, 70, 97, 105, 108, 10]

/-- `Assertion_Fail_Handler()`; `exec_ebp` is the frame pointer the nested `execute` call
of `halt` would have. -/
def Assertion_Fail_Handler (e : Env) (s : State) (exec_ebp : Nat) : FaultOutcome :=
  terminate_program e s msg_Assertion_Fail exec_ebp

/-- The text `FPU Floating Point Error` followed by a newline. -/
def msg_FPU_Floating_Point_Error : List Nat := [70, 80, 85, 32, 70, 108, 111, 97, 116, 105, 110, 103, 32, 80, 111, 105, 110, 116, 32, 69, 114, 114, 111, 114, 10]

/-- `FPU_Floating_Point_Error_Handler()`. -/
def FPU_Floating_Point_Error_Handler (e : Env) (s : State) : FaultOutcome :=
  blue_screen e s msg_FPU_Floating_Point_Error

/-- The text `Alignment Check` followed by a newline. -/
def msg_Alignment_Check : List Nat := [65, 108, 105, 103, 110, 109, 101, 110, 116, 32, 67, 104, 101, 99, 107, 10]

/-- `Alignment_Check_Handler()`. -/
def Alignment_Check_Handler (e : Env) (s : State) : FaultOutcome :=
  blue_screen e s msg_Alignment_Check

/-- The text `Machine Check` followed by a newline. -/
def msg_Machine_Check : List Nat := [77, 97, 99, 104, 105, 110, 101, 32, 67, 104, 101, 99, 107, 10]

/-- `Machine_Check_Handler()`. -/
def Machine_Check_Handler (e : Env) (s : State) : FaultOutcome :=
  blue_screen e s msg_Machine_Check

/-- The text `SIMD Floating Point Exception` followed by a newline. -/
def msg_SIMD_Floating_Point_Exception : List Nat := [83, 73, 77, 68, 32, 70, 108, 111, 97, 116, 105, 110, 103, 32, 80, 111, 105, 110, 116, 32, 69, 120, 99, 101, 112, 116, 105, 111, 110, 10]

/-- `SIMD_Floating_Point_Exception_Handler()`. -/
def SIMD_Floating_Point_Exception_Handler (e : Env) (s : State) : FaultOutcome :=
  blue_screen e s msg_SIMD_Floating_Point_Exception

/-! ## Notions used by the statements on descriptors, faults and parsing -/

/-- A descriptor system call of the running process. -/
inductive FdCall where
  | sys_open (filename : List Nat)
  | close (fd : Int)

/-- The outcome of a descriptor system call in a state. -/
def FdCall.outcome (e : Env) (s : State) : FdCall → Outcome
  | .sys_open filename => OS.sys_open e s filename
  | .close fd => OS.close s fd

/-- The state after a run of descriptor system calls, each made in the state
the previous one left; `none` when some call has an undefined outcome. -/
def run_fd_calls (e : Env) : State → List FdCall → Option State
  | s, [] => some s
  | s, c :: rest =>
    match (c.outcome e s).state? with
    | none => none
    | some s' => run_fd_calls e s' rest

/-- Every directory entry of the image has one of the three file types that
the `switch` of `open` knows. -/
def known_file_types (d : Disk) : Prop :=
  ∀ i, i < d.num_dir_entries →
    (d.file_dir_arr i).file_type = RTC_FILE_TYPE ∨ (d.file_dir_arr i).file_type = DIRECTORY_FILE_TYPE
      ∨ (d.file_dir_arr i).file_type = REGULAR_FILE_TYPE

instance (d : Disk) : Decidable (known_file_types d) :=
  inferInstanceAs (Decidable (∀ i, i < d.num_dir_entries → _))

/-- The slot invariant with both directions: for every slot 0..7 the
jump-table pointer is non-NULL exactly when the slot's bit is set in
`open_files`. -/
def slot_iff_bit (pcb : pcb_t) : Prop :=
  ∀ k, k < MAX_FDS → ((pcb.file_desc_arr k).fops_table_ptr ≠ none ↔ CHECK_FLAG pcb.open_files k ≠ 0)

instance (pcb : pcb_t) : Decidable (slot_iff_bit pcb) :=
  inferInstanceAs (Decidable (∀ k, k < MAX_FDS → _))

/-- One direction of the slot invariant: every slot 0..7 whose bit is set in
`open_files` holds a non-NULL jump-table pointer. -/
def open_slots_bound (pcb : pcb_t) : Prop :=
  ∀ k, k < MAX_FDS → CHECK_FLAG pcb.open_files k ≠ 0 → (pcb.file_desc_arr k).fops_table_ptr ≠ none

instance (pcb : pcb_t) : Decidable (open_slots_bound pcb) :=
  inferInstanceAs (Decidable (∀ k, k < MAX_FDS → _))

/-- The value handed to the parent's `execute` call, when the outcome is a
return through `halt_asm`. -/
def Outcome.exit_value? : Outcome → Option Nat
  | .to_parent _ _ ret_val => some ret_val
  | _ => none

/-- The state a fault handler leaves behind (`zero_state` when undefined). -/
def FaultOutcome.state : FaultOutcome → State
  | .system_stopped s => s
  | .halted o => outcome_state o

/-- Byte `p` of the file of an inode: byte `p % 4096` of the data block whose
index is entry `p / 4096` of the inode. -/
def file_byte (d : Disk) (ino : inode_t) (p : Nat) : Nat :=
  d.data (ino.block_idx_arr (p / DISK_BLOCK_SIZE) * DISK_BLOCK_SIZE + p % DISK_BLOCK_SIZE)

/-- The 4-byte signature 0x7F `E` `L` `F`. -/
def elf_magic : List Nat := [127, 69, 76, 70]

/-- The file of an inode begins with the 4-byte signature. -/
def begins_with_magic (d : Disk) (ino : inode_t) : Prop :=
  4 ≤ ino.file_size ∧ (List.range 4).map (file_byte d ino) = elf_magic

instance (d : Disk) (ino : inode_t) : Decidable (begins_with_magic d ino) :=
  inferInstanceAs (Decidable (_ ∧ _))

/-- The text of a command line before its first space. -/
def text_before_space (command : List Nat) : List Nat :=
  command.takeWhile (fun c => decide (c ≠ 32))

/-- The text of a command line after its first space; empty when there is no
space. -/
def text_after_space (command : List Nat) : List Nat :=
  (command.dropWhile (fun c => decide (c ≠ 32))).drop 1

/-! ## Further states of the concrete machine -/

/-- The name `frame0.txt`. -/
def frame0_name : List Nat := [102, 114, 97, 109, 101, 48, 46, 116, 120, 116]

/-- The program with id 3 has opened `frame0.txt`, which took descriptor 2. -/
def child_open_state : State := outcome_state (sys_open sample_env child_state frame0_name)

/-- The program with id 3 has terminated without closing the file; the shell
of terminal 2 runs again. -/
def child_halted_state : State := outcome_state (halt sample_env child_open_state 0 0x7FBC00)

/-- The shell of terminal 2 has launched another program, which received id 3
again. -/
def relaunch_state : State := outcome_state (execute sample_env child_halted_state shell_command 0x7FBE00)

/-- The shell of terminal 2 (id 2) took a page fault: the handler terminated
it and `halt` started it again. -/
def respawned_shell_state : State := (Page_Fault_Handler sample_env tick2_state 0x7FBC00).state

/-- The restarted shell has launched a program, which received id 3. -/
def second_child_state : State :=
  outcome_state (execute sample_env respawned_shell_state shell_command 0x7FBE00)

/-- The shell of terminal 2 has called `vidmap` with a pointer into its user
page. -/
def vidmap_state : State := outcome_state (vidmap sample_env tick2_state 0x08000100)

/-- The shell that called `vidmap` has launched a program, which received
id 3. -/
def vidmap_child_state : State := outcome_state (execute sample_env vidmap_state shell_command 0x7FBE00)

/-- The command `shell` followed by a space and 125 letters `a`. -/
def long_args_command : List Nat := shell_command ++ [32] ++ List.replicate 125 97

/-- The command `shell` followed by a space and the argument `frame0.txt`. -/
def shell_frame0_command : List Nat := shell_command ++ [32] ++ frame0_name

/-- The image `sample_disk` with the first byte of the file `shell` changed
from 0x7F to 0: the file begins with the bytes 0, `E`, `L`, `F`. -/
def bad_magic_disk : Disk :=
  { sample_disk with data := fun a => if a = 0 then 0 else sample_disk.data a }

/-- The environment `sample_env` around `bad_magic_disk`. -/
def bad_magic_env : Env := { sample_env with disk := bad_magic_disk }

/-! ## Directory lookup by index (`drivers/fsys.c`) -/

/-- `read_dentry_by_index(index, dentry)`: the return value and the content of
`*dentry` afterwards.  Index 0 stands for the boot entry; index `i` in
`1..num_dir_entries` is entry `i - 1` of the directory table. -/
def read_dentry_by_index (d : Disk) (index : Nat) (dentry : dentry_t) : Int × dentry_t :=
  -- failure if index is boot dentry or outside the number of dentries
  if index = 0 ∨ d.num_dir_entries < index then (-1, dentry)
  -- copy the whole dentry
  else (0, d.file_dir_arr (index - 1))

/-- A directory entry filled with values no image holds, as the test of
`read_dentry_by_index` prepares it (`hello`, type 7, inode 9). -/
def scratch_dentry : dentry_t :=
  { file_name := pad32 [104, 101, 108, 108, 111], file_type := 7, inode_idx := 9 }

/-- The image `sample_disk` with a directory of 17 entries (the entries after
`frame0.txt` have an empty name). -/
def seventeen_disk : Disk := { sample_disk with num_dir_entries := 17 }

/-! ## Virtual real-time clock (`drivers/rtc.c`) -/

/-- The loop `while (freq != 0x02) { freq = freq >> 1; freq_bit--; }` of
`rtc_write`, run for at most `n` iterations; `none` when it has not ended by
then.  After 32 iterations a 32-bit `freq` is 0 and stays 0, so with `n = 32`
the result `none` means the loop never ends. -/
def rtc_shift_loop : Nat → Nat → Nat → Option Nat
  | 0, freq, freq_bit => if freq = 2 then some freq_bit else none
  | n + 1, freq, freq_bit =>
    if freq = 2 then some freq_bit else rtc_shift_loop n (freq >>> 1) (sub32 freq_bit 1)

/-- `rtc_write(fd, buf, nbytes)`, where `freq` is the 32-bit integer `buf`
points to.  The outcome is undefined when the loop does not end. -/
def rtc_write (s : State) (freq : Nat) : Outcome :=
  -- check if rate is power of 2, between 2 and 512 inclusive
  if ¬ (freq &&& sub32 freq 1 = 0 ∧ 2 ≤ freq ∧ freq ≤ 512) then .returned s (-1)
  else
  -- calculate freq_bit: freq_bit=0 <-> freq=512, freq_bit=8 <-> freq=2
  match rtc_shift_loop 32 freq 8 with
  | none => .undefined
  | some freq_bit =>
    -- set the frequency bit of active terminal
    let term : terminal_t := { s.terminal_arr s.terminal_active with rtc_freq_bit := freq_bit }
    .returned { s with terminal_arr := Function.update s.terminal_arr s.terminal_active term } 0

/-- The test `RTC_Handler` makes for a terminal whose frequency bit is
`freq_bit`: that bit of `rtc_counter` differs from the same bit of
`rtc_counter + 1`. -/
def rtc_bit_changes (rtc_counter freq_bit : Nat) : Bool :=
  decide (CHECK_FLAG rtc_counter freq_bit ≠ CHECK_FLAG (add32 rtc_counter 1) freq_bit)

/-- The loop of `RTC_Handler` over the terminals, from terminal `i` with `n`
terminals left. -/
def rtc_update_flags (rtc_counter : Nat) (arr : Nat → terminal_t) : Nat → Nat → Nat → terminal_t
  | 0, _ => arr
  | n + 1, i =>
    -- set the RTC interrupt flag when specified bit on rtc_counter changes
    if rtc_bit_changes rtc_counter (arr i).rtc_freq_bit then
      rtc_update_flags rtc_counter
        (Function.update arr i { arr i with rtc_interrupt_occurred := 1 }) n (i + 1)
    else rtc_update_flags rtc_counter arr n (i + 1)

/-- `RTC_Handler()`: the globals and `rtc_counter` afterwards. -/
def RTC_Handler (s : State) (rtc_counter : Nat) : State × Nat :=
  -- update RTC interrupt flag for all terminals at once, increment rtc_counter
  ({ s with terminal_arr := rtc_update_flags rtc_counter s.terminal_arr MAX_TERMINALS 0 },
   add32 rtc_counter 1)

/-! ## The shown terminal (`drivers/terminal.c`) -/

/-- Modelled from the spec: `memcpy(dest, src, n)` of `lib.c`, which is not
among the sources, taken with its C meaning for regions that do not overlap:
physical memory afterwards, byte `dest + i` holding what byte `src + i` held,
for `i < n`. -/
def memcpy (mem : Nat → Nat) (dest src n : Nat) : Nat → Nat :=
  fun a => if dest ≤ a ∧ a < dest + n then mem (src + (a - dest)) else mem a

/-- Address of the shadow buffer of terminal `idx`:
`VMEM_BASE_ADDR + (idx + 1) * _4KB`. -/
def shadow_addr (idx : Nat) : Nat := add32 VMEM_BASE_ADDR (mul32 (add32 idx 1) _4KB)

/-- `set_shown_terminal(next_TS_idx)`: the globals and physical memory
afterwards. -/
def set_shown_terminal (s : State) (mem : Nat → Nat) (next_TS_idx : Nat) : State × (Nat → Nat) :=
  -- save terminal cursor location
  let outgoing : terminal_t :=
    { s.terminal_arr s.terminal_shown with
      cursor_x := s.console.screen_x
      cursor_y := s.console.screen_y }
  let arr := Function.update s.terminal_arr s.terminal_shown outgoing
  -- save video memory
  let mem1 := memcpy mem (shadow_addr s.TS_idx) VMEM_BASE_ADDR _4KB
  -- set video memory to the saved video memory
  let mem2 := memcpy mem1 VMEM_BASE_ADDR (shadow_addr next_TS_idx) _4KB
  -- update terminal shown
  let incoming := arr next_TS_idx
  -- update cursor and screen coords
  let c : Console :=
    { s.console with
      hw_cursor_x := incoming.cursor_x
      hw_cursor_y := incoming.cursor_y
      screen_x := incoming.cursor_x
      screen_y := incoming.cursor_y }
  ({ s with terminal_arr := arr, TS_idx := next_TS_idx, terminal_shown := next_TS_idx, console := c },
   mem2)

/-- A memory content in which the four video buffers differ: byte `a` holds
`a / 4096 % 256`. -/
def sample_mem : Nat → Nat := fun a => a / 4096 % 256

/-- The shell of terminal 0 has called `vidmap` before the second timer
tick. -/
def tick0_vidmap_state : State := outcome_state (vidmap sample_env tick0_state 0x08000100)

/-- The state after the second timer tick when the shell of terminal 0 had
called `vidmap`: the shell of terminal 1 starts. -/
def tick1_vidmap_state : State :=
  outcome_state (PIT_Handler sample_env tick0_vidmap_state 0x7FFF00 0x7FFE00)

/-- The state after a timer tick in steady state, taken while the shell of
terminal 2 has the video window mapped: terminal 0 resumes. -/
def tick3_vidmap_state : State :=
  outcome_state (PIT_Handler sample_env vidmap_state 0x7FBF00 0x7FBE00)

/-! ## Reading files (`drivers/fsys.c`) -/

/-- The bytes of a file at positions `p .. p + n - 1`. -/
def file_bytes (d : Disk) (ino : inode_t) (p n : Nat) : List Nat :=
  (List.range n).map (fun k => file_byte d ino (p + k))

/-- `file_read(fd, buf, nbytes)`: the globals afterwards, the return value and
the bytes written to `buf`.  `nbytes` is an `int32_t`; the comparison and the
additions with the 32-bit `file_pos` are unsigned, and the return value of
`read_data` is not looked at. -/
def file_read (e : Env) (s : State) (fd : Nat) (nbytes : Int) : State × Int × List Nat :=
  let file_desc := (s.pcbs s.current_PCB).file_desc_arr fd
  let inode := e.disk.inodes_arr file_desc.inode_num
  -- return 0 when file position in file is already past file size
  if inode.file_size ≤ file_desc.file_pos then (s, 0, [])
  else
  -- copy up till the end of the file
  let nbytes1 : Int :=
    if inode.file_size ≤ add32 file_desc.file_pos (nbytes % 4294967296).toNat then
      as_int32 (sub32 inode.file_size file_desc.file_pos)
    else nbytes
  -- read data and increment file position in file descriptor
  let copied := (read_data e.disk file_desc.inode_num file_desc.file_pos (nbytes1 % 4294967296).toNat).2
  let file_desc1 : file_desc_t :=
    { file_desc with file_pos := add32 file_desc.file_pos (nbytes1 % 4294967296).toNat }
  -- return number of bytes read
  (set_slot s fd file_desc1, nbytes1, copied)

/-- Successive calls of `file_read` on descriptor `fd`, one per requested
count, each made in the state the previous one left: the return value and the
bytes delivered by each call. -/
def file_reads (e : Env) (fd : Nat) : State → List Int → List (Int × List Nat)
  | _, [] => []
  | s, nbytes :: rest =>
    ((file_read e s fd nbytes).2.1, (file_read e s fd nbytes).2.2)
      :: file_reads e fd (file_read e s fd nbytes).1 rest

/-- An image with two files: inode 0 has 187 bytes in data block 2, inode 1
has 8200 bytes in data blocks 3, 1 and 0, in this order.  Byte `a` of the data
region holds `a % 251`. -/
def two_file_disk : Disk :=
  { num_dir_entries := 2
    num_inodes := 2
    num_dblocks := 4
    file_dir_arr := fun i =>
      if i = 0 then { file_name := pad32 frame0_name, file_type := REGULAR_FILE_TYPE, inode_idx := 0 }
      else { file_name := pad32 [98, 105, 103], file_type := REGULAR_FILE_TYPE, inode_idx := 1 }
    inodes_arr := fun i =>
      if i = 0 then { file_size := 187, block_idx_arr := fun k => if k = 0 then 2 else 0 }
      else { file_size := 8200, block_idx_arr := fun k => if k = 0 then 3 else if k = 1 then 1 else 0 }
    data := fun a => a % 251 }

/-- The environment `sample_env` around `two_file_disk`. -/
def two_file_env : Env := { sample_env with disk := two_file_disk }

/-- The program with id 3 on `two_file_disk`, holding the 187-byte file open on
descriptor 2 at position 0. -/
def reader_state : State :=
  set_open_files
    (set_slot child_state 2
      { fops_table_ptr := some .file_jmptable, inode_num := 0, file_pos := 0, flags := 0 })
    7

/-- The image `sample_disk` with entry 5 of the block index array of inode 3
(the 5-byte file `frame0.txt`, which occupies block position 0 only) set to
99, a block the image does not have. -/
def stray_index_disk : Disk :=
  { sample_disk with
    inodes_arr := fun i =>
      if i = 3 then
        { file_size := 5, block_idx_arr := fun k => if k = 0 then 2 else if k = 5 then 99 else 0 }
      else sample_disk.inodes_arr i }

/-- The copy phase of `read_data`, named for the statements below: the bytes
written to `buf` once the four checks have passed. -/
def read_data_copy (d : Disk) (curr_inode : inode_t) (offset length : Nat) : List Nat :=
  if offset / DISK_BLOCK_SIZE = add32 offset length / DISK_BLOCK_SIZE then
    copy_bytes d (curr_inode.block_idx_arr (offset / DISK_BLOCK_SIZE)) (offset % DISK_BLOCK_SIZE) length
  else
    copy_bytes d (curr_inode.block_idx_arr (offset / DISK_BLOCK_SIZE)) (offset % DISK_BLOCK_SIZE)
        (DISK_BLOCK_SIZE - offset % DISK_BLOCK_SIZE)
      ++ ((List.range' (offset / DISK_BLOCK_SIZE + 1)
            (add32 offset length / DISK_BLOCK_SIZE - (offset / DISK_BLOCK_SIZE + 1))).map
            (fun i => copy_bytes d (curr_inode.block_idx_arr i) 0 DISK_BLOCK_SIZE)).flatten
      ++ copy_bytes d (curr_inode.block_idx_arr (add32 offset length / DISK_BLOCK_SIZE)) 0
          (add32 offset length % DISK_BLOCK_SIZE)

/-! ## Calls through the jump tables (`read`, `write`, `close`, `restore_parent`) -/

/-- The driver functions the five jump tables point to. -/
inductive fop_t where
  | terminal_read
  | terminal_write
  | terminal_open
  | rtc_read
  | rtc_write
  | rtc_open
  | rtc_close
  | file_read
  | file_write
  | file_open
  | file_close
  | directory_read
  | directory_write
  | directory_open
  | directory_close
deriving DecidableEq, Repr

/-- The `read` member of a jump table; `none` is the `NULL` entry of the
console-out table. -/
def fops_jumptable_t.read_member : fops_jumptable_t → Option fop_t
  | .rtc_jmptable => some .rtc_read
  | .file_jmptable => some .file_read
  | .directory_jmptable => some .directory_read
  | .stdin_jmptable => some .terminal_read
  | .stdout_jmptable => none

/-- The `write` member of a jump table; `none` is the `NULL` entry of the
console-in table. -/
def fops_jumptable_t.write_member : fops_jumptable_t → Option fop_t
  | .rtc_jmptable => some .rtc_write
  | .file_jmptable => some .file_write
  | .directory_jmptable => some .directory_write
  | .stdin_jmptable => none
  | .stdout_jmptable => some .terminal_write

/-- The `close` member of a jump table; `none` is the `NULL` entry of the two
console tables. -/
def fops_jumptable_t.close_member : fops_jumptable_t → Option fop_t
  | .rtc_jmptable => some .rtc_close
  | .file_jmptable => some .file_close
  | .directory_jmptable => some .directory_close
  | .stdin_jmptable => none
  | .stdout_jmptable => none

/-- What a system call does with a descriptor: it returns -1 without calling
anything, or it calls driver function `f` found in the table of slot `fd`, or
it calls through a `NULL` pointer found at slot `fd` (the table pointer of the
slot or the member of its table). -/
inductive Dispatch where
  | rejected
  | call (fd : Nat) (f : fop_t)
  | null_call (fd : Nat)
deriving DecidableEq, Repr

/-- The call made through member `member` of the table of slot `fd` of the
running program. -/
def dispatch_through (s : State) (fd : Nat) (member : fops_jumptable_t → Option fop_t) : Dispatch :=
  match ((s.pcbs s.current_PCB).file_desc_arr fd).fops_table_ptr.bind member with
  | none => .null_call fd
  | some f => .call fd f

/-- `read(fd, buf, nbytes)` up to the call through the jump table; `fd` is an
`int32_t`. -/
def read (s : State) (fd : Int) : Dispatch :=
  -- check if the fd is in range [0, 8), cannot read from stdout (fd=1)
  if fd < 0 ∨ fd = 1 ∨ (MAX_FDS : Int) ≤ fd then .rejected
  -- check fd bit of open_files for file availability
  else if CHECK_FLAG (s.pcbs s.current_PCB).open_files fd.toNat = 0 then .rejected
  -- get the file descriptor and read
  else dispatch_through s fd.toNat fops_jumptable_t.read_member

/-- `write(fd, buf, nbytes)` up to the call through the jump table; `fd` is an
`int32_t`. -/
def write (s : State) (fd : Int) : Dispatch :=
  -- check if the fd is in range [1, 8), cannot write to stdin (fd=0)
  if fd < 1 ∨ (MAX_FDS : Int) ≤ fd then .rejected
  -- check fd bit of open_files for file availability
  else if CHECK_FLAG (s.pcbs s.current_PCB).open_files fd.toNat = 0 then .rejected
  -- get the file descriptor and write
  else dispatch_through s fd.toNat fops_jumptable_t.write_member

/-- The call `close(fd)` makes through the jump table. -/
def close_call (s : State) (fd : Int) : Dispatch :=
  -- check if the fd is in range [2, 8), cannot close stdin, stdout
  if fd < 2 ∨ (MAX_FDS : Int) ≤ fd then .rejected
  -- check fd bit of open_files for file availability
  else if CHECK_FLAG (s.pcbs s.current_PCB).open_files fd.toNat = 0 then .rejected
  -- call the respective file's close syscall
  else dispatch_through s fd.toNat fops_jumptable_t.close_member

/-- The calls the loop of `restore_parent` makes through the jump tables, from
descriptor `i` with `n` descriptors left; the list ends with the first call
through `NULL`. -/
def close_open_files_calls (s : State) : Nat → Nat → List Dispatch
  | 0, _ => []
  | n + 1, i =>
    if (s.pcbs s.current_PCB).open_files &&& shl32 1 i ≠ 0 then
      match dispatch_through s i fops_jumptable_t.close_member with
      | .call fd f => .call fd f :: close_open_files_calls s n (i + 1)
      | d => [d]
    else close_open_files_calls s n (i + 1)

/-- The calls `restore_parent()` makes through the jump tables. -/
def restore_parent_calls (s : State) : List Dispatch :=
  -- close all open files except stdin (fd=0), stdout (fd=1)
  close_open_files_calls s (MAX_FDS - 2) 2

/-- The program of `reader_state` with the real-time clock open on descriptor
3 and the directory on descriptor 5. -/
def three_files_state : State :=
  set_open_files
    (set_slot
      (set_slot reader_state 3
        { fops_table_ptr := some .rtc_jmptable, inode_num := 0, file_pos := 0, flags := 0 })
      5 { fops_table_ptr := some .directory_jmptable, inode_num := 0, file_pos := 0, flags := 0 })
    47

/-! ## Keyboard (`drivers/keyboard.c`, `backspace` of `drivers/terminal.c`) -/

/-- Columns of the text screen. -/
def NUM_COLS : Nat := 80

/-- Scancode to ASCII, shift not held (62 entries). -/
def codeASCIINS : List Nat :=
  [0x00, 0x00,
   0x31, 0x32, 0x33, 0x34, 0x35, 0x36, 0x37, 0x38, 0x39, 0x30,
   0x2D, 0x3D, 0x08, 0x09,
   0x71, 0x77, 0x65, 0x72, 0x74, 0x79, 0x75, 0x69, 0x6F, 0x70, 0x5B, 0x5D, 0xA, 0x00,
   0x61, 0x73, 0x64, 0x66, 0x67, 0x68, 0x6A, 0x6B, 0x6C, 0x3B, 0x27, 0x60, 0x00, 0x5C,
   0x7A, 0x78, 0x63, 0x76, 0x62, 0x6E, 0x6D, 0x2C, 0x2E, 0x2F, 0x00, 0x2A, 0x00, 0x20,
   0x00, 0x00, 0x00, 0x00]

/-- Scancode to ASCII, shift held (62 entries). -/
def codeASCIIYS : List Nat :=
  [0x00, 0x00,
   0x21, 0x40, 0x23, 0x24, 0x25, 0x5E, 0x26, 0x2A, 0x28, 0x29,
   0x5F, 0x2B, 0x8, 0x9,
   0x51, 0x57, 0x45, 0x52, 0x54, 0x59, 0x55, 0x49, 0x4F, 0x50, 0x7B, 0x7D, 0xA, 0x00,
   0x41, 0x53, 0x44, 0x46, 0x47, 0x48, 0x4A, 0x4B, 0x4C, 0x3A, 0x22, 0x7E, 0x00, 0x7C,
   0x5A, 0x58, 0x43, 0x56, 0x42, 0x4E, 0x4D, 0x3C, 0x3E, 0x3F, 0x00, 0x2A, 0x00, 0x20,
   0x00, 0x00, 0x00, 0x00]

/-- The keyboard variables of `keyboard.h`, both `uint8_t`. -/
structure Keyboard where
  shiftcaps : Nat
  keycode : Nat
deriving DecidableEq, Repr

/-- Read of element `i` of a 128-byte `keyboard_buffer`; `none` outside the
array. -/
def keyboard_buffer_read (buf : List Nat) (i : Nat) : Option Nat :=
  if i < 128 then some (buf.getD i 0) else none

/-- Write of `v` to element `i` of a 128-byte `keyboard_buffer`; `none` outside
the array. -/
def keyboard_buffer_write (buf : List Nat) (i v : Nat) : Option (List Nat) :=
  if i < 128 then some (buf.set i v) else none

/-- The display loop of `backspace`: `j` steps back from column `cx` of row
`cy`; `none` when the loop returns from `backspace` at the top left corner. -/
def backspace_loop : Nat → Nat → Nat → Option (Nat × Nat)
  | 0, cx, cy => some (cx, cy)
  | j + 1, cx, cy =>
    if cx = 0 then
      if cy = 0 then none
      -- last character on terminal row
      else backspace_loop j (NUM_COLS - 1) (cy - 1)
    else backspace_loop j (cx - 1) cy

/-- `backspace(buf, bufIdx)`: the console bookkeeping, the buffer and the
index afterwards; `none` when the buffer is accessed outside its 128 bytes.
`putc` is the `printf` of the environment on one character. -/
def backspace (e : Env) (c : Console) (buf : List Nat) (bufIdx : Nat) :
    Option (Console × List Nat × Nat) :=
  -- current coords
  let cx := c.screen_x % 65536
  let cy := c.screen_y % 65536
  -- does the buffer erase here
  let erased : Option (Nat × List Nat × Nat) :=
    if bufIdx ≠ 0 then
      match keyboard_buffer_read buf (sub32 bufIdx 1),
        keyboard_buffer_write buf (sub32 bufIdx 1 % 128) 0 with
      | some prebp, some buf1 => some (prebp % 256, buf1, sub32 bufIdx 1)
      | _, _ => none
    else some (0, buf, bufIdx)
  match erased with
  | none => none
  | some (prebp, buf1, bufIdx1) =>
    -- handles the erase size
    let j := if prebp = 0x9 then 4 else if prebp ≠ 0 then 1 else 0
    -- keyboard display portion
    match backspace_loop j cx cy with
    | none => some (c, buf1, bufIdx1)
    | some (cx1, cy1) =>
      -- puts a blank character and edits the screen coords on that erased char
      let c1 : Console := { c with screen_x := cx1, screen_y := cy1 }
      let c2 : Console := e.printf [0x20] c1
      let c3 : Console :=
        { c2 with screen_x := cx1, screen_y := cy1, hw_cursor_x := cx1, hw_cursor_y := cy1 }
      some (c3, buf1, bufIdx1)

/-- The loop of the handler that zeroes the 128 bytes of a keyboard buffer. -/
def zero_keyboard_buffer (buf : List Nat) : List Nat :=
  (List.range 128).foldl (fun b i => b.set i 0) buf

/-- The last branch of the scancode chain of `Keyboard_Handler` (typable
characters): conversion of scancode and flags into a keycode.  `clear` is the
effect of `clear()` of `lib.c` on the console bookkeeping.  `none` when a
table is indexed outside its 62 entries. -/
def typable_keycode (clear : Console → Console) (s : State) (k : Keyboard) (scancode : Nat) :
    Option (State × Keyboard) :=
  match codeASCIINS[scancode]? with
  | none => none
  | some ns =>
    -- handles the shifting and capslock for the characters
    if ns < 0x7B ∧ 0x60 < ns then
      -- CTRL + L
      if 0 < k.shiftcaps &&& 0x04 ∧ scancode = 0x26 then
        let c1 : Console := { s.console with screen_x := 0, screen_y := 0 }
        let c2 : Console := clear c1
        let c3 : Console := { c2 with hw_cursor_x := 0, hw_cursor_y := 0 }
        let shown := s.terminal_arr s.terminal_shown
        let shown1 : terminal_t :=
          { shown with
            keyboard_buffer := zero_keyboard_buffer shown.keyboard_buffer
            keyboard_idx := 0 }
        let arr := Function.update s.terminal_arr s.terminal_shown shown1
        some ({ s with console := c3, terminal_arr := arr }, { k with keycode := 0 })
      -- shift + character
      else if (k.shiftcaps &&& 0x02) >>> 1 ≠ k.shiftcaps &&& 0x01 then
        match codeASCIIYS[scancode]? with
        | none => none
        | some ys => some (s, { k with keycode := ys })
      -- std character
      else some (s, { k with keycode := ns })
    -- non letter characters
    else if k.shiftcaps &&& 0x02 ≠ 0 then
      match codeASCIIYS[scancode]? with
      | none => none
      | some ys => some (s, { k with keycode := ys })
    else some (s, { k with keycode := ns })

/-- The section of `Keyboard_Handler` that determines the use of the keycode:
a keycode other than 0 goes into the buffer of the shown terminal and onto the
screen.  `none` when the buffer is written outside its 128 bytes. -/
def use_keycode (e : Env) (s : State) (keycode : Nat) : Option State :=
  let shown := s.terminal_arr s.terminal_shown
  if keycode ≠ 0x00 then
    if shown.keyboard_idx = 127 then
      -- forces a do nothing after read completion occurs
      if keycode = 10 ∨ shown.terminal_newline ≠ 0 then
        match keyboard_buffer_write shown.keyboard_buffer 127 10 with
        | none => none
        | some buf =>
          let shown1 : terminal_t := { shown with keyboard_buffer := buf, terminal_newline := 1 }
          let arr := Function.update s.terminal_arr s.terminal_shown shown1
          some { s with console := e.printf [keycode] s.console, terminal_arr := arr }
      else some s
    else
      match keyboard_buffer_write shown.keyboard_buffer shown.keyboard_idx keycode with
      | none => none
      | some buf =>
        let newline := if keycode = 10 ∨ shown.terminal_newline ≠ 0 then 1 else shown.terminal_newline
        let shown1 : terminal_t :=
          { shown with
            keyboard_buffer := buf
            keyboard_idx := add32 shown.keyboard_idx 1
            terminal_newline := newline }
        let arr := Function.update s.terminal_arr s.terminal_shown shown1
        some { s with console := e.printf [keycode] s.console, terminal_arr := arr }
  else some s

/-- The scancode chain of `Keyboard_Handler`: special keys, terminal switch
and typable characters. -/
def scancode_chain (e : Env) (clear : Console → Console) (mem : Nat → Nat) (s : State)
    (k : Keyboard) (scancode : Nat) : Option (State × Keyboard) :=
  -- capslock press
  if scancode = 0x3A then some (s, { shiftcaps := (k.shiftcaps ^^^ 0x01) % 256, keycode := 0 })
  -- press shift
  else if scancode = 0x36 ∨ scancode = 0x2A then
    some (s, { shiftcaps := (k.shiftcaps ||| 0x02) % 256, keycode := 0 })
  -- release shift
  else if scancode = 0xB6 ∨ scancode = 0xAA then
    some (s, { shiftcaps := (k.shiftcaps &&& not32 0x02) % 256, keycode := 0 })
  -- press control
  else if scancode = 0x1D then
    some (s, { shiftcaps := (k.shiftcaps ||| 0x04) % 256, keycode := 0 })
  -- release control
  else if scancode = 0x9D then
    some (s, { shiftcaps := (k.shiftcaps &&& not32 0x04) % 256, keycode := 0 })
  -- backspace
  else if scancode = 0x0E then
    let shown := s.terminal_arr s.terminal_shown
    match backspace e s.console shown.keyboard_buffer shown.keyboard_idx with
    | none => none
    | some (c, buf, idx) =>
      let shown1 : terminal_t := { shown with keyboard_buffer := buf, keyboard_idx := idx }
      let arr := Function.update s.terminal_arr s.terminal_shown shown1
      some ({ s with console := c, terminal_arr := arr }, { k with keycode := 0 })
  -- press alt left and right
  else if scancode = 0x38 then
    some (s, { shiftcaps := (k.shiftcaps ||| 0x08) % 256, keycode := 0 })
  -- release alt left and right
  else if scancode = 0xB8 then
    some (s, { shiftcaps := (k.shiftcaps &&& not32 0x08) % 256, keycode := 0 })
  -- scancode outside of relevant range
  else if 0x3B + MAX_TERMINALS ≤ scancode then some (s, { k with keycode := 0 })
  -- alt condition
  else if 0 < k.shiftcaps &&& 0x08 then
    if 0x3B ≤ scancode ∧ scancode < 0x3B + MAX_TERMINALS then
      -- use offset from 0x3b to find correct F#
      some ((set_shown_terminal s mem (scancode - 0x3B)).1, k)
    else some (s, k)
  -- typable characters
  else typable_keycode clear s k scancode

/-- `Keyboard_Handler()` on the scancode read from the keyboard port: the
globals and the keyboard variables afterwards; `none` when a table or a
keyboard buffer is accessed outside its bounds.  The character cells of video
memory, written by the functions of `lib.c`, are not part of the result. -/
def Keyboard_Handler (e : Env) (clear : Console → Console) (mem : Nat → Nat) (s : State)
    (k : Keyboard) (scancode : Nat) : Option (State × Keyboard) :=
  -- save active terminal screen coords
  let active : terminal_t :=
    { s.terminal_arr s.terminal_active with
      cursor_x := s.console.screen_x
      cursor_y := s.console.screen_y }
  let arr0 := Function.update s.terminal_arr s.terminal_active active
  -- set vidmem pointer to shown terminal, change screen coords to shown terminal
  let c0 : Console :=
    { s.console with
      video_mem := VMEM_BASE_ADDR
      screen_x := (arr0 s.terminal_shown).cursor_x
      screen_y := (arr0 s.terminal_shown).cursor_y }
  match scancode_chain e clear mem { s with terminal_arr := arr0, console := c0 } k scancode with
  | none => none
  | some (s1, k1) =>
    match use_keycode e s1 k1.keycode with
    | none => none
    | some s2 =>
      -- save shown terminal screen coords
      let shown : terminal_t :=
        { s2.terminal_arr s2.terminal_shown with
          cursor_x := s2.console.screen_x
          cursor_y := s2.console.screen_y }
      let arr3 := Function.update s2.terminal_arr s2.terminal_shown shown
      -- set vidmem pointer to active terminal if not shown
      let c3 : Console :=
        if s2.TA_idx ≠ s2.TS_idx then
          { s2.console with video_mem := add32 VMEM_BASE_ADDR (mul32 (add32 s2.TA_idx 1) _4KB) }
        else s2.console
      -- change screen coords
      let c4 : Console :=
        { c3 with
          screen_x := (arr3 s2.terminal_active).cursor_x
          screen_y := (arr3 s2.terminal_active).cursor_y }
      some ({ s2 with terminal_arr := arr3, console := c4 }, k1)

/-- The state at the first timer interrupt after 127 letters `a` were typed on
terminal 0: its line buffer is full up to the last byte. -/
def full_line_state : State :=
  let typed : terminal_t :=
    { boot_state.terminal_arr 0 with
      keyboard_buffer := List.replicate 127 0x61 ++ [0]
      keyboard_idx := 127 }
  { boot_state with terminal_arr := Function.update boot_state.terminal_arr 0 typed }

/-! ## A system call between the first timer ticks -/

/-- The shell of terminal 0 has launched a program before the second timer
tick; the program received id 1. -/
def early_child_state : State :=
  outcome_state (execute sample_env tick0_state shell_command 0x7FFE00)

/-- The state after the second timer tick when the shell of terminal 0 had
launched a program before it: the shell of terminal 1 starts. -/
def early_tick1_state : State :=
  outcome_state (PIT_Handler sample_env early_child_state 0x7FDF00 0x7FDE00)

/-- The state after the third timer tick of the same run: the shell of
terminal 2 starts. -/
def early_tick2_state : State :=
  outcome_state (PIT_Handler sample_env early_tick1_state 0x7FBF00 0x7FBE00)

/-! # Properties -/

/-! ## Which globals each operation leaves alone -/

@[simp] theorem set_user_page_tss (s : State) (pid : Nat) :
    (set_user_page s pid).tss = s.tss := rfl

@[simp] theorem set_user_page_user_page_table (s : State) (pid : Nat) :
    (set_user_page s pid).user_page_table = s.user_page_table := rfl

@[simp] theorem set_user_page_activeProcesses (s : State) (pid : Nat) :
    (set_user_page s pid).activeProcesses = s.activeProcesses := rfl

@[simp] theorem set_user_page_currentPID (s : State) (pid : Nat) :
    (set_user_page s pid).currentPID = s.currentPID := rfl

@[simp] theorem set_user_page_current_PCB (s : State) (pid : Nat) :
    (set_user_page s pid).current_PCB = s.current_PCB := rfl

@[simp] theorem set_user_page_pcbs (s : State) (pid : Nat) :
    (set_user_page s pid).pcbs = s.pcbs := rfl

@[simp] theorem set_user_page_exception_flag (s : State) (pid : Nat) :
    (set_user_page s pid).exception_flag = s.exception_flag := rfl

@[simp] theorem set_user_page_TA_idx (s : State) (pid : Nat) :
    (set_user_page s pid).TA_idx = s.TA_idx := rfl

@[simp] theorem set_user_page_TS_idx (s : State) (pid : Nat) :
    (set_user_page s pid).TS_idx = s.TS_idx := rfl

@[simp] theorem set_user_page_terminal_active (s : State) (pid : Nat) :
    (set_user_page s pid).terminal_active = s.terminal_active := rfl

@[simp] theorem set_user_page_terminal_shown (s : State) (pid : Nat) :
    (set_user_page s pid).terminal_shown = s.terminal_shown := rfl

@[simp] theorem set_user_page_terminal_arr (s : State) (pid : Nat) :
    (set_user_page s pid).terminal_arr = s.terminal_arr := rfl

@[simp] theorem set_user_page_pit_counter (s : State) (pid : Nat) :
    (set_user_page s pid).pit_counter = s.pit_counter := rfl

@[simp] theorem set_user_page_console (s : State) (pid : Nat) :
    (set_user_page s pid).console = s.console := rfl

@[simp] theorem set_user_page_page_dir_window (s : State) (pid : Nat) :
    (set_user_page s pid).page_dir USER_MEM_PD_ENTRY
      = SET_4MB_PD_ENTRY (add32 USER_MEM_BASE_ADDR (mul32 pid _4MB)) 0x0 PAGE_UNPRIVILEGED 0x1 0x1 := by
  simp [set_user_page]

theorem set_user_page_page_dir_other (s : State) (pid k : Nat) (hk : k ≠ USER_MEM_PD_ENTRY) :
    (set_user_page s pid).page_dir k = s.page_dir k := by
  simp [set_user_page, Function.update_noteq hk]

@[simp] theorem set_video_mem_page_tss (e : Env) (s : State) (present : Nat) :
    (set_video_mem_page e s present).tss = s.tss := by
  by_cases h : s.TA_idx = s.TS_idx <;> simp [set_video_mem_page, h]

@[simp] theorem set_video_mem_page_activeProcesses (e : Env) (s : State) (present : Nat) :
    (set_video_mem_page e s present).activeProcesses = s.activeProcesses := by
  by_cases h : s.TA_idx = s.TS_idx <;> simp [set_video_mem_page, h]

@[simp] theorem set_video_mem_page_currentPID (e : Env) (s : State) (present : Nat) :
    (set_video_mem_page e s present).currentPID = s.currentPID := by
  by_cases h : s.TA_idx = s.TS_idx <;> simp [set_video_mem_page, h]

@[simp] theorem set_video_mem_page_current_PCB (e : Env) (s : State) (present : Nat) :
    (set_video_mem_page e s present).current_PCB = s.current_PCB := by
  by_cases h : s.TA_idx = s.TS_idx <;> simp [set_video_mem_page, h]

@[simp] theorem set_video_mem_page_pcbs (e : Env) (s : State) (present : Nat) :
    (set_video_mem_page e s present).pcbs = s.pcbs := by
  by_cases h : s.TA_idx = s.TS_idx <;> simp [set_video_mem_page, h]

@[simp] theorem set_video_mem_page_exception_flag (e : Env) (s : State) (present : Nat) :
    (set_video_mem_page e s present).exception_flag = s.exception_flag := by
  by_cases h : s.TA_idx = s.TS_idx <;> simp [set_video_mem_page, h]

@[simp] theorem set_video_mem_page_TA_idx (e : Env) (s : State) (present : Nat) :
    (set_video_mem_page e s present).TA_idx = s.TA_idx := by
  by_cases h : s.TA_idx = s.TS_idx <;> simp [set_video_mem_page, h]

@[simp] theorem set_video_mem_page_TS_idx (e : Env) (s : State) (present : Nat) :
    (set_video_mem_page e s present).TS_idx = s.TS_idx := by
  by_cases h : s.TA_idx = s.TS_idx <;> simp [set_video_mem_page, h]

@[simp] theorem set_video_mem_page_terminal_active (e : Env) (s : State) (present : Nat) :
    (set_video_mem_page e s present).terminal_active = s.terminal_active := by
  by_cases h : s.TA_idx = s.TS_idx <;> simp [set_video_mem_page, h]

@[simp] theorem set_video_mem_page_terminal_shown (e : Env) (s : State) (present : Nat) :
    (set_video_mem_page e s present).terminal_shown = s.terminal_shown := by
  by_cases h : s.TA_idx = s.TS_idx <;> simp [set_video_mem_page, h]

@[simp] theorem set_video_mem_page_terminal_arr (e : Env) (s : State) (present : Nat) :
    (set_video_mem_page e s present).terminal_arr = s.terminal_arr := by
  by_cases h : s.TA_idx = s.TS_idx <;> simp [set_video_mem_page, h]

@[simp] theorem set_video_mem_page_pit_counter (e : Env) (s : State) (present : Nat) :
    (set_video_mem_page e s present).pit_counter = s.pit_counter := by
  by_cases h : s.TA_idx = s.TS_idx <;> simp [set_video_mem_page, h]

@[simp] theorem set_video_mem_page_console (e : Env) (s : State) (present : Nat) :
    (set_video_mem_page e s present).console = s.console := by
  by_cases h : s.TA_idx = s.TS_idx <;> simp [set_video_mem_page, h]

@[simp] theorem set_video_mem_page_page_dir_window (e : Env) (s : State) (present : Nat) :
    (set_video_mem_page e s present).page_dir USER_MEM_PD_ENTRY = s.page_dir USER_MEM_PD_ENTRY := by
  by_cases h : s.TA_idx = s.TS_idx <;> simp [set_video_mem_page, h, USER_MEM_PD_ENTRY]

@[simp] theorem publish_owner_tss (s : State) :
    (publish_owner s).tss = s.tss := rfl

@[simp] theorem publish_owner_page_dir (s : State) :
    (publish_owner s).page_dir = s.page_dir := rfl

@[simp] theorem publish_owner_user_page_table (s : State) :
    (publish_owner s).user_page_table = s.user_page_table := rfl

@[simp] theorem publish_owner_activeProcesses (s : State) :
    (publish_owner s).activeProcesses = s.activeProcesses := rfl

@[simp] theorem publish_owner_currentPID (s : State) :
    (publish_owner s).currentPID = s.currentPID := rfl

@[simp] theorem publish_owner_current_PCB (s : State) :
    (publish_owner s).current_PCB = s.current_PCB := rfl

@[simp] theorem publish_owner_pcbs (s : State) :
    (publish_owner s).pcbs = s.pcbs := rfl

@[simp] theorem publish_owner_exception_flag (s : State) :
    (publish_owner s).exception_flag = s.exception_flag := rfl

@[simp] theorem publish_owner_TA_idx (s : State) :
    (publish_owner s).TA_idx = s.TA_idx := rfl

@[simp] theorem publish_owner_TS_idx (s : State) :
    (publish_owner s).TS_idx = s.TS_idx := rfl

@[simp] theorem publish_owner_terminal_active (s : State) :
    (publish_owner s).terminal_active = s.terminal_active := rfl

@[simp] theorem publish_owner_terminal_shown (s : State) :
    (publish_owner s).terminal_shown = s.terminal_shown := rfl

@[simp] theorem publish_owner_pit_counter (s : State) :
    (publish_owner s).pit_counter = s.pit_counter := rfl

@[simp] theorem publish_owner_console (s : State) :
    (publish_owner s).console = s.console := rfl

@[simp] theorem publish_owner_record (s : State) :
    (publish_owner s).terminal_arr s.terminal_active
      = { s.terminal_arr s.terminal_active with
          saved_esp0 := s.tss.esp0, currentPCB := s.current_PCB, currentPID := s.currentPID } := by
  simp [publish_owner]

theorem publish_owner_other (s : State) (k : Nat) (hk : k ≠ s.terminal_active) :
    (publish_owner s).terminal_arr k = s.terminal_arr k := by
  simp [publish_owner, Function.update_noteq hk]

@[simp] theorem spawn_page_dir (s : State) (pid : Nat) (a : List Nat) (b : Nat) :
    (spawn s pid a b).page_dir = s.page_dir := rfl

@[simp] theorem spawn_user_page_table (s : State) (pid : Nat) (a : List Nat) (b : Nat) :
    (spawn s pid a b).user_page_table = s.user_page_table := rfl

@[simp] theorem spawn_exception_flag (s : State) (pid : Nat) (a : List Nat) (b : Nat) :
    (spawn s pid a b).exception_flag = s.exception_flag := rfl

@[simp] theorem spawn_TA_idx (s : State) (pid : Nat) (a : List Nat) (b : Nat) :
    (spawn s pid a b).TA_idx = s.TA_idx := rfl

@[simp] theorem spawn_TS_idx (s : State) (pid : Nat) (a : List Nat) (b : Nat) :
    (spawn s pid a b).TS_idx = s.TS_idx := rfl

@[simp] theorem spawn_terminal_active (s : State) (pid : Nat) (a : List Nat) (b : Nat) :
    (spawn s pid a b).terminal_active = s.terminal_active := rfl

@[simp] theorem spawn_terminal_shown (s : State) (pid : Nat) (a : List Nat) (b : Nat) :
    (spawn s pid a b).terminal_shown = s.terminal_shown := rfl

@[simp] theorem spawn_pit_counter (s : State) (pid : Nat) (a : List Nat) (b : Nat) :
    (spawn s pid a b).pit_counter = s.pit_counter := rfl

@[simp] theorem spawn_console (s : State) (pid : Nat) (a : List Nat) (b : Nat) :
    (spawn s pid a b).console = s.console := rfl

@[simp] theorem spawn_currentPID (s : State) (pid : Nat) (a : List Nat) (b : Nat) :
    (spawn s pid a b).currentPID = pid := rfl

@[simp] theorem spawn_current_PCB (s : State) (pid : Nat) (a : List Nat) (b : Nat) :
    (spawn s pid a b).current_PCB = pcb_addr pid := rfl

@[simp] theorem spawn_tss (s : State) (pid : Nat) (a : List Nat) (b : Nat) :
    (spawn s pid a b).tss = { ss0 := KERNEL_DS, esp0 := kernel_stack_top pid } := rfl

@[simp] theorem spawn_activeProcesses (s : State) (pid : Nat) (a : List Nat) (b : Nat) :
    (spawn s pid a b).activeProcesses = (s.activeProcesses ||| shl32 1 pid) % 4294967296 := rfl

@[simp] theorem spawn_pcb (s : State) (pid : Nat) (a : List Nat) (b : Nat) :
    (spawn s pid a b).pcbs (pcb_addr pid)
      = new_pcb (s.pcbs (pcb_addr pid)) pid s.currentPID s.tss.esp0 b a := by
  simp [spawn]

theorem spawn_pcb_other (s : State) (pid : Nat) (a : List Nat) (b k : Nat) (hk : k ≠ pcb_addr pid) :
    (spawn s pid a b).pcbs k = s.pcbs k := by
  simp [spawn, Function.update_noteq hk]

@[simp] theorem spawn_record (s : State) (pid : Nat) (a : List Nat) (b : Nat) :
    (spawn s pid a b).terminal_arr s.terminal_active
      = { s.terminal_arr s.terminal_active with
          saved_esp0 := kernel_stack_top pid, currentPCB := pcb_addr pid, currentPID := pid } := by
  simp [spawn, publish_owner]

theorem spawn_record_other (s : State) (pid : Nat) (a : List Nat) (b k : Nat) (hk : k ≠ s.terminal_active) :
    (spawn s pid a b).terminal_arr k = s.terminal_arr k := by
  simp [spawn, publish_owner, Function.update_noteq hk]

@[simp] theorem restore_parent_state_pcbs (e : Env) (s : State) :
    (restore_parent_state e s).pcbs = s.pcbs := by
  simp [restore_parent_state]

@[simp] theorem restore_parent_state_exception_flag (e : Env) (s : State) :
    (restore_parent_state e s).exception_flag = s.exception_flag := by
  simp [restore_parent_state]

@[simp] theorem restore_parent_state_TA_idx (e : Env) (s : State) :
    (restore_parent_state e s).TA_idx = s.TA_idx := by
  simp [restore_parent_state]

@[simp] theorem restore_parent_state_TS_idx (e : Env) (s : State) :
    (restore_parent_state e s).TS_idx = s.TS_idx := by
  simp [restore_parent_state]

@[simp] theorem restore_parent_state_terminal_active (e : Env) (s : State) :
    (restore_parent_state e s).terminal_active = s.terminal_active := by
  simp [restore_parent_state]

@[simp] theorem restore_parent_state_terminal_shown (e : Env) (s : State) :
    (restore_parent_state e s).terminal_shown = s.terminal_shown := by
  simp [restore_parent_state]

@[simp] theorem restore_parent_state_terminal_arr (e : Env) (s : State) :
    (restore_parent_state e s).terminal_arr = s.terminal_arr := by
  simp [restore_parent_state]

@[simp] theorem restore_parent_state_pit_counter (e : Env) (s : State) :
    (restore_parent_state e s).pit_counter = s.pit_counter := by
  simp [restore_parent_state]

@[simp] theorem restore_parent_state_console (e : Env) (s : State) :
    (restore_parent_state e s).console = s.console := by
  simp [restore_parent_state]

@[simp] theorem restore_parent_state_tss (e : Env) (s : State) :
    (restore_parent_state e s).tss = { s.tss with esp0 := (s.pcbs s.current_PCB).parent_esp0 } := by
  simp [restore_parent_state]

@[simp] theorem restore_parent_state_activeProcesses (e : Env) (s : State) :
    (restore_parent_state e s).activeProcesses
      = s.activeProcesses &&& not32 (shl32 1 (s.pcbs s.current_PCB).id) := by
  simp [restore_parent_state]

@[simp] theorem restore_parent_state_currentPID (e : Env) (s : State) :
    (restore_parent_state e s).currentPID = (s.pcbs s.current_PCB).parent_pid := by
  simp [restore_parent_state]

@[simp] theorem restore_parent_state_current_PCB (e : Env) (s : State) :
    (restore_parent_state e s).current_PCB = pcb_addr (s.pcbs s.current_PCB).parent_pid := by
  simp [restore_parent_state]

@[simp] theorem restore_parent_state_window (e : Env) (s : State) :
    (restore_parent_state e s).page_dir USER_MEM_PD_ENTRY
      = (set_user_page s (s.pcbs s.current_PCB).parent_pid).page_dir USER_MEM_PD_ENTRY := by
  simp [restore_parent_state]

@[simp] theorem save_handler_ebp_tss (s : State) (a : Nat) :
    (save_handler_ebp s a).tss = s.tss := rfl

@[simp] theorem save_handler_ebp_page_dir (s : State) (a : Nat) :
    (save_handler_ebp s a).page_dir = s.page_dir := rfl

@[simp] theorem save_handler_ebp_user_page_table (s : State) (a : Nat) :
    (save_handler_ebp s a).user_page_table = s.user_page_table := rfl

@[simp] theorem save_handler_ebp_activeProcesses (s : State) (a : Nat) :
    (save_handler_ebp s a).activeProcesses = s.activeProcesses := rfl

@[simp] theorem save_handler_ebp_currentPID (s : State) (a : Nat) :
    (save_handler_ebp s a).currentPID = s.currentPID := rfl

@[simp] theorem save_handler_ebp_current_PCB (s : State) (a : Nat) :
    (save_handler_ebp s a).current_PCB = s.current_PCB := rfl

@[simp] theorem save_handler_ebp_pcbs (s : State) (a : Nat) :
    (save_handler_ebp s a).pcbs = s.pcbs := rfl

@[simp] theorem save_handler_ebp_exception_flag (s : State) (a : Nat) :
    (save_handler_ebp s a).exception_flag = s.exception_flag := rfl

@[simp] theorem save_handler_ebp_TA_idx (s : State) (a : Nat) :
    (save_handler_ebp s a).TA_idx = s.TA_idx := rfl

@[simp] theorem save_handler_ebp_TS_idx (s : State) (a : Nat) :
    (save_handler_ebp s a).TS_idx = s.TS_idx := rfl

@[simp] theorem save_handler_ebp_terminal_active (s : State) (a : Nat) :
    (save_handler_ebp s a).terminal_active = s.terminal_active := rfl

@[simp] theorem save_handler_ebp_terminal_shown (s : State) (a : Nat) :
    (save_handler_ebp s a).terminal_shown = s.terminal_shown := rfl

@[simp] theorem save_handler_ebp_pit_counter (s : State) (a : Nat) :
    (save_handler_ebp s a).pit_counter = s.pit_counter := rfl

@[simp] theorem save_handler_ebp_console (s : State) (a : Nat) :
    (save_handler_ebp s a).console = s.console := rfl

@[simp] theorem set_active_terminal_user_page_table (s : State) (n : Nat) :
    (set_active_terminal s n).user_page_table = s.user_page_table := rfl

@[simp] theorem set_active_terminal_activeProcesses (s : State) (n : Nat) :
    (set_active_terminal s n).activeProcesses = s.activeProcesses := rfl

@[simp] theorem set_active_terminal_pcbs (s : State) (n : Nat) :
    (set_active_terminal s n).pcbs = s.pcbs := rfl

@[simp] theorem set_active_terminal_exception_flag (s : State) (n : Nat) :
    (set_active_terminal s n).exception_flag = s.exception_flag := rfl

@[simp] theorem set_active_terminal_TS_idx (s : State) (n : Nat) :
    (set_active_terminal s n).TS_idx = s.TS_idx := rfl

@[simp] theorem set_active_terminal_terminal_shown (s : State) (n : Nat) :
    (set_active_terminal s n).terminal_shown = s.terminal_shown := rfl

@[simp] theorem set_active_terminal_pit_counter (s : State) (n : Nat) :
    (set_active_terminal s n).pit_counter = s.pit_counter := rfl

@[simp] theorem set_active_terminal_TA_idx (s : State) (n : Nat) :
    (set_active_terminal s n).TA_idx = n := rfl

@[simp] theorem set_active_terminal_terminal_active (s : State) (n : Nat) :
    (set_active_terminal s n).terminal_active = n := rfl

/-! ## Bit-level facts -/

theorem and_frame_mask (x : Nat) (hx : x < 4294967296) (h : x % 4194304 = 0) :
    x &&& 0xFFC00000 = x := by
  apply Nat.eq_of_testBit_eq
  intro i
  have e : (0xFFC00000 : Nat) = (2 ^ 10 - 1) <<< 22 := by decide
  rw [e, Nat.testBit_and, Nat.testBit_shiftLeft, Nat.testBit_two_pow_sub_one]
  by_cases h1 : i < 22
  · have hb : x.testBit i = false := by
      have h2 : x = 2 ^ 22 * (x / 2 ^ 22) := by omega
      rw [h2, Nat.testBit_mul_pow_two]
      simp [h1]
    simp [hb]
  · by_cases h2 : i < 32
    · have h3 : i - 22 < 10 := by omega
      simp [h3]; omega
    · have hb : x.testBit i = false := by
        apply Nat.testBit_lt_two_pow
        calc x < 2 ^ 32 := by simpa using hx
          _ ≤ 2 ^ i := Nat.pow_le_pow_right (by norm_num) (by omega)
      simp [hb]

theorem shl32_one (i : Nat) (hi : i < 32) : shl32 1 i = 2 ^ i := by
  unfold shl32
  rw [Nat.one_shiftLeft]
  apply Nat.mod_eq_of_lt
  calc 2 ^ i < 2 ^ 32 := Nat.pow_lt_pow_right (by norm_num) hi
    _ = 4294967296 := by norm_num

theorem two_pow_lt_u32 (i : Nat) (hi : i < 32) : 2 ^ i < 4294967296 := by
  calc 2 ^ i < 2 ^ 32 := Nat.pow_lt_pow_right (by norm_num) hi
    _ = 4294967296 := by norm_num

theorem testBit_u32_high (A i : Nat) (hA : A < 4294967296) (hi : 32 ≤ i) : A.testBit i = false := by
  apply Nat.testBit_lt_two_pow
  calc A < 2 ^ 32 := by simpa using hA
    _ ≤ 2 ^ i := Nat.pow_le_pow_right (by norm_num) hi

/-- Bits of `activeProcesses |= 1 << p`. -/
theorem testBit_set (A p i : Nat) (hA : A < 4294967296) (hp : p < 32) :
    ((A ||| shl32 1 p) % 4294967296).testBit i = (A.testBit i || decide (i = p)) := by
  rw [shl32_one p hp]
  have h : A ||| 2 ^ p < 2 ^ 32 := Nat.or_lt_two_pow (by simpa using hA) (Nat.pow_lt_pow_right (by norm_num) hp)
  rw [Nat.mod_eq_of_lt (by simpa using h), Nat.testBit_or, Nat.testBit_two_pow]
  congr 1
  by_cases h : i = p
  · subst h; simp
  · have h' : ¬ p = i := fun hh => h hh.symm
    simp [h, h']

/-- Bits of `~(1 << p)` as a 32-bit value. -/
theorem testBit_not32_shl (p i : Nat) (hp : p < 32) :
    (not32 (shl32 1 p)).testBit i = (decide (i < 32) && !decide (i = p)) := by
  rw [shl32_one p hp]
  unfold not32
  rw [Nat.mod_eq_of_lt (two_pow_lt_u32 p hp)]
  have e : 4294967295 - 2 ^ p = 2 ^ 32 - (2 ^ p + 1) := by
    have := two_pow_lt_u32 p hp
    omega
  rw [e, Nat.testBit_two_pow_sub_succ (Nat.pow_lt_pow_right (by norm_num) hp), Nat.testBit_two_pow]
  by_cases h : i = p
  · subst h; simp
  · have h' : ¬ p = i := fun hh => h hh.symm
    simp [h, h']

/-- Bits of `activeProcesses &= ~(1 << p)`. -/
theorem testBit_clear (A p i : Nat) (hA : A < 4294967296) (hp : p < 32) :
    (A &&& not32 (shl32 1 p)).testBit i = (A.testBit i && !decide (i = p)) := by
  rw [Nat.testBit_and, testBit_not32_shl p i hp]
  by_cases h32 : i < 32
  · simp [h32]
  · simp [testBit_u32_high A i hA (by omega)]

theorem clear_lt (A p : Nat) (hA : A < 4294967296) : A &&& not32 (shl32 1 p) < 4294967296 :=
  lt_of_le_of_lt Nat.and_le_left hA

theorem set_lt (A p : Nat) : (A ||| shl32 1 p) % 4294967296 < 4294967296 :=
  Nat.mod_lt _ (by norm_num)

/-- Setting a clear bit and clearing it again gives the original word back. -/
theorem clear_set_cancel (A p : Nat) (hA : A < 4294967296) (hp : p < 32) (hc : A.testBit p = false) :
    ((A ||| shl32 1 p) % 4294967296) &&& not32 (shl32 1 p) = A := by
  apply Nat.eq_of_testBit_eq
  intro i
  rw [testBit_clear _ p i (set_lt A p) hp, testBit_set A p i hA hp]
  by_cases h : i = p
  · subst h; simp [hc]
  · simp [h]

/-- Clearing a set bit and setting it again gives the original word back. -/
theorem set_clear_cancel (A p : Nat) (hA : A < 4294967296) (hp : p < 32) (hc : A.testBit p = true) :
    ((A &&& not32 (shl32 1 p)) ||| shl32 1 p) % 4294967296 = A := by
  apply Nat.eq_of_testBit_eq
  intro i
  rw [testBit_set _ p i (clear_lt A p hA) hp, testBit_clear A p i hA hp]
  by_cases h : i = p
  · subst h; simp [hc]
  · simp [h]

/-- The frame address handed to `SET_4MB_PD_ENTRY` by `set_user_page`. -/
theorem user_frame_addr (pid : Nat) :
    add32 USER_MEM_BASE_ADDR (mul32 pid _4MB) = (USER_MEM_BASE_ADDR + pid * _4MB) % 4294967296 ∧
    add32 USER_MEM_BASE_ADDR (mul32 pid _4MB) < 4294967296 ∧
    add32 USER_MEM_BASE_ADDR (mul32 pid _4MB) % 4194304 = 0 := by
  simp only [add32, mul32, USER_MEM_BASE_ADDR, _4MB]
  omega

/-- The 32-bit word of the entry that `set_user_page` writes: the frame address
with the present, read/write, user and page-size bits. -/
theorem set_user_page_val (s : State) (pid : Nat) :
    ((set_user_page s pid).page_dir USER_MEM_PD_ENTRY).val
      = (USER_MEM_BASE_ADDR + pid * _4MB) % 4294967296 + 0x87 := by
  obtain ⟨h1, h2, h3⟩ := user_frame_addr pid
  have hm := and_frame_mask _ h2 h3
  simp only [set_user_page, Function.update_same, pde_desc_t.val,
    SET_4MB_PD_ENTRY, Nat.mod_eq_of_lt h2, hm, Nat.shiftRight_eq_div_pow, PAGE_UNPRIVILEGED]
  rw [← h1]
  omega

/-- The frame selected by the entry that `set_user_page` writes. -/
theorem set_user_page_frame (s : State) (pid : Nat) :
    ((set_user_page s pid).page_dir USER_MEM_PD_ENTRY).frame_base
      = (USER_MEM_BASE_ADDR + pid * _4MB) % 4294967296 := by
  obtain ⟨h1, h2, h3⟩ := user_frame_addr pid
  have hm := and_frame_mask _ h2 h3
  simp only [set_user_page, Function.update_same, pde_desc_t.frame_base, pde_desc_t.val,
    SET_4MB_PD_ENTRY, Nat.mod_eq_of_lt h2, hm, Nat.shiftRight_eq_div_pow, PAGE_UNPRIVILEGED]
  rw [← h1]
  omega

/-- C10.  `set_user_page(pid)` rewrites page directory entry 32, the entry of
the virtual range 128MB..132MB, and nothing else in the directory: the entry is
a present, writable, user-level 4MB page whose 32-bit word is the frame address
`8MB + pid * 4MB` (reduced modulo `2 ^ 32`, which changes nothing for task
ids) plus the four flag bits, so that its frame base is that address.  For distinct ids `i, j < 8` no physical address reachable while bound to
`i` is reachable while bound to `j`, no such address lies below 8MB (so none is
in the kernel frame 4MB..8MB), and a byte stored through the window while bound
to `j` leaves every byte read through the window while bound to `i` as it
was. -/
theorem set_user_page_window (s : State) :
    VIRTUAL_USER_BASE_ADDR / _4MB = USER_MEM_PD_ENTRY ∧
    (∀ pid : Nat,
      ((set_user_page s pid).page_dir USER_MEM_PD_ENTRY).present = 1 ∧
      ((set_user_page s pid).page_dir USER_MEM_PD_ENTRY).read_write = 1 ∧
      ((set_user_page s pid).page_dir USER_MEM_PD_ENTRY).user_supervisor = 1 ∧
      ((set_user_page s pid).page_dir USER_MEM_PD_ENTRY).page_size = 1 ∧
      ((set_user_page s pid).page_dir USER_MEM_PD_ENTRY).val
        = (USER_MEM_BASE_ADDR + pid * _4MB) % 4294967296 + 0x87 ∧
      ((set_user_page s pid).page_dir USER_MEM_PD_ENTRY).frame_base
        = (USER_MEM_BASE_ADDR + pid * _4MB) % 4294967296 ∧
      (pid < MAX_PROCESSES →
        ((set_user_page s pid).page_dir USER_MEM_PD_ENTRY).frame_base
          = USER_MEM_BASE_ADDR + pid * _4MB) ∧
      (∀ k, k ≠ USER_MEM_PD_ENTRY → (set_user_page s pid).page_dir k = s.page_dir k)) ∧
    (∀ i j : Nat, i < MAX_PROCESSES → j < MAX_PROCESSES → i ≠ j → ∀ v w : Nat,
      ((set_user_page s i).page_dir USER_MEM_PD_ENTRY).translate v
        ≠ ((set_user_page s j).page_dir USER_MEM_PD_ENTRY).translate w) ∧
    (∀ i : Nat, i < MAX_PROCESSES → ∀ v : Nat,
      KERNEL_MEM_BASE_ADDR + _4MB
        ≤ ((set_user_page s i).page_dir USER_MEM_PD_ENTRY).translate v) ∧
    (∀ i j : Nat, i < MAX_PROCESSES → j < MAX_PROCESSES → i ≠ j →
      ∀ (mem : Nat → Nat) (v w b : Nat),
        user_read (set_user_page s i) (user_write (set_user_page s j) mem w b) v
          = user_read (set_user_page s i) mem v) := by
  have hframe : ∀ i, i < MAX_PROCESSES →
      ((set_user_page s i).page_dir USER_MEM_PD_ENTRY).frame_base
        = USER_MEM_BASE_ADDR + i * _4MB := by
    intro i hi
    rw [set_user_page_frame]
    simp only [MAX_PROCESSES, USER_MEM_BASE_ADDR, _4MB] at *
    omega
  have hdisj : ∀ i j : Nat, i < MAX_PROCESSES → j < MAX_PROCESSES → i ≠ j → ∀ v w : Nat,
      ((set_user_page s i).page_dir USER_MEM_PD_ENTRY).translate v
        ≠ ((set_user_page s j).page_dir USER_MEM_PD_ENTRY).translate w := by
    intro i j hi hj hij v w
    simp only [pde_desc_t.translate, hframe i hi, hframe j hj]
    simp only [MAX_PROCESSES, USER_MEM_BASE_ADDR, _4MB] at *
    omega
  refine ⟨by simp [VIRTUAL_USER_BASE_ADDR, _4MB, USER_MEM_PD_ENTRY], ?_, hdisj, ?_, ?_⟩
  · intro pid
    refine ⟨?_, ?_, ?_, ?_, set_user_page_val s pid, set_user_page_frame s pid, hframe pid, ?_⟩
    · simp [set_user_page, SET_4MB_PD_ENTRY]
    · simp [set_user_page, SET_4MB_PD_ENTRY]
    · simp [set_user_page, SET_4MB_PD_ENTRY, PAGE_UNPRIVILEGED]
    · simp [set_user_page, SET_4MB_PD_ENTRY]
    · intro k hk
      simp [set_user_page, Function.update_noteq hk]
  · intro i hi v
    simp only [pde_desc_t.translate, hframe i hi]
    simp only [MAX_PROCESSES, USER_MEM_BASE_ADDR, KERNEL_MEM_BASE_ADDR, _4MB] at *
    omega
  · intro i j hi hj hij mem v w b
    have hne := hdisj i j hi hj hij v w
    unfold user_read user_write
    rw [Function.update_noteq hne]

theorem set_user_page_window_witness :
    ((set_user_page boot_state 3).page_dir USER_MEM_PD_ENTRY).translate 0x08048000
      ≠ ((set_user_page boot_state 5).page_dir USER_MEM_PD_ENTRY).translate 0x08048000 :=
  (set_user_page_window boot_state).2.2.1 3 5 (by decide) (by decide) (by decide) 0x08048000 0x08048000

/-! ## The shape of `execute` and of its id search -/

theorem execute_eq (e : Env) (s : State) (command : List Nat) (saved_ebp : Nat) :
    execute e s command saved_ebp =
      if 128 < sub32 128 (find_args_idx command) then .undefined
      else
        match passes_checks e.disk command with
        | none => .returned s (-1)
        | some dentry =>
          match find_pid s.activeProcesses MAX_PROCESSES 0 with
          | none => .returned { s with console := e.printf msg_too_many_processes s.console } (-1)
          | some pid =>
            match load_image e.disk dentry with
            | none => load_failed e (set_user_page s pid)
            | some eip =>
              match cmd_args_of (args_of command) with
              | none => .undefined
              | some cmd_args =>
                .user_mode (spawn (set_user_page s pid) pid cmd_args saved_ebp)
                  (VIRTUAL_USER_BASE_ADDR + _4MB) eip := by
  unfold execute passes_checks load_image args_of
  by_cases h0 : 128 < sub32 128 (find_args_idx command)
  · simp [h0]
  · simp only [h0, if_false]
    cases h1 : read_dentry_by_name e.disk (exe_fname command) with
    | none => simp
    | some dentry =>
      simp only
      by_cases h2 : (read_data e.disk dentry.inode_idx 1 3).1 = -1
      · simp [h2]
      · simp only [h2, if_false]
        by_cases h3 : strncmp elf_str (read_data e.disk dentry.inode_idx 1 3).2 3 0 ≠ 0
        · simp [h3]
        · simp only [h3, if_false]
          cases h4 : find_pid s.activeProcesses MAX_PROCESSES 0 with
          | none => simp
          | some pid =>
            simp only
            by_cases h5 : get_file_length e.disk dentry.file_name = -1
            · simp [h5]
            · simp only [h5, if_false]
              by_cases h6 : (read_data e.disk dentry.inode_idx 0 (get_file_length e.disk dentry.file_name % 4294967296).toNat).1 = -1
              · simp [h6]
              · simp only [h6, if_false]
                by_cases h7 : (read_data e.disk dentry.inode_idx 24 4).1 = -1
                · simp [h7]
                · simp only [h7, if_false]

theorem find_pid_some (A : Nat) : ∀ (n i p : Nat), find_pid A n i = some p →
    i ≤ p ∧ p < i + n ∧ CHECK_FLAG A p = 0 ∧ ∀ k, i ≤ k → k < p → CHECK_FLAG A k ≠ 0 := by
  intro n
  induction n with
  | zero => intro i p h; simp [find_pid] at h
  | succ n ih =>
    intro i p h
    unfold find_pid at h
    by_cases hc : CHECK_FLAG A i = 0
    · simp only [hc, if_true, Option.some.injEq] at h
      subst h
      exact ⟨le_refl _, by omega, hc, fun k h1 h2 => by omega⟩
    · simp only [hc, if_false] at h
      obtain ⟨h1, h2, h3, h4⟩ := ih (i + 1) p h
      refine ⟨by omega, by omega, h3, ?_⟩
      intro k hk1 hk2
      by_cases hki : k = i
      · subst hki; exact hc
      · exact h4 k (by omega) hk2

theorem find_pid_none (A : Nat) : ∀ (n i : Nat), find_pid A n i = none →
    ∀ k, i ≤ k → k < i + n → CHECK_FLAG A k ≠ 0 := by
  intro n
  induction n with
  | zero => intro i _ k h1 h2; omega
  | succ n ih =>
    intro i h k hk1 hk2
    unfold find_pid at h
    by_cases hc : CHECK_FLAG A i = 0
    · simp [hc] at h
    · simp only [hc, if_false] at h
      by_cases hki : k = i
      · subst hki; exact hc
      · exact ih (i + 1) h k (by omega) (by omega)

theorem find_pid_of_least (A : Nat) : ∀ (n i p : Nat), i ≤ p → p < i + n → CHECK_FLAG A p = 0 →
    (∀ k, i ≤ k → k < p → CHECK_FLAG A k ≠ 0) → find_pid A n i = some p := by
  intro n
  induction n with
  | zero => intro i p h1 h2; omega
  | succ n ih =>
    intro i p h1 h2 h3 h4
    unfold find_pid
    by_cases hpi : p = i
    · subst hpi; simp [h3]
    · have hc : CHECK_FLAG A i ≠ 0 := h4 i (le_refl _) (by omega)
      simp only [hc, if_false]
      exact ih (i + 1) p (by omega) (by omega) h3 (fun k hk1 hk2 => h4 k (by omega) hk2)

theorem CHECK_FLAG_eq_zero_iff (A i : Nat) (hi : i < 32) : CHECK_FLAG A i = 0 ↔ A.testBit i = false := by
  unfold CHECK_FLAG
  rw [shl32_one i hi, Nat.and_two_pow]
  cases h : A.testBit i <;> simp [h]

/-- A successful `execute` went through every stage. -/
theorem execute_user_mode {e : Env} {s s' : State} {command : List Nat} {saved_ebp esp eip : Nat}
    (h : execute e s command saved_ebp = .user_mode s' esp eip) :
    ∃ dentry pid cmd_args,
      passes_checks e.disk command = some dentry ∧
      find_pid s.activeProcesses MAX_PROCESSES 0 = some pid ∧
      load_image e.disk dentry = some eip ∧
      cmd_args_of (args_of command) = some cmd_args ∧
      s' = spawn (set_user_page s pid) pid cmd_args saved_ebp ∧
      esp = VIRTUAL_USER_BASE_ADDR + _4MB := by
  rw [execute_eq] at h
  split at h
  · cases h
  · split at h
    · cases h
    · rename_i dentry hd
      split at h
      · cases h
      · rename_i pid hp
        split at h
        · simp [load_failed] at h
        · rename_i eip' hl
          split at h
          · cases h
          · rename_i cmd_args hc
            injection h with h1 h2 h3
            exact ⟨dentry, pid, cmd_args, hd, hp, by rw [hl, h3], hc, h1.symm, h2.symm⟩

/-- A returning `execute` returns -1 from one of three places. -/
theorem execute_returned {e : Env} {s s' : State} {command : List Nat} {saved_ebp : Nat} {r : Int}
    (h : execute e s command saved_ebp = .returned s' r) :
    r = -1 ∧
    (s' = s ∨
     (find_pid s.activeProcesses MAX_PROCESSES 0 = none ∧
        s' = { s with console := e.printf msg_too_many_processes s.console }) ∨
     ∃ dentry pid, passes_checks e.disk command = some dentry ∧
        find_pid s.activeProcesses MAX_PROCESSES 0 = some pid ∧
        load_image e.disk dentry = none ∧
        load_failed e (set_user_page s pid) = .returned s' (-1)) := by
  rw [execute_eq] at h
  split at h
  · cases h
  · split at h
    · injection h with h1 h2
      exact ⟨h2.symm, Or.inl h1.symm⟩
    · rename_i dentry hd
      split at h
      · rename_i hp
        injection h with h1 h2
        exact ⟨h2.symm, Or.inr (Or.inl ⟨hp, h1.symm⟩)⟩
      · rename_i pid hp
        split at h
        · rename_i hl
          have h' := h
          simp only [load_failed] at h
          injection h with h1 h2
          refine ⟨h2.symm, Or.inr (Or.inr ⟨dentry, pid, hd, hp, hl, ?_⟩)⟩
          rw [h', h2]
        · split at h
          · cases h
          · cases h

theorem pcb_addr_eq (p : Nat) (hp : p < 1024) : pcb_addr p = USER_MEM_BASE_ADDR - (p + 1) * _8KB := by
  simp only [pcb_addr, sub32, mul32, add32, USER_MEM_BASE_ADDR, _8KB]
  omega

theorem kernel_stack_top_eq (p : Nat) (hp : p ≤ 1024) :
    kernel_stack_top p = USER_MEM_BASE_ADDR - p * _8KB := by
  simp only [kernel_stack_top, sub32, mul32, USER_MEM_BASE_ADDR, _8KB]
  omega

theorem pcb_addr_injective (p q : Nat) (hp : p < 1024) (hq : q < 1024) (h : pcb_addr p = pcb_addr q) :
    p = q := by
  rw [pcb_addr_eq p hp, pcb_addr_eq q hq] at h
  simp only [USER_MEM_BASE_ADDR, _8KB] at h
  omega

/-- Bits 0..31 of `activeProcesses |= 1 << p`. -/
theorem testBit_set_low (A p i : Nat) (hp : p < 32) (hi : i < 32) :
    ((A ||| shl32 1 p) % 4294967296).testBit i = (A.testBit i || decide (i = p)) := by
  rw [shl32_one p hp]
  have e : (4294967296 : Nat) = 2 ^ 32 := by norm_num
  rw [e, Nat.testBit_mod_two_pow, Nat.testBit_or, Nat.testBit_two_pow]
  by_cases h : i = p
  · subst h; simp [hi]
  · have h' : ¬ p = i := fun hh => h hh.symm
    simp [h, h', hi]

/-- The frame selected by `set_user_page` for an id below 1022. -/
theorem set_user_page_frame_exact (s : State) (pid : Nat) (h : pid < 1022) :
    ((set_user_page s pid).page_dir USER_MEM_PD_ENTRY).frame_base = USER_MEM_BASE_ADDR + pid * _4MB := by
  rw [set_user_page_frame]
  simp only [USER_MEM_BASE_ADDR, _4MB]
  omega

/-- C3.  After a successful `execute` from caller id `c` that allocates id `p`
(the new `currentPID`): `p < 8` was free; the descriptor of `p`, which lies at
`8MB - (p + 1) * 8KB`, has `id = p`, `parent_pid = c`, `open_files = 0b11`,
`vidmap_inuse = 0`, slot 0 bound to the console-in table, slot 1 bound to the
console-out table, `parent_esp0` equal to `tss.esp0` before the call and
`parent_ebp` equal to the frame pointer of the call; `current_PCB` is that
descriptor; bit `p` of `activeProcesses` is set and the other 31 bits are
unchanged; `tss.esp0 = 8MB - p * 8KB`; page directory entry 32 is the one
`set_user_page(p)` writes, whose frame is `8MB + p * 4MB`; and the active
terminal's record holds `currentPID = p`, that descriptor and
`saved_esp0 = tss.esp0`. -/
theorem execute_success_state (e : Env) (s s' : State) (command : List Nat) (saved_ebp esp eip : Nat)
    (h : execute e s command saved_ebp = .user_mode s' esp eip) :
    s'.currentPID < MAX_PROCESSES ∧
    s.activeProcesses.testBit s'.currentPID = false ∧
    pcb_addr s'.currentPID = USER_MEM_BASE_ADDR - (s'.currentPID + 1) * _8KB ∧
    (s'.pcbs (pcb_addr s'.currentPID)).id = s'.currentPID ∧
    (s'.pcbs (pcb_addr s'.currentPID)).parent_pid = s.currentPID ∧
    (s'.pcbs (pcb_addr s'.currentPID)).open_files = 0b00000011 ∧
    (s'.pcbs (pcb_addr s'.currentPID)).vidmap_inuse = 0 ∧
    (s'.pcbs (pcb_addr s'.currentPID)).file_desc_arr 0 = stdin_file_desc ∧
    (s'.pcbs (pcb_addr s'.currentPID)).file_desc_arr 1 = stdout_file_desc ∧
    stdin_file_desc.fops_table_ptr = some .stdin_jmptable ∧
    stdout_file_desc.fops_table_ptr = some .stdout_jmptable ∧
    (s'.pcbs (pcb_addr s'.currentPID)).parent_esp0 = s.tss.esp0 ∧
    (s'.pcbs (pcb_addr s'.currentPID)).parent_ebp = saved_ebp ∧
    s'.current_PCB = pcb_addr s'.currentPID ∧
    (∀ i, i < 32 →
      s'.activeProcesses.testBit i = (s.activeProcesses.testBit i || decide (i = s'.currentPID))) ∧
    s'.tss.esp0 = USER_MEM_BASE_ADDR - s'.currentPID * _8KB ∧
    s'.page_dir USER_MEM_PD_ENTRY = (set_user_page s s'.currentPID).page_dir USER_MEM_PD_ENTRY ∧
    (s'.page_dir USER_MEM_PD_ENTRY).frame_base = USER_MEM_BASE_ADDR + s'.currentPID * _4MB ∧
    s'.terminal_active = s.terminal_active ∧
    (s'.terminal_arr s'.terminal_active).currentPID = s'.currentPID ∧
    (s'.terminal_arr s'.terminal_active).currentPCB = pcb_addr s'.currentPID ∧
    (s'.terminal_arr s'.terminal_active).saved_esp0 = s'.tss.esp0 := by
  obtain ⟨dentry, pid, cmd_args, _, hpid, _, _, hs, _⟩ := execute_user_mode h
  obtain ⟨_, hlt, hfree, _⟩ := find_pid_some _ _ _ _ hpid
  have hlt8 : pid < 8 := by simpa [MAX_PROCESSES] using hlt
  have hcur : s'.currentPID = pid := by rw [hs]; rfl
  rw [hcur]
  have hfr := set_user_page_frame_exact s pid (by omega)
  subst hs
  refine ⟨hlt, (CHECK_FLAG_eq_zero_iff _ _ (by omega)).1 hfree, pcb_addr_eq pid (by omega),
    ?_, ?_, ?_, ?_, ?_, ?_, rfl, rfl, ?_, ?_, rfl, ?_, ?_, ?_, ?_, rfl, ?_, ?_, ?_⟩
  · simp [new_pcb]
  · simp [new_pcb]
  · simp [new_pcb]
  · simp [new_pcb]
  · simp [new_pcb]
  · simp [new_pcb]
  · simp [new_pcb]
  · simp [new_pcb]
  · intro i hi
    exact testBit_set_low _ pid i (by omega) hi
  · simp only [spawn_tss]
    exact kernel_stack_top_eq pid (by omega)
  · simp [spawn, publish_owner]
  · simpa [spawn, publish_owner] using hfr
  · have h1 := spawn_record (set_user_page s pid) pid cmd_args saved_ebp
    simp only [set_user_page_terminal_active] at h1
    simp [h1]
  · have h1 := spawn_record (set_user_page s pid) pid cmd_args saved_ebp
    simp only [set_user_page_terminal_active] at h1
    simp [h1]
  · have h1 := spawn_record (set_user_page s pid) pid cmd_args saved_ebp
    simp only [set_user_page_terminal_active] at h1
    simp [h1]

theorem execute_success_state_witness :
    (spawn (set_user_page boot_state 0) 0 [] 77).currentPID < MAX_PROCESSES ∧
    ((spawn (set_user_page boot_state 0) 0 [] 77).pcbs (pcb_addr 0)).open_files = 0b00000011 ∧
    (spawn (set_user_page boot_state 0) 0 [] 77).tss.esp0 = 0x800000 :=
  have h := execute_success_state sample_env boot_state (spawn (set_user_page boot_state 0) 0 [] 77)
    shell_command 77 (VIRTUAL_USER_BASE_ADDR + _4MB) 0x080482E8 rfl
  ⟨h.1, h.2.2.2.2.2.1, h.2.2.2.2.2.2.2.2.2.2.2.2.2.2.2.1⟩

theorem args_in_bounds (command : List Nat) (h : find_args_idx command ≤ 128) :
    ¬ 128 < sub32 128 (find_args_idx command) := by
  simp only [sub32]
  omega

theorem load_image_none_iff (d : Disk) (dentry : dentry_t) :
    load_image d dentry = none ↔
      (get_file_length d dentry.file_name = -1 ∨
       (read_data d dentry.inode_idx 0 (get_file_length d dentry.file_name % 4294967296).toNat).1 = -1 ∨
       (read_data d dentry.inode_idx 24 4).1 = -1) := by
  unfold load_image
  by_cases h1 : get_file_length d dentry.file_name = -1
  · simp [h1]
  · by_cases h2 : (read_data d dentry.inode_idx 0 (get_file_length d dentry.file_name % 4294967296).toNat).1 = -1
    · simp [h1, h2]
    · by_cases h3 : (read_data d dentry.inode_idx 24 4).1 = -1
      · simp [h1, h2, h3]
      · simp [h1, h2, h3]

theorem passes_checks_none_iff (d : Disk) (command : List Nat) :
    passes_checks d command = none ↔
      (read_dentry_by_name d (exe_fname command) = none ∨
       ∃ dentry, read_dentry_by_name d (exe_fname command) = some dentry ∧
         ((read_data d dentry.inode_idx 1 3).1 = -1 ∨
          strncmp elf_str (read_data d dentry.inode_idx 1 3).2 3 0 ≠ 0)) := by
  unfold passes_checks
  cases h : read_dentry_by_name d (exe_fname command) with
  | none => simp
  | some dentry =>
    by_cases h1 : (read_data d dentry.inode_idx 1 3).1 = -1
    · simp [h1]
    · by_cases h2 : strncmp elf_str (read_data d dentry.inode_idx 1 3).2 3 0 = 0
      · simp [h1, h2]
      · simp [h1, h2]

/-- Every id in `[0, 8)` in use means the search of `execute` finds none. -/
theorem find_pid_full (A : Nat) (h : ∀ i, i < MAX_PROCESSES → A.testBit i = true) :
    find_pid A MAX_PROCESSES 0 = none := by
  cases hf : find_pid A MAX_PROCESSES 0 with
  | none => rfl
  | some p =>
    obtain ⟨_, h2, h3, _⟩ := find_pid_some _ _ _ _ hf
    have hp : p < 8 := by simpa [MAX_PROCESSES] using h2
    have := (CHECK_FLAG_eq_zero_iff A p (by omega)).1 h3
    rw [h p (by simpa [MAX_PROCESSES] using hp)] at this
    cases this

/-- The search of `execute` finds the least id in `[0, 8)` whose bit is clear. -/
theorem find_pid_least (A p : Nat) (hp : p < MAX_PROCESSES) (hc : A.testBit p = false)
    (hb : ∀ i, i < p → A.testBit i = true) : find_pid A MAX_PROCESSES 0 = some p := by
  have hp8 : p < 8 := by simpa [MAX_PROCESSES] using hp
  apply find_pid_of_least A _ 0 p (Nat.zero_le _) (by simpa using hp)
  · exact (CHECK_FLAG_eq_zero_iff A p (by omega)).2 hc
  · intro k _ hk hz
    have := (CHECK_FLAG_eq_zero_iff A k (by omega)).1 hz
    rw [hb k hk] at this
    cases this

/-- C2.  A failing `execute` is atomic with respect to ownership.  Whenever
`execute` returns, it returns -1 and `currentPID`, `current_PCB`,
`activeProcesses`, the TSS (`esp0` included), the process control blocks and
every terminal record (that of the active terminal included) are exactly as
before the call.  And `execute` does return, for a command whose name has at
most 128 bytes, in each failure case: the name is not found or the format check
fails, no id is free, or a length/read call fails while loading. -/
theorem execute_failure_atomic (e : Env) (s : State) (command : List Nat) (saved_ebp : Nat) :
    (∀ s' r, execute e s command saved_ebp = .returned s' r →
      r = -1 ∧
      s'.currentPID = s.currentPID ∧
      s'.current_PCB = s.current_PCB ∧
      s'.activeProcesses = s.activeProcesses ∧
      s'.tss = s.tss ∧
      s'.pcbs = s.pcbs ∧
      s'.TA_idx = s.TA_idx ∧
      s'.terminal_active = s.terminal_active ∧
      s'.terminal_arr = s.terminal_arr ∧
      (s'.terminal_arr s'.terminal_active).currentPID = (s.terminal_arr s.terminal_active).currentPID ∧
      (s'.terminal_arr s'.terminal_active).currentPCB = (s.terminal_arr s.terminal_active).currentPCB ∧
      (s'.terminal_arr s'.terminal_active).saved_esp0 = (s.terminal_arr s.terminal_active).saved_esp0) ∧
    (find_args_idx command ≤ 128 →
      (passes_checks e.disk command = none ∨
       find_pid s.activeProcesses MAX_PROCESSES 0 = none ∨
       ∃ dentry, passes_checks e.disk command = some dentry ∧ load_image e.disk dentry = none) →
      ∃ s', execute e s command saved_ebp = .returned s' (-1)) := by
  constructor
  · intro s' r h
    obtain ⟨hr, hcase⟩ := execute_returned h
    refine ⟨hr, ?_⟩
    rcases hcase with h1 | ⟨_, h1⟩ | ⟨dentry, pid, _, _, _, h1⟩
    · subst h1; simp
    · subst h1; simp
    · simp only [load_failed, Outcome.returned.injEq, and_true] at h1
      subst h1
      simp [set_user_page]
  · intro hin hfail
    rw [execute_eq, if_neg (args_in_bounds command hin)]
    rcases hfail with h1 | h1 | ⟨dentry, h1, h2⟩
    · rw [h1]; exact ⟨_, rfl⟩
    · cases hc : passes_checks e.disk command with
      | none => exact ⟨_, rfl⟩
      | some dentry => simp only [h1]; exact ⟨_, rfl⟩
    · rw [h1]
      cases hp : find_pid s.activeProcesses MAX_PROCESSES 0 with
      | none => exact ⟨_, rfl⟩
      | some pid => simp only [h2, load_failed]; exact ⟨_, rfl⟩

theorem execute_failure_atomic_witness :
    execute sample_env boot_state nonexistent_file 77 = .returned boot_state (-1) ∧
      (-1 : Int) = -1 ∧ boot_state.currentPID = boot_state.currentPID ∧
      boot_state.current_PCB = boot_state.current_PCB ∧
      boot_state.activeProcesses = boot_state.activeProcesses :=
  have h := (execute_failure_atomic sample_env boot_state nonexistent_file 77).1 boot_state (-1) rfl
  ⟨rfl, h.1, h.2.1, h.2.2.1, h.2.2.2.1⟩

/-- `execute` launches the process once every stage has succeeded. -/
theorem execute_launch (e : Env) (s : State) (command : List Nat) (saved_ebp p eip : Nat)
    (dentry : dentry_t) (cmd_args : List Nat) (hin : find_args_idx command ≤ 128)
    (hchk : passes_checks e.disk command = some dentry)
    (hfind : find_pid s.activeProcesses MAX_PROCESSES 0 = some p)
    (hl : load_image e.disk dentry = some eip)
    (ha : cmd_args_of (args_of command) = some cmd_args) :
    execute e s command saved_ebp
      = .user_mode (spawn (set_user_page s p) p cmd_args saved_ebp) (VIRTUAL_USER_BASE_ADDR + _4MB) eip := by
  rw [execute_eq, if_neg (args_in_bounds command hin), hchk]
  simp only [hfind, hl, ha]

/-- C4.  Task id allocation.  Suppose the command's name has at most 128 bytes
and `execute` has passed the name and format checks.  Whenever `execute`
launches a process, its id is the smallest `i` in `[0, 8)` whose bit is clear
in `activeProcesses`.  Conversely, if `p` is that smallest id, then the user
window is bound to `p` and `execute` either launches the process with id `p`
(when the image loads and the argument string is well defined) or, when the
load fails, returns -1.  If bits 0..7 are all set, `execute` returns -1 and
allocates nothing: `activeProcesses`, the process control blocks, the page
directory and the owner are untouched. -/
theorem execute_allocates_least_free (e : Env) (s : State) (command : List Nat) (saved_ebp : Nat)
    (dentry : dentry_t) (hin : find_args_idx command ≤ 128)
    (hchk : passes_checks e.disk command = some dentry) :
    (∀ s' esp eip, execute e s command saved_ebp = .user_mode s' esp eip →
      s'.currentPID < MAX_PROCESSES ∧
      s.activeProcesses.testBit s'.currentPID = false ∧
      ∀ i, i < s'.currentPID → s.activeProcesses.testBit i = true) ∧
    (∀ p, p < MAX_PROCESSES → s.activeProcesses.testBit p = false →
      (∀ i, i < p → s.activeProcesses.testBit i = true) →
      (∀ eip cmd_args, load_image e.disk dentry = some eip →
        cmd_args_of (args_of command) = some cmd_args →
        execute e s command saved_ebp
            = .user_mode (spawn (set_user_page s p) p cmd_args saved_ebp) (VIRTUAL_USER_BASE_ADDR + _4MB) eip ∧
          (spawn (set_user_page s p) p cmd_args saved_ebp).currentPID = p) ∧
      (load_image e.disk dentry = none →
        execute e s command saved_ebp = load_failed e (set_user_page s p))) ∧
    ((∀ i, i < MAX_PROCESSES → s.activeProcesses.testBit i = true) →
      ∃ s', execute e s command saved_ebp = .returned s' (-1) ∧
        s'.activeProcesses = s.activeProcesses ∧ s'.pcbs = s.pcbs ∧ s'.page_dir = s.page_dir ∧
        s'.currentPID = s.currentPID ∧ s'.current_PCB = s.current_PCB) := by
  refine ⟨?_, ?_, ?_⟩
  · intro s' esp eip h
    obtain ⟨_, pid, _, _, hpid, _, _, hs, _⟩ := execute_user_mode h
    obtain ⟨_, hlt, hfree, hbelow⟩ := find_pid_some _ _ _ _ hpid
    have hlt8 : pid < 8 := by simpa [MAX_PROCESSES] using hlt
    have hcur : s'.currentPID = pid := by rw [hs]; rfl
    rw [hcur]
    refine ⟨hlt, (CHECK_FLAG_eq_zero_iff _ _ (by omega)).1 hfree, ?_⟩
    intro i hi
    have hne := hbelow i (Nat.zero_le _) hi
    cases hb : s.activeProcesses.testBit i with
    | true => rfl
    | false => exact absurd ((CHECK_FLAG_eq_zero_iff _ i (by omega)).2 hb) hne
  · intro p hp hc hb
    have hfind := find_pid_least s.activeProcesses p hp hc hb
    constructor
    · intro eip cmd_args hl ha
      exact ⟨execute_launch e s command saved_ebp p eip dentry cmd_args hin hchk hfind hl ha, rfl⟩
    · intro hl
      rw [execute_eq, if_neg (args_in_bounds command hin), hchk]
      simp only [hfind, hl]
  · intro hfull
    have hfind := find_pid_full s.activeProcesses hfull
    rw [execute_eq, if_neg (args_in_bounds command hin), hchk]
    simp only [hfind]
    exact ⟨_, rfl, rfl, rfl, rfl, rfl, rfl⟩

theorem execute_allocates_least_free_witness :
    find_args_idx shell_command ≤ 128 ∧
    passes_checks sample_env.disk shell_command = some (sample_disk.file_dir_arr 1) ∧
    execute sample_env boot_state shell_command 77
      = .user_mode (spawn (set_user_page boot_state 0) 0 [] 77) (VIRTUAL_USER_BASE_ADDR + _4MB) 0x080482E8 ∧
    (spawn (set_user_page boot_state 0) 0 [] 77).currentPID = 0 :=
  ⟨by decide, rfl,
    ((execute_allocates_least_free sample_env boot_state shell_command 77 (sample_disk.file_dir_arr 1)
      (by decide) rfl).2.1 0 (by decide) rfl (fun i hi => absurd hi (Nat.not_lt_zero i))).1
      0x080482E8 [] rfl rfl⟩

/-- C5.  Load-failure rollback.  Suppose the command's name has at most 128
bytes, the name and format checks pass and the id search finds the candidate
`p`.  If `get_file_length` or either of the two `read_data` calls made after
the user window was bound to `p` fails, `execute` returns -1; bit `p` of
`activeProcesses` is still clear and `activeProcesses`, the process control
blocks, the owner and the terminal records are untouched; page directory
entry 32 is the one `set_user_page(currentPID)` writes, whose frame is
`8MB + currentPID * 4MB` (modulo `2 ^ 32`), and no other entry changed, so that
if entry 32 mapped the caller's frame before the call the page directory is
exactly as before. -/
theorem execute_load_failure_rollback (e : Env) (s : State) (command : List Nat) (saved_ebp p : Nat)
    (dentry : dentry_t) (hin : find_args_idx command ≤ 128)
    (hchk : passes_checks e.disk command = some dentry)
    (hp : find_pid s.activeProcesses MAX_PROCESSES 0 = some p)
    (hfail : get_file_length e.disk dentry.file_name = -1 ∨
      (read_data e.disk dentry.inode_idx 0
          (get_file_length e.disk dentry.file_name % 4294967296).toNat).1 = -1 ∨
      (read_data e.disk dentry.inode_idx 24 4).1 = -1) :
    ∃ s', execute e s command saved_ebp = .returned s' (-1) ∧
      s.activeProcesses.testBit p = false ∧
      s'.activeProcesses = s.activeProcesses ∧
      s'.pcbs = s.pcbs ∧ s'.currentPID = s.currentPID ∧ s'.current_PCB = s.current_PCB ∧
      s'.tss = s.tss ∧ s'.terminal_arr = s.terminal_arr ∧
      s'.page_dir USER_MEM_PD_ENTRY = (set_user_page s s.currentPID).page_dir USER_MEM_PD_ENTRY ∧
      (s'.page_dir USER_MEM_PD_ENTRY).frame_base
        = (USER_MEM_BASE_ADDR + s.currentPID * _4MB) % 4294967296 ∧
      (∀ k, k ≠ USER_MEM_PD_ENTRY → s'.page_dir k = s.page_dir k) ∧
      (s.page_dir USER_MEM_PD_ENTRY = (set_user_page s s.currentPID).page_dir USER_MEM_PD_ENTRY →
        s'.page_dir = s.page_dir) := by
  have hl := (load_image_none_iff e.disk dentry).2 hfail
  obtain ⟨_, hlt, hfree, _⟩ := find_pid_some _ _ _ _ hp
  have hlt8 : p < 8 := by simpa [MAX_PROCESSES] using hlt
  refine ⟨set_user_page { set_user_page s p with
      console := e.printf msg_failed_to_load (set_user_page s p).console } s.currentPID, ?_,
    (CHECK_FLAG_eq_zero_iff _ _ (by omega)).1 hfree, rfl, rfl, rfl, rfl, rfl, rfl, ?_, ?_, ?_, ?_⟩
  · rw [execute_eq, if_neg (args_in_bounds command hin), hchk]
    simp only [hp, hl, load_failed]
    rfl
  · simp [set_user_page]
  · have := set_user_page_frame { set_user_page s p with
      console := e.printf msg_failed_to_load (set_user_page s p).console } s.currentPID
    exact this
  · intro k hk
    simp [set_user_page, Function.update_noteq hk]
  · intro hsame
    funext k
    by_cases hk : k = USER_MEM_PD_ENTRY
    · subst hk
      rw [hsame]
      simp [set_user_page]
    · simp [set_user_page, Function.update_noteq hk]

theorem execute_load_failure_rollback_witness :
    find_pid boot_state.activeProcesses MAX_PROCESSES 0 = some 0 ∧
    (read_data sample_env.disk (sample_disk.file_dir_arr 2).inode_idx 24 4).1 = -1 ∧
    ∃ s', execute sample_env boot_state tiny_command 77 = .returned s' (-1) ∧
      s'.activeProcesses = boot_state.activeProcesses :=
  match execute_load_failure_rollback sample_env boot_state tiny_command 77 0
    (sample_disk.file_dir_arr 2) (by decide) rfl rfl (Or.inr (Or.inr rfl)) with
  | ⟨s', h1, _, h3, _⟩ => ⟨rfl, rfl, s', h1, h3⟩

/-- Bits 0..31 of `activeProcesses &= ~(1 << p)`. -/
theorem testBit_clear_low (A p i : Nat) (hp : p < 32) (hi : i < 32) :
    (A &&& not32 (shl32 1 p)).testBit i = (A.testBit i && !decide (i = p)) := by
  rw [Nat.testBit_and, testBit_not32_shl p i hp]
  simp [hi]

theorem close_open_files_some (pcb : pcb_t) : ∀ (n i : Nat),
    (∀ k, i ≤ k → k < i + n → pcb.open_files &&& shl32 1 k ≠ 0 → slot_closable pcb k = true) →
    close_open_files pcb n i = some () := by
  intro n
  induction n with
  | zero => intro i _; rfl
  | succ n ih =>
    intro i h
    unfold close_open_files
    have hrest := ih (i + 1) (fun k h1 h2 => h k (by omega) (by omega))
    by_cases hb : pcb.open_files &&& shl32 1 i ≠ 0
    · have hc := h i (le_refl _) (by omega) hb
      simp only [slot_closable] at hc
      rw [if_pos hb]
      cases ht : (pcb.file_desc_arr i).fops_table_ptr with
      | none => simp [ht] at hc
      | some table =>
        simp only [ht, Option.some_bind] at hc
        cases hcl : table.close with
        | none => simp [hcl] at hc
        | some v => simpa [hcl] using hrest
    · rw [if_neg hb]
      exact hrest

theorem close_open_files_of_closable (pcb : pcb_t) (h : open_slots_closable pcb) :
    close_open_files pcb (MAX_FDS - 2) 2 = some () := by
  apply close_open_files_some
  intro k h1 h2 h3
  exact h k (by simpa [MAX_FDS] using h2) h1 h3

/-- `restore_parent` succeeds when every open file can be closed. -/
theorem restore_parent_eq (e : Env) (s : State) (h : open_slots_closable (s.pcbs s.current_PCB)) :
    restore_parent e s = some (restore_parent_state e s) := by
  unfold restore_parent
  simp only [close_open_files_of_closable _ h]

theorem clear_exception_flag (s : State) (h : s.exception_flag = 0) :
    { s with exception_flag := 0 } = s := by
  cases s
  simp only at h
  subst h
  rfl

/-- How `halt` leaves once the open files are closed. -/
theorem halt_resume_eq (e : Env) (s : State) (status parent_ebp : Nat)
    (h : open_slots_closable (s.pcbs s.current_PCB)) :
    halt_resume e s status parent_ebp
      = .to_parent { publish_owner (restore_parent_state e s) with exception_flag := 0 } parent_ebp
          (if s.exception_flag = 0 then status % 256 else 256) := by
  unfold halt_resume
  simp only [restore_parent_eq e s h]
  by_cases hx : s.exception_flag = 0
  · rw [if_neg (by simpa using hx), if_pos hx, clear_exception_flag _ (by simpa using hx)]
  · rw [if_pos (by simpa using hx), if_neg hx]

/-- C6.  Exit value of `halt`.  For a process with id at least
`MAX_TERMINALS` whose open descriptor slots can be closed, `halt(status)`
leaves through `halt_asm` towards the frame saved in its descriptor, and the
value passed is exactly `status` (as a `uint8_t`, so a value in 0..255) when
`exception_flag` is clear and exactly 256, a value outside 0..255, when
`exception_flag` is set, whatever `status` is; in both cases `exception_flag`
is 0 afterwards. -/
theorem halt_exit_value (e : Env) (s : State) (status exec_ebp : Nat)
    (hp : MAX_TERMINALS ≤ s.currentPID) (hs : open_slots_closable (s.pcbs s.current_PCB)) :
    ∃ s', halt e s status exec_ebp
        = .to_parent s' (s.pcbs s.current_PCB).parent_ebp
            (if s.exception_flag = 0 then status % 256 else 256) ∧
      s'.exception_flag = 0 ∧
      status % 256 < 256 ∧
      (status < 256 → status % 256 = status) := by
  have hnot : ¬ s.currentPID < MAX_TERMINALS := by omega
  refine ⟨{ publish_owner (restore_parent_state e s) with exception_flag := 0 }, ?_, rfl,
    Nat.mod_lt _ (by norm_num), fun h => Nat.mod_eq_of_lt h⟩
  unfold halt
  rw [if_neg hnot, halt_resume_eq e s status _ hs]

theorem halt_exit_value_witness :
    MAX_TERMINALS ≤ child_state.currentPID ∧
    ∃ s', halt sample_env child_state 6 0x7F9E00 = .to_parent s' 0x7FBE00 6 ∧ s'.exception_flag = 0 :=
  match halt_exit_value sample_env child_state 6 0x7F9E00 (by decide) (by decide) with
  | ⟨s', h1, h2, _⟩ => ⟨by decide, s', h1, h2⟩

theorem new_pcb_closable (old : pcb_t) (pid c esp0 ebp : Nat) (a : List Nat) :
    open_slots_closable (new_pcb old pid c esp0 ebp a) := by
  intro i hi h2 hb
  exfalso
  apply hb
  have hi8 : i < 8 := by simpa [MAX_FDS] using hi
  simp only [new_pcb]
  interval_cases i <;> decide

/-- C1.  Launch/terminate round trip.  Let `execute(command)` succeed from a
caller with id `c` whose bit is set in `activeProcesses` (the caller is a live
process) and allocate an id `p ≥ MAX_TERMINALS`.  If the new process calls
`halt(status)` next, control goes back to the frame of that `execute` call and
afterwards `currentPID = c`, `current_PCB` is the descriptor of `c`,
`tss.esp0` and `activeProcesses` equal their values before `execute`, every
process control block other than the one of `p` (the caller's in particular,
with its `open_files` mask) is unchanged, page directory entry 32 is the one
`set_user_page(c)` writes, whose frame is `8MB + c * 4MB`, and the active
terminal's record names `c` as owner. -/
theorem launch_terminate_round_trip (e : Env) (s s1 : State) (command : List Nat)
    (saved_ebp esp eip status exec_ebp : Nat)
    (hA : s.activeProcesses < 4294967296)
    (hlive : CHECK_FLAG s.activeProcesses s.currentPID ≠ 0)
    (hexec : execute e s command saved_ebp = .user_mode s1 esp eip)
    (hp : MAX_TERMINALS ≤ s1.currentPID) :
    ∃ s2 v, halt e s1 status exec_ebp = .to_parent s2 saved_ebp v ∧
      s2.currentPID = s.currentPID ∧
      s2.current_PCB = pcb_addr s.currentPID ∧
      s2.tss.esp0 = s.tss.esp0 ∧
      s2.activeProcesses = s.activeProcesses ∧
      (∀ a, a ≠ pcb_addr s1.currentPID → s2.pcbs a = s.pcbs a) ∧
      pcb_addr s.currentPID ≠ pcb_addr s1.currentPID ∧
      (s2.pcbs s2.current_PCB).open_files = (s.pcbs (pcb_addr s.currentPID)).open_files ∧
      s2.page_dir USER_MEM_PD_ENTRY = (set_user_page s s.currentPID).page_dir USER_MEM_PD_ENTRY ∧
      (s2.page_dir USER_MEM_PD_ENTRY).frame_base = USER_MEM_BASE_ADDR + s.currentPID * _4MB ∧
      s2.terminal_active = s.terminal_active ∧
      (s2.terminal_arr s2.terminal_active).currentPID = s.currentPID ∧
      (s2.terminal_arr s2.terminal_active).currentPCB = pcb_addr s.currentPID ∧
      (s2.terminal_arr s2.terminal_active).saved_esp0 = s.tss.esp0 := by
  obtain ⟨dentry, p, cmd_args, _, hpid, _, _, hs, _⟩ := execute_user_mode hexec
  obtain ⟨_, hlt, hfree, _⟩ := find_pid_some _ _ _ _ hpid
  have hp8 : p < 8 := by simpa [MAX_PROCESSES] using hlt
  subst hs
  simp only [spawn_currentPID] at hp ⊢
  have hnot : ¬ (spawn (set_user_page s p) p cmd_args saved_ebp).currentPID < MAX_TERMINALS := by
    simp only [spawn_currentPID]; omega
  -- the caller's id is below 32 and differs from `p`
  have hc32 : s.currentPID < 32 := by
    by_contra hge
    apply hlive
    have h0 : shl32 1 s.currentPID = 0 := by
      unfold shl32
      rw [Nat.one_shiftLeft]
      have hpow : 2 ^ s.currentPID = 2 ^ 32 * 2 ^ (s.currentPID - 32) := by
        rw [← pow_add]; congr 1; omega
      rw [hpow]
      have e32 : (2 : Nat) ^ 32 = 4294967296 := by norm_num
      rw [e32, Nat.mul_mod_right]
    simp [CHECK_FLAG, h0]
  have hbitp : s.activeProcesses.testBit p = false := (CHECK_FLAG_eq_zero_iff _ _ (by omega)).1 hfree
  have hcp : s.currentPID ≠ p := by
    intro hcp
    rw [hcp] at hlive
    exact hlive hfree
  have haddr : pcb_addr s.currentPID ≠ pcb_addr p := fun h =>
    hcp (pcb_addr_injective _ _ (by omega) (by omega) h)
  have hclos : open_slots_closable
      ((spawn (set_user_page s p) p cmd_args saved_ebp).pcbs
        (spawn (set_user_page s p) p cmd_args saved_ebp).current_PCB) := by
    simp only [spawn_current_PCB, spawn_pcb]
    exact new_pcb_closable _ _ _ _ _ _
  refine ⟨{ publish_owner (restore_parent_state e (spawn (set_user_page s p) p cmd_args saved_ebp))
      with exception_flag := 0 }, (if s.exception_flag = 0 then status % 256 else 256),
    ?_, ?_, ?_, ?_, ?_, ?_, haddr, ?_, ?_, ?_, ?_, ?_, ?_, ?_⟩
  · unfold halt
    rw [if_neg hnot, halt_resume_eq e _ status _ hclos]
    simp [new_pcb]
  · simp [new_pcb]
  · simp [new_pcb]
  · simp [new_pcb]
  · simp only [publish_owner_activeProcesses, restore_parent_state_activeProcesses, spawn_current_PCB,
      spawn_pcb, spawn_activeProcesses, set_user_page_activeProcesses]
    simp only [new_pcb]
    exact clear_set_cancel _ p hA (by omega) hbitp
  · intro a ha
    simp only [publish_owner_pcbs, restore_parent_state_pcbs]
    rw [spawn_pcb_other _ _ _ _ _ ha]
    rfl
  · simp only [publish_owner_pcbs, publish_owner_current_PCB, restore_parent_state_pcbs,
      restore_parent_state_current_PCB, spawn_current_PCB, spawn_pcb]
    simp only [new_pcb, set_user_page_currentPID]
    rw [spawn_pcb_other _ _ _ _ _ haddr]
    rfl
  · simp [new_pcb, spawn, publish_owner]
  · have hfr := set_user_page_frame_exact s s.currentPID (by omega)
    simpa [new_pcb] using hfr
  · simp
  · have h1 := publish_owner_record (restore_parent_state e (spawn (set_user_page s p) p cmd_args saved_ebp))
    simp only [restore_parent_state_terminal_active, spawn_terminal_active,
      set_user_page_terminal_active] at h1
    simp [h1, new_pcb]
  · have h1 := publish_owner_record (restore_parent_state e (spawn (set_user_page s p) p cmd_args saved_ebp))
    simp only [restore_parent_state_terminal_active, spawn_terminal_active,
      set_user_page_terminal_active] at h1
    simp [h1, new_pcb]
  · have h1 := publish_owner_record (restore_parent_state e (spawn (set_user_page s p) p cmd_args saved_ebp))
    simp only [restore_parent_state_terminal_active, spawn_terminal_active,
      set_user_page_terminal_active] at h1
    simp [h1, new_pcb]

theorem launch_terminate_round_trip_witness :
    tick2_state.activeProcesses < 4294967296 ∧
    CHECK_FLAG tick2_state.activeProcesses tick2_state.currentPID ≠ 0 ∧
    execute sample_env tick2_state shell_command 0x7FBE00
      = .user_mode child_state (VIRTUAL_USER_BASE_ADDR + _4MB) 0x080482E8 ∧
    MAX_TERMINALS ≤ child_state.currentPID ∧
    ∃ s2 v, halt sample_env child_state 6 0x7F9E00 = .to_parent s2 0x7FBE00 v ∧
      s2.currentPID = tick2_state.currentPID ∧
      s2.activeProcesses = tick2_state.activeProcesses :=
  match launch_terminate_round_trip sample_env tick2_state child_state shell_command 0x7FBE00
      (VIRTUAL_USER_BASE_ADDR + _4MB) 0x080482E8 6 0x7F9E00 (by decide) (by decide) rfl (by decide) with
  | ⟨s2, v, h1, h2, _, _, h5, _⟩ => ⟨by decide, by decide, rfl, by decide, s2, v, h1, h2, h5⟩

theorem shell_args_in_bounds : find_args_idx shell_command ≤ 128 := by decide

theorem shell_cmd_args : cmd_args_of (args_of shell_command) = some [] := by decide

/-- C7.  Bootstrap shell respawn.  Let the current process have an id
`p < MAX_TERMINALS`, let every id below `p` be in use (ids are handed out
lowest first, so the shells of the lower terminals were launched before this
one and they are never freed), and let the shell image be loadable.  Then
`halt` does not return to any parent: it enters user mode in a freshly launched
shell whose id is again `p`, `currentPID = p`, the descriptor of `p` is
current and freshly initialised, the active terminal is the same and its record
names `p` as owner, bit `p` of `activeProcesses` is set and the other bits are
unchanged. -/
theorem base_shell_respawn (e : Env) (s : State) (status exec_ebp eip : Nat) (dentry : dentry_t)
    (hp : s.currentPID < MAX_TERMINALS)
    (hbelow : ∀ i, i < s.currentPID → s.activeProcesses.testBit i = true)
    (hchk : passes_checks e.disk shell_command = some dentry)
    (hload : load_image e.disk dentry = some eip) :
    ∃ s', halt e s status exec_ebp = .user_mode s' (VIRTUAL_USER_BASE_ADDR + _4MB) eip ∧
      s'.currentPID = s.currentPID ∧
      s'.current_PCB = pcb_addr s.currentPID ∧
      (s'.pcbs s'.current_PCB).id = s.currentPID ∧
      (s'.pcbs s'.current_PCB).open_files = 0b00000011 ∧
      s'.TA_idx = s.TA_idx ∧
      s'.terminal_active = s.terminal_active ∧
      (s'.terminal_arr s'.terminal_active).currentPID = s.currentPID ∧
      (s'.terminal_arr s'.terminal_active).currentPCB = pcb_addr s.currentPID ∧
      s'.activeProcesses.testBit s.currentPID = true ∧
      (∀ i, i < 32 → i ≠ s.currentPID →
        s'.activeProcesses.testBit i = s.activeProcesses.testBit i) := by
  have hp3 : s.currentPID < 3 := by simpa [MAX_TERMINALS] using hp
  -- the id search finds `p` again
  have hfind : find_pid (s.activeProcesses &&& not32 (shl32 1 s.currentPID)) MAX_PROCESSES 0
      = some s.currentPID := by
    apply find_pid_least
    · simp only [MAX_PROCESSES]; omega
    · rw [testBit_clear_low _ _ _ (by omega) (by omega)]; simp
    · intro i hi
      rw [testBit_clear_low _ _ _ (by omega) (by omega), hbelow i hi]
      have : i ≠ s.currentPID := by omega
      simp [this]
  have hexec := execute_launch e
      { s with activeProcesses := s.activeProcesses &&& not32 (shl32 1 s.currentPID) }
      shell_command exec_ebp s.currentPID eip dentry [] shell_args_in_bounds hchk hfind hload
      shell_cmd_args
  refine ⟨spawn (set_user_page
      { s with activeProcesses := s.activeProcesses &&& not32 (shl32 1 s.currentPID) } s.currentPID)
      s.currentPID [] exec_ebp, ?_, ?_, ?_, ?_, ?_, ?_, ?_, ?_, ?_, ?_, ?_⟩
  · unfold halt
    simp only [hp, if_true, hexec]
  · simp
  · simp
  · simp [new_pcb]
  · simp [new_pcb]
  · simp
  · simp
  · have h1 := spawn_record (set_user_page
        { s with activeProcesses := s.activeProcesses &&& not32 (shl32 1 s.currentPID) } s.currentPID)
        s.currentPID [] exec_ebp
    simp only [set_user_page_terminal_active] at h1
    simp [h1]
  · have h1 := spawn_record (set_user_page
        { s with activeProcesses := s.activeProcesses &&& not32 (shl32 1 s.currentPID) } s.currentPID)
        s.currentPID [] exec_ebp
    simp only [set_user_page_terminal_active] at h1
    simp [h1]
  · simp only [spawn_activeProcesses, set_user_page_activeProcesses]
    rw [testBit_set_low _ _ _ (by omega) (by omega)]
    simp
  · intro i hi hne
    simp only [spawn_activeProcesses, set_user_page_activeProcesses]
    rw [testBit_set_low _ _ _ (by omega) hi, testBit_clear_low _ _ _ (by omega) hi]
    simp [hne]

theorem base_shell_respawn_witness :
    tick1_state.currentPID < MAX_TERMINALS ∧
    tick1_state.currentPID = 1 ∧
    ∃ s', halt sample_env tick1_state 0 0x7FDE00 = .user_mode s' (VIRTUAL_USER_BASE_ADDR + _4MB) 0x080482E8 ∧
      s'.currentPID = 1 ∧ (s'.terminal_arr s'.terminal_active).currentPID = 1 :=
  match base_shell_respawn sample_env tick1_state 0 0x7FDE00 0x080482E8 (sample_disk.file_dir_arr 1)
      (by decide) (by decide) rfl rfl with
  | ⟨s', h1, h2, _, _, _, _, _, h8, _⟩ => ⟨by decide, by decide, s', h1, h2, h8⟩

/-- One bootstrap tick: with `pit_counter = k < 3`, id `k` the least free id
and the shell loadable, the handler activates terminal `k` and launches a
shell with id `k` on it. -/
theorem bootstrap_tick (e : Env) (s : State) (a b k eip : Nat) (dentry : dentry_t)
    (hpit : s.pit_counter = k) (hk : k < 3)
    (hfree : s.activeProcesses.testBit k = false)
    (hbelow : ∀ i, i < k → s.activeProcesses.testBit i = true)
    (hchk : passes_checks e.disk shell_command = some dentry)
    (hload : load_image e.disk dentry = some eip) :
    ∃ s', PIT_Handler e s a b = .user_mode s' (VIRTUAL_USER_BASE_ADDR + _4MB) eip ∧
      s'.pit_counter = k + 1 ∧
      s'.activeProcesses = (s.activeProcesses ||| shl32 1 k) % 4294967296 ∧
      s'.TA_idx = k ∧ s'.terminal_active = k ∧ s'.TS_idx = s.TS_idx ∧
      s'.currentPID = k ∧ s'.current_PCB = pcb_addr k ∧
      (s'.pcbs (pcb_addr k)).id = k ∧
      (s'.terminal_arr k).currentPID = k ∧
      (s'.terminal_arr k).currentPCB = pcb_addr k ∧
      (s'.terminal_arr k).saved_esp0 = kernel_stack_top k := by
  subst hpit
  let s1 : State := set_active_terminal (save_handler_ebp s a) s.pit_counter
  let s2 : State := { s1 with pit_counter := add32 s1.pit_counter 1 }
  have hA : s2.activeProcesses = s.activeProcesses := rfl
  have hT : s2.terminal_active = s.pit_counter := rfl
  have hfind : find_pid s2.activeProcesses MAX_PROCESSES 0 = some s.pit_counter :=
    find_pid_least _ _ (by simp only [MAX_PROCESSES]; omega) (by rw [hA]; exact hfree)
      (by rw [hA]; exact hbelow)
  have hexec := execute_launch e s2 shell_command b s.pit_counter eip dentry [] shell_args_in_bounds
    hchk hfind hload shell_cmd_args
  have hrec := spawn_record (set_user_page s2 s.pit_counter) s.pit_counter [] b
  change (spawn _ _ _ _).terminal_arr s.pit_counter = _ at hrec
  refine ⟨spawn (set_user_page s2 s.pit_counter) s.pit_counter [] b, ?_, ?_, ?_, ?_, ?_, ?_, ?_, ?_,
    ?_, ?_, ?_, ?_⟩
  · unfold PIT_Handler
    simp only [save_handler_ebp_pit_counter, hk, if_true]
    rw [show execute e _ shell_command b = execute e s2 shell_command b from rfl, hexec]
  · show add32 s.pit_counter 1 = s.pit_counter + 1
    simp only [add32]
    omega
  · rfl
  · rfl
  · rfl
  · rfl
  · simp
  · simp
  · simp [new_pcb]
  · rw [hrec]
  · rw [hrec]
  · rw [hrec]

/-- Bootstrap order when nothing runs between the ticks.  Start from the boot
state: terminals initialised by `init_terminals`, `pit_counter = 0`,
`activeProcesses = 0`, with the shell image loadable, and take three timer
ticks in a row, with no system call in between.  For
`k = 0, 1, 2` the `k`-th tick ends by entering user mode in a newly launched
shell, and in the state it leaves the active terminal index is `k`, the owner
is that shell with id `k` (`currentPID = k`, current descriptor the one of `k`,
terminal `k`'s record naming `k`), and exactly bits `0..k` of
`activeProcesses` are set. -/
theorem bootstrap_order (e : Env) (s0 : State) (dentry : dentry_t) (eip a0 b0 a1 b1 a2 b2 : Nat)
    (hchk : passes_checks e.disk shell_command = some dentry)
    (hload : load_image e.disk dentry = some eip) :
    ∀ k, k < MAX_TERMINALS →
      ∃ s, (tick_outcomes e (boot_from s0)
              [(a0, b0), (a1, b1), (a2, b2)])[k]?
            = some (.user_mode s (VIRTUAL_USER_BASE_ADDR + _4MB) eip) ∧
        s.TA_idx = k ∧ s.terminal_active = k ∧
        s.currentPID = k ∧ s.current_PCB = pcb_addr k ∧ (s.pcbs (pcb_addr k)).id = k ∧
        (s.terminal_arr k).currentPID = k ∧ (s.terminal_arr k).currentPCB = pcb_addr k ∧
        s.activeProcesses = 2 ^ (k + 1) - 1 ∧
        (∀ i, i ≤ k → s.activeProcesses.testBit i = true) ∧
        (∀ i, k < i → s.activeProcesses.testBit i = false) := by
  -- first tick
  obtain ⟨t0, h0, hp0, hA0, hTA0, hT0, _, hc0, hcp0, hid0, hr0, hrp0, _⟩ :=
    bootstrap_tick e (boot_from s0) a0 b0 0 eip dentry
      rfl (by decide) (by show Nat.testBit 0 0 = false; decide)
      (fun i hi => absurd hi (Nat.not_lt_zero i)) hchk hload
  have hA0' : t0.activeProcesses = 1 := by
    rw [hA0]
    show (0 ||| shl32 1 0) % 4294967296 = 1
    decide
  -- second tick
  obtain ⟨t1, h1, hp1, hA1, hTA1, hT1, _, hc1, hcp1, hid1, hr1, hrp1, _⟩ :=
    bootstrap_tick e t0 a1 b1 1 eip dentry hp0 (by decide) (by rw [hA0']; decide)
      (fun i hi => by
        have : i = 0 := by omega
        subst this; rw [hA0']; decide) hchk hload
  have hA1' : t1.activeProcesses = 3 := by rw [hA1, hA0']; decide
  -- third tick
  obtain ⟨t2, h2, hp2, hA2, hTA2, hT2, _, hc2, hcp2, hid2, hr2, hrp2, _⟩ :=
    bootstrap_tick e t1 a2 b2 2 eip dentry hp1 (by decide) (by rw [hA1']; decide)
      (fun i hi => by
        have : i = 0 ∨ i = 1 := by omega
        rcases this with h | h <;> subst h <;> rw [hA1'] <;> decide) hchk hload
  have hA2' : t2.activeProcesses = 7 := by rw [hA2, hA1']; decide
  have hlist : tick_outcomes e (boot_from s0)
      [(a0, b0), (a1, b1), (a2, b2)]
      = [.user_mode t0 (VIRTUAL_USER_BASE_ADDR + _4MB) eip,
         .user_mode t1 (VIRTUAL_USER_BASE_ADDR + _4MB) eip,
         .user_mode t2 (VIRTUAL_USER_BASE_ADDR + _4MB) eip] := by
    simp only [tick_outcomes, h0, h1, h2, Outcome.state?]
  have hbits : ∀ (A k : Nat), A = 2 ^ (k + 1) - 1 →
      (∀ i, i ≤ k → A.testBit i = true) ∧ (∀ i, k < i → A.testBit i = false) := by
    intro A k hA
    subst hA
    constructor
    · intro i hi
      rw [Nat.testBit_two_pow_sub_one]; simp; omega
    · intro i hi
      rw [Nat.testBit_two_pow_sub_one]; simp; omega
  intro k hk
  have hk3 : k < 3 := by simpa [MAX_TERMINALS] using hk
  rw [hlist]
  interval_cases k
  · exact ⟨t0, rfl, hTA0, hT0, hc0, hcp0, hid0, hr0, hrp0, hA0', hbits _ 0 hA0'⟩
  · exact ⟨t1, rfl, hTA1, hT1, hc1, hcp1, hid1, hr1, hrp1, hA1', hbits _ 1 hA1'⟩
  · exact ⟨t2, rfl, hTA2, hT2, hc2, hcp2, hid2, hr2, hrp2, hA2', hbits _ 2 hA2'⟩

theorem bootstrap_order_witness :
    passes_checks sample_env.disk shell_command = some (sample_disk.file_dir_arr 1) ∧
    load_image sample_env.disk (sample_disk.file_dir_arr 1) = some 0x080482E8 ∧
    ∃ s, (tick_outcomes sample_env (boot_from zero_state)
            [(0x7FDF00, 0x7FDE00), (0x7FFF00, 0x7FFE00), (0x7FDF00, 0x7FDE00)])[2]?
          = some (.user_mode s (VIRTUAL_USER_BASE_ADDR + _4MB) 0x080482E8) ∧
      s.TA_idx = 2 ∧ s.currentPID = 2 ∧ s.activeProcesses = 7 :=
  match bootstrap_order sample_env zero_state (sample_disk.file_dir_arr 1) 0x080482E8
      0x7FDF00 0x7FDE00 0x7FFF00 0x7FFE00 0x7FDF00 0x7FDE00 rfl rfl 2 (by decide) with
  | ⟨s, h1, h2, _, h4, _, _, _, _, h9, _⟩ => ⟨rfl, rfl, s, h1, h2, h4, h9⟩

theorem and_page_mask (x : Nat) (hx : x < 4294967296) :
    ((x &&& 0xFFFFF000) >>> 12) % 1048576 = x / 4096 := by
  have hlt : x / 4096 < 1048576 := by omega
  have hm : (x &&& 0xFFFFF000) >>> 12 = x / 4096 := by
    apply Nat.eq_of_testBit_eq
    intro i
    have e : (0xFFFFF000 : Nat) = (2 ^ 20 - 1) <<< 12 := by decide
    have e2 : x / 4096 = x >>> 12 := by
      rw [Nat.shiftRight_eq_div_pow]
    rw [e2, Nat.testBit_shiftRight, Nat.testBit_shiftRight, Nat.testBit_and, e,
      Nat.testBit_shiftLeft, Nat.testBit_two_pow_sub_one]
    by_cases h2 : i < 20
    · simp [h2]
    · have hb : x.testBit (12 + i) = false := by
        apply Nat.testBit_lt_two_pow
        calc x < 2 ^ 32 := by simpa using hx
          _ ≤ 2 ^ (12 + i) := Nat.pow_le_pow_right (by norm_num) (by omega)
      simp [hb]
  rw [hm]
  exact Nat.mod_eq_of_lt hlt

theorem and_one_eq_mod (n : Nat) : n &&& 1 = n % 2 := by
  exact Nat.and_one_is_mod n

theorem set_video_mem_page_dir_entry (e : Env) (s : State) (present : Nat) :
    (set_video_mem_page e s present).page_dir 33
      = SET_4KB_PD_ENTRY e.user_page_table_addr 0x0 PAGE_UNPRIVILEGED 0x1 (present &&& 1) := by
  by_cases h : s.TA_idx = s.TS_idx <;> simp [set_video_mem_page, h, USER_MEM_PD_ENTRY]

theorem set_video_mem_page_dir_other (e : Env) (s : State) (present i : Nat) (hi : i ≠ 33) :
    (set_video_mem_page e s present).page_dir i = s.page_dir i := by
  by_cases h : s.TA_idx = s.TS_idx <;> simp [set_video_mem_page, h, USER_MEM_PD_ENTRY, hi]

theorem video_table_index : (VIRTUAL_VMEM_BASE_ADDR >>> 12) &&& 0x3FF = 1 := by decide

theorem set_video_mem_page_tbl_entry (e : Env) (s : State) (present : Nat) :
    (set_video_mem_page e s present).user_page_table 1
      = SET_PT_ENTRY
          (if s.TA_idx ≠ s.TS_idx then add32 VMEM_BASE_ADDR (mul32 (add32 s.TA_idx 1) _4KB)
           else VMEM_BASE_ADDR)
          0x0 PAGE_UNPRIVILEGED 0x1 (present &&& 1) := by
  by_cases h : s.TA_idx = s.TS_idx <;> simp [set_video_mem_page, h, video_table_index]

theorem set_video_mem_page_tbl_other (e : Env) (s : State) (present i : Nat) (hi : i ≠ 1) :
    (set_video_mem_page e s present).user_page_table i = s.user_page_table i := by
  by_cases h : s.TA_idx = s.TS_idx <;> simp [set_video_mem_page, h, video_table_index, hi]

theorem pt_entry_translate (addr avail priv rw pres vaddr : Nat) (ha : addr < 4294967296)
    (h4 : addr % 4096 = 0) (hv : vaddr % 4096 = 0) :
    (SET_PT_ENTRY addr avail priv rw pres).translate vaddr = addr := by
  unfold pte_desc_t.translate SET_PT_ENTRY
  simp only
  rw [Nat.mod_eq_of_lt ha, and_page_mask addr ha, hv]
  omega

/-- C11: `set_video_mem_page(present)` rewrites page directory entry 33 and
page table entry 1, the two entries that translate the video virtual address
0x08401000.  The directory entry is a 4KB-table entry that points to
`user_page_table`; the table entry sends the address to the primary display
buffer 0xB8000 when `TA_idx == TS_idx` and to the shadow buffer
`0xB8000 + (TA_idx + 1) * 4KB` (computed in 32 bits) otherwise; the present bit
of both entries is `present & 1`; both entries are user-accessible and
writable, and no other entry of the directory or of the table changes. -/
theorem set_video_mem_page_binding (e : Env) (s : State) (present : Nat) :
    VIRTUAL_VMEM_BASE_ADDR = 0x08401000 ∧
    VIRTUAL_VMEM_BASE_ADDR / _4MB = 33 ∧
    VIRTUAL_VMEM_BASE_ADDR / _4KB % 1024 = 1 ∧
    ((set_video_mem_page e s present).page_dir 33).present = present &&& 1 ∧
    ((set_video_mem_page e s present).user_page_table 1).present = present &&& 1 ∧
    present &&& 1 = present % 2 ∧
    ((set_video_mem_page e s present).page_dir 33).page_size = 0 ∧
    ((set_video_mem_page e s present).page_dir 33).user_supervisor = 1 ∧
    ((set_video_mem_page e s present).page_dir 33).read_write = 1 ∧
    ((set_video_mem_page e s present).user_page_table 1).user_supervisor = 1 ∧
    ((set_video_mem_page e s present).user_page_table 1).read_write = 1 ∧
    ((set_video_mem_page e s present).page_dir 33).table_base_addr
      = e.user_page_table_addr % 4294967296 / 4096 ∧
    (s.TA_idx = s.TS_idx →
      ((set_video_mem_page e s present).user_page_table 1).translate VIRTUAL_VMEM_BASE_ADDR
        = 0xB8000) ∧
    (s.TA_idx ≠ s.TS_idx →
      ((set_video_mem_page e s present).user_page_table 1).translate VIRTUAL_VMEM_BASE_ADDR
        = (0xB8000 + (s.TA_idx + 1) * 4096) % 4294967296) ∧
    (s.TA_idx ≠ s.TS_idx → s.TA_idx < MAX_TERMINALS →
      ((set_video_mem_page e s present).user_page_table 1).translate VIRTUAL_VMEM_BASE_ADDR
        = 0xB8000 + (s.TA_idx + 1) * 4096) ∧
    (∀ i, i ≠ 33 → (set_video_mem_page e s present).page_dir i = s.page_dir i) ∧
    (∀ i, i ≠ 1 → (set_video_mem_page e s present).user_page_table i = s.user_page_table i) := by
  have hp : present &&& 1 = present % 2 := and_one_eq_mod present
  have hp2 : present % 2 % 2 = present % 2 := Nat.mod_mod _ _
  have hshadow : ∀ t : Nat, add32 VMEM_BASE_ADDR (mul32 (add32 t 1) _4KB)
      = (0xB8000 + (t + 1) * 4096) % 4294967296 := by
    intro t
    unfold add32 mul32 VMEM_BASE_ADDR _4KB
    omega
  refine ⟨rfl, by decide, by decide, ?_, ?_, hp, ?_, ?_, ?_, ?_, ?_, ?_, ?_, ?_, ?_, ?_, ?_⟩
  · rw [set_video_mem_page_dir_entry, hp]; simp [SET_4KB_PD_ENTRY]
  · rw [set_video_mem_page_tbl_entry, hp]; simp [SET_PT_ENTRY]
  · rw [set_video_mem_page_dir_entry]; rfl
  · rw [set_video_mem_page_dir_entry]; rfl
  · rw [set_video_mem_page_dir_entry]; rfl
  · rw [set_video_mem_page_tbl_entry]; rfl
  · rw [set_video_mem_page_tbl_entry]; rfl
  · rw [set_video_mem_page_dir_entry]
    unfold pde_desc_t.table_base_addr SET_4KB_PD_ENTRY
    simp only
    rw [and_page_mask _ (Nat.mod_lt _ (by norm_num))]
    omega
  · intro h
    rw [set_video_mem_page_tbl_entry]
    simp only [h, ne_eq, not_true_eq_false, if_false]
    exact pt_entry_translate _ _ _ _ _ _ (by decide) (by decide) (by decide)
  · intro h
    rw [set_video_mem_page_tbl_entry]
    simp only [h, ne_eq, not_false_eq_true, if_true]
    rw [pt_entry_translate _ _ _ _ _ _ _ _ (by decide), hshadow]
    · rw [hshadow]; exact Nat.mod_lt _ (by norm_num)
    · rw [hshadow]; omega
  · intro h h3
    rw [set_video_mem_page_tbl_entry]
    simp only [h, ne_eq, not_false_eq_true, if_true]
    rw [pt_entry_translate _ _ _ _ _ _ _ _ (by decide), hshadow]
    · unfold MAX_TERMINALS at h3; omega
    · rw [hshadow]; exact Nat.mod_lt _ (by norm_num)
    · rw [hshadow]; omega
  · intro i hi; exact set_video_mem_page_dir_other e s present i hi
  · intro i hi; exact set_video_mem_page_tbl_other e s present i hi

/-- The claim at work: on the machine after three ticks (terminal 2 active,
terminal 0 shown) a request with `present = 1` maps the window to terminal 2's
shadow buffer 0xBB000, with both present bits 1. -/
theorem set_video_mem_page_binding_witness :
    tick2_state.TA_idx ≠ tick2_state.TS_idx ∧ tick2_state.TA_idx < MAX_TERMINALS ∧
    ((set_video_mem_page sample_env tick2_state 1).user_page_table 1).translate VIRTUAL_VMEM_BASE_ADDR
      = 0xBB000 ∧
    ((set_video_mem_page sample_env tick2_state 1).page_dir 33).present = 1 ∧
    ((set_video_mem_page sample_env tick2_state 1).user_page_table 1).present = 1 :=
  have h := set_video_mem_page_binding sample_env tick2_state 1
  ⟨by decide, by decide, h.2.2.2.2.2.2.2.2.2.2.2.2.2.2.1 (by decide) (by decide),
   h.2.2.2.1, h.2.2.2.2.1⟩

/-! ## Switching the active terminal -/

theorem set_active_terminal_eq (s : State) (n : Nat) :
    set_active_terminal s n
      = set_user_page
          { s with
            terminal_arr := (set_active_terminal s n).terminal_arr
            console := (set_active_terminal s n).console
            TA_idx := n
            terminal_active := n
            tss := { s.tss with esp0 := ((set_active_terminal s n).terminal_arr n).saved_esp0 }
            current_PCB := ((set_active_terminal s n).terminal_arr n).currentPCB
            currentPID := ((set_active_terminal s n).terminal_arr n).currentPID }
          ((set_active_terminal s n).terminal_arr n).currentPID := rfl

theorem set_active_terminal_record (s : State) (n : Nat) :
    (set_active_terminal s n).terminal_arr s.terminal_active
      = { s.terminal_arr s.terminal_active with
          saved_esp0 := s.tss.esp0
          currentPCB := s.current_PCB
          currentPID := s.currentPID
          cursor_x := s.console.screen_x
          cursor_y := s.console.screen_y } := by
  simp [set_active_terminal, set_user_page]

theorem set_active_terminal_record_other (s : State) (n i : Nat) (hi : i ≠ s.terminal_active) :
    (set_active_terminal s n).terminal_arr i = s.terminal_arr i := by
  simp [set_active_terminal, set_user_page, hi]

theorem set_active_terminal_page_dir (s : State) (n : Nat) :
    (set_active_terminal s n).page_dir
      = (set_user_page s ((set_active_terminal s n).terminal_arr n).currentPID).page_dir := rfl

/-- C12: `set_active_terminal(n)` stores `tss.esp0`, `current_PCB` and
`currentPID` (and the screen coordinates) into the record `terminal_active`
points to and leaves every other terminal record as it was; it sets `TA_idx`
and `terminal_active` to `n`; it loads `tss.esp0`, `current_PCB` and
`currentPID` from terminal `n`'s record (for `n` other than the outgoing
terminal, the record as it was before the call); and it binds page directory
entry 32 to the frame `8MB + owner * 4MB` of that incoming owner.  The entry
does not depend on which terminal is shown. -/
theorem set_active_terminal_switch (s : State) (n : Nat) :
    ((set_active_terminal s n).terminal_arr s.terminal_active).saved_esp0 = s.tss.esp0 ∧
    ((set_active_terminal s n).terminal_arr s.terminal_active).currentPID = s.currentPID ∧
    ((set_active_terminal s n).terminal_arr s.terminal_active).currentPCB = s.current_PCB ∧
    (∀ i, i ≠ s.terminal_active → (set_active_terminal s n).terminal_arr i = s.terminal_arr i) ∧
    (set_active_terminal s n).TA_idx = n ∧
    (set_active_terminal s n).terminal_active = n ∧
    (set_active_terminal s n).tss.esp0 = ((set_active_terminal s n).terminal_arr n).saved_esp0 ∧
    (set_active_terminal s n).currentPID = ((set_active_terminal s n).terminal_arr n).currentPID ∧
    (set_active_terminal s n).current_PCB = ((set_active_terminal s n).terminal_arr n).currentPCB ∧
    (n ≠ s.terminal_active →
      (set_active_terminal s n).tss.esp0 = (s.terminal_arr n).saved_esp0 ∧
      (set_active_terminal s n).currentPID = (s.terminal_arr n).currentPID ∧
      (set_active_terminal s n).current_PCB = (s.terminal_arr n).currentPCB) ∧
    (n = s.terminal_active →
      (set_active_terminal s n).tss.esp0 = s.tss.esp0 ∧
      (set_active_terminal s n).currentPID = s.currentPID ∧
      (set_active_terminal s n).current_PCB = s.current_PCB) ∧
    (set_active_terminal s n).page_dir USER_MEM_PD_ENTRY
      = SET_4MB_PD_ENTRY
          (add32 USER_MEM_BASE_ADDR (mul32 (set_active_terminal s n).currentPID _4MB))
          0x0 PAGE_UNPRIVILEGED 0x1 0x1 ∧
    ((set_active_terminal s n).currentPID < MAX_PROCESSES →
      ((set_active_terminal s n).page_dir USER_MEM_PD_ENTRY).frame_base
        = USER_MEM_BASE_ADDR + (set_active_terminal s n).currentPID * _4MB) ∧
    (∀ k, k ≠ USER_MEM_PD_ENTRY → (set_active_terminal s n).page_dir k = s.page_dir k) ∧
    (∀ shown_idx shown,
      (set_active_terminal { s with TS_idx := shown_idx, terminal_shown := shown } n).page_dir
        = (set_active_terminal s n).page_dir) := by
  have hrec := set_active_terminal_record s n
  have hload : (set_active_terminal s n).tss.esp0 = ((set_active_terminal s n).terminal_arr n).saved_esp0 ∧
      (set_active_terminal s n).currentPID = ((set_active_terminal s n).terminal_arr n).currentPID ∧
      (set_active_terminal s n).current_PCB = ((set_active_terminal s n).terminal_arr n).currentPCB :=
    ⟨rfl, rfl, rfl⟩
  refine ⟨by rw [hrec], by rw [hrec], by rw [hrec],
    fun i hi => set_active_terminal_record_other s n i hi, rfl, rfl, hload.1, hload.2.1, hload.2.2,
    ?_, ?_, ?_, ?_, ?_, ?_⟩
  · intro hn
    rw [hload.1, hload.2.1, hload.2.2, set_active_terminal_record_other s n n hn]
    exact ⟨rfl, rfl, rfl⟩
  · intro hn
    subst hn
    rw [hload.1, hload.2.1, hload.2.2, hrec]
    exact ⟨rfl, rfl, rfl⟩
  · rw [set_active_terminal_page_dir, set_user_page_page_dir_window]
    rfl
  · intro hp
    rw [set_active_terminal_page_dir]
    have hp2 : ((set_active_terminal s n).terminal_arr n).currentPID < 1022 := by
      have : (set_active_terminal s n).currentPID = ((set_active_terminal s n).terminal_arr n).currentPID := rfl
      rw [← this]
      unfold MAX_PROCESSES at hp
      omega
    rw [set_user_page_frame_exact _ _ hp2]
    rfl
  · intro k hk
    rw [set_active_terminal_page_dir]
    exact set_user_page_page_dir_other _ _ _ hk
  · intro shown_idx shown
    rfl

/-- The claim at work: after three ticks terminal 2 is active with owner 2;
switching to terminal 0 records owner 2 in terminal 2's record, loads owner 0
and binds the window to owner 0's frame at 8MB. -/
theorem set_active_terminal_switch_witness :
    (0 : Nat) ≠ tick2_state.terminal_active ∧
    ((set_active_terminal tick2_state 0).terminal_arr 2).currentPID = 2 ∧
    (set_active_terminal tick2_state 0).currentPID = 0 ∧
    (set_active_terminal tick2_state 0).tss.esp0 = (tick2_state.terminal_arr 0).saved_esp0 ∧
    ((set_active_terminal tick2_state 0).page_dir USER_MEM_PD_ENTRY).frame_base = 0x800000 :=
  have h := set_active_terminal_switch tick2_state 0
  ⟨by decide, h.2.1, (h.2.2.2.2.2.2.2.2.2.1 (by decide)).2.1, (h.2.2.2.2.2.2.2.2.2.1 (by decide)).1,
   h.2.2.2.2.2.2.2.2.2.2.2.2.1 (by decide)⟩

/-! ## Descriptor allocation and release -/

theorem find_fd_spec (A : Nat) : ∀ (n fd : Nat),
    fd ≤ find_fd A n fd ∧ find_fd A n fd ≤ fd + n ∧
    (find_fd A n fd < fd + n → CHECK_FLAG A (find_fd A n fd) = 0) ∧
    ∀ k, fd ≤ k → k < find_fd A n fd → CHECK_FLAG A k ≠ 0 := by
  intro n
  induction n with
  | zero =>
    intro fd
    simp only [find_fd]
    exact ⟨le_refl _, by omega, by omega, fun k h1 h2 => by omega⟩
  | succ n ih =>
    intro fd
    unfold find_fd
    by_cases hc : CHECK_FLAG A fd = 0
    · rw [if_pos hc]
      exact ⟨le_refl _, by omega, fun _ => hc, fun k h1 h2 => by omega⟩
    · rw [if_neg hc]
      obtain ⟨h1, h2, h3, h4⟩ := ih (fd + 1)
      refine ⟨by omega, by omega, fun h => h3 (by omega), ?_⟩
      intro k hk1 hk2
      by_cases hk : k = fd
      · subst hk; exact hc
      · exact h4 k (by omega) hk2

theorem find_fd_of_least (A : Nat) (n fd f : Nat) (h1 : fd ≤ f) (h2 : f < fd + n)
    (h3 : CHECK_FLAG A f = 0) (h4 : ∀ k, fd ≤ k → k < f → CHECK_FLAG A k ≠ 0) :
    find_fd A n fd = f := by
  obtain ⟨g1, g2, g3, g4⟩ := find_fd_spec A n fd
  by_contra hne
  rcases Nat.lt_or_gt_of_ne hne with hlt | hgt
  · exact h4 _ g1 hlt (g3 (by omega))
  · exact g4 f h1 hgt h3

theorem find_fd_full (A : Nat) (n fd : Nat) (h : ∀ k, fd ≤ k → k < fd + n → CHECK_FLAG A k ≠ 0) :
    find_fd A n fd = fd + n := by
  obtain ⟨g1, g2, g3, g4⟩ := find_fd_spec A n fd
  by_contra hne
  have hlt : find_fd A n fd < fd + n := by omega
  exact h _ g1 hlt (g3 hlt)

theorem testBit_u8_high (A i : Nat) (hA : A < 256) (hi : 8 ≤ i) : A.testBit i = false := by
  apply Nat.testBit_lt_two_pow
  calc A < 2 ^ 8 := by simpa using hA
    _ ≤ 2 ^ i := Nat.pow_le_pow_right (by norm_num) hi

/-- Value of `open_files |= 1 << p` in a `uint8_t`. -/
theorem set_u8 (A p : Nat) (hA : A < 256) (hp : p < 8) :
    (A ||| shl32 1 p) % 256 = A ||| 2 ^ p := by
  rw [shl32_one p (by omega)]
  have h : A ||| 2 ^ p < 2 ^ 8 :=
    Nat.or_lt_two_pow (by simpa using hA) (Nat.pow_lt_pow_right (by norm_num) hp)
  exact Nat.mod_eq_of_lt (by simpa using h)

/-- Bits of `open_files |= 1 << p`. -/
theorem testBit_set_u8 (A p i : Nat) (hA : A < 256) (hp : p < 8) :
    ((A ||| shl32 1 p) % 256).testBit i = (A.testBit i || decide (i = p)) := by
  rw [set_u8 A p hA hp, Nat.testBit_or, Nat.testBit_two_pow]
  congr 1
  by_cases h : i = p
  · subst h; simp
  · have h' : ¬ p = i := fun hh => h hh.symm
    simp [h, h']

/-- Value of `open_files &= ~(1 << p)` in a `uint8_t`. -/
theorem clear_u8 (A p : Nat) (hA : A < 256) :
    (A &&& not32 (shl32 1 p)) % 256 = A &&& not32 (shl32 1 p) :=
  Nat.mod_eq_of_lt (lt_of_le_of_lt Nat.and_le_left hA)

/-- Bits of `open_files &= ~(1 << p)`. -/
theorem testBit_clear_u8 (A p i : Nat) (hA : A < 256) (hp : p < 8) :
    ((A &&& not32 (shl32 1 p)) % 256).testBit i = (A.testBit i && !decide (i = p)) := by
  rw [clear_u8 A p hA, testBit_clear A p i (by omega) (by omega)]

theorem open_member_ret (t : fops_jumptable_t) (s : State) : (t.open_member s).2 = 0 := by
  cases t <;> rfl

@[simp] theorem open_member_pcbs (t : fops_jumptable_t) (s : State) :
    (t.open_member s).1.pcbs = s.pcbs := by
  cases t <;> rfl

@[simp] theorem open_member_current_PCB (t : fops_jumptable_t) (s : State) :
    (t.open_member s).1.current_PCB = s.current_PCB := by
  cases t <;> rfl

@[simp] theorem set_slot_current_PCB (s : State) (fd : Nat) (slot : file_desc_t) :
    (set_slot s fd slot).current_PCB = s.current_PCB := rfl

@[simp] theorem set_open_files_current_PCB (s : State) (mask : Nat) :
    (set_open_files s mask).current_PCB = s.current_PCB := rfl

@[simp] theorem set_slot_open_files (s : State) (fd : Nat) (slot : file_desc_t) :
    ((set_slot s fd slot).pcbs s.current_PCB).open_files = (s.pcbs s.current_PCB).open_files := by
  simp [set_slot]

@[simp] theorem set_slot_slot (s : State) (fd : Nat) (slot : file_desc_t) :
    ((set_slot s fd slot).pcbs s.current_PCB).file_desc_arr fd = slot := by
  simp [set_slot]

theorem set_slot_slot_other (s : State) (fd k : Nat) (slot : file_desc_t) (hk : k ≠ fd) :
    ((set_slot s fd slot).pcbs s.current_PCB).file_desc_arr k
      = (s.pcbs s.current_PCB).file_desc_arr k := by
  simp [set_slot, hk]

theorem set_slot_pcb_other (s : State) (fd a : Nat) (slot : file_desc_t) (ha : a ≠ s.current_PCB) :
    (set_slot s fd slot).pcbs a = s.pcbs a := by
  simp [set_slot, ha]

@[simp] theorem set_open_files_open_files (s : State) (mask : Nat) :
    ((set_open_files s mask).pcbs s.current_PCB).open_files = mask % 256 := by
  simp [set_open_files]

@[simp] theorem set_open_files_slots (s : State) (mask : Nat) :
    ((set_open_files s mask).pcbs s.current_PCB).file_desc_arr
      = (s.pcbs s.current_PCB).file_desc_arr := by
  simp [set_open_files]

theorem set_open_files_pcb_other (s : State) (mask a : Nat) (ha : a ≠ s.current_PCB) :
    (set_open_files s mask).pcbs a = s.pcbs a := by
  simp [set_open_files, ha]

/-- The two early returns of `open`. -/
theorem sys_open_full (e : Env) (s : State) (filename : List Nat)
    (h : find_fd (s.pcbs s.current_PCB).open_files (MAX_FDS - 2) 2 = MAX_FDS) :
    sys_open e s filename = .returned s (-1) := by
  unfold sys_open
  simp only [h, if_true]

theorem sys_open_not_found (e : Env) (s : State) (filename : List Nat)
    (h : read_dentry_by_name e.disk filename = none) :
    sys_open e s filename = .returned s (-1) := by
  unfold sys_open
  simp only [h]
  split <;> rfl

/-- The path of `open` that stores a table and calls its `open` member. -/
theorem sys_open_found (e : Env) (s : State) (filename : List Nat) (dentry : dentry_t)
    (t : fops_jumptable_t)
    (hfd : find_fd (s.pcbs s.current_PCB).open_files (MAX_FDS - 2) 2 ≠ MAX_FDS)
    (hd : read_dentry_by_name e.disk filename = some dentry)
    (ht : select_jmptable dentry.file_type
        ((s.pcbs s.current_PCB).file_desc_arr
          (find_fd (s.pcbs s.current_PCB).open_files (MAX_FDS - 2) 2)).fops_table_ptr = some t) :
    sys_open e s filename
      = .returned
          (set_open_files
            (t.open_member
              (set_slot s (find_fd (s.pcbs s.current_PCB).open_files (MAX_FDS - 2) 2)
                { fops_table_ptr := some t, inode_num := dentry.inode_idx, file_pos := 0, flags := 0 })).1
            ((s.pcbs s.current_PCB).open_files
              ||| shl32 1 (find_fd (s.pcbs s.current_PCB).open_files (MAX_FDS - 2) 2)))
          (find_fd (s.pcbs s.current_PCB).open_files (MAX_FDS - 2) 2 : Nat) := by
  unfold sys_open
  simp only [hfd, if_false, hd, ht, open_member_ret, open_member_pcbs, open_member_current_PCB,
    set_slot_current_PCB, set_slot_open_files]
  simp

/-- The path of `open` on which no case of the `switch` matches and the slot
holds `NULL`. -/
theorem sys_open_null (e : Env) (s : State) (filename : List Nat) (dentry : dentry_t)
    (hfd : find_fd (s.pcbs s.current_PCB).open_files (MAX_FDS - 2) 2 ≠ MAX_FDS)
    (hd : read_dentry_by_name e.disk filename = some dentry)
    (ht : select_jmptable dentry.file_type
        ((s.pcbs s.current_PCB).file_desc_arr
          (find_fd (s.pcbs s.current_PCB).open_files (MAX_FDS - 2) 2)).fops_table_ptr = none) :
    sys_open e s filename = .undefined := by
  unfold sys_open
  simp only [hfd, if_false, hd, ht]

theorem select_jmptable_known (file_type : Nat) (old : Option fops_jumptable_t)
    (h : file_type = RTC_FILE_TYPE ∨ file_type = DIRECTORY_FILE_TYPE ∨ file_type = REGULAR_FILE_TYPE) :
    ∃ t, select_jmptable file_type old = some t ∧ t.close = some 0 := by
  unfold select_jmptable
  rcases h with h | h | h
  · exact ⟨.rtc_jmptable, by simp [h], rfl⟩
  · exact ⟨.directory_jmptable, by simp [h, DIRECTORY_FILE_TYPE, RTC_FILE_TYPE], rfl⟩
  · exact ⟨.file_jmptable, by simp [h, DIRECTORY_FILE_TYPE, RTC_FILE_TYPE, REGULAR_FILE_TYPE], rfl⟩

theorem find_fd_lowest (M f : Nat) (h2 : 2 ≤ f) (h8 : f < MAX_FDS) (hc : M.testBit f = false)
    (hb : ∀ k, 2 ≤ k → k < f → M.testBit k = true) : find_fd M (MAX_FDS - 2) 2 = f := by
  have h8' : f < 8 := by simpa [MAX_FDS] using h8
  apply find_fd_of_least M _ 2 f h2 (by simp [MAX_FDS]; omega)
  · exact (CHECK_FLAG_eq_zero_iff M f (by omega)).2 hc
  · intro k hk1 hk2 hz
    have := (CHECK_FLAG_eq_zero_iff M k (by omega)).1 hz
    rw [hb k hk1 hk2] at this
    cases this

theorem find_fd_exhausted (M : Nat) (hb : ∀ k, 2 ≤ k → k < MAX_FDS → M.testBit k = true) :
    find_fd M (MAX_FDS - 2) 2 = MAX_FDS := by
  have := find_fd_full M (MAX_FDS - 2) 2 (by
    intro k hk1 hk2 hz
    have hk8 : k < 8 := by simp [MAX_FDS] at hk2; omega
    have := (CHECK_FLAG_eq_zero_iff M k (by omega)).1 hz
    rw [hb k hk1 (by simpa [MAX_FDS] using hk8)] at this
    cases this)
  rw [this]; rfl

/-- The state `open` leaves on success, seen from the process control blocks. -/
theorem sys_open_found_pcbs (s : State) (t : fops_jumptable_t) (fd mask : Nat) (slot : file_desc_t) :
    (set_open_files (t.open_member (set_slot s fd slot)).1 mask).current_PCB = s.current_PCB ∧
    ((set_open_files (t.open_member (set_slot s fd slot)).1 mask).pcbs s.current_PCB).open_files
      = mask % 256 ∧
    ((set_open_files (t.open_member (set_slot s fd slot)).1 mask).pcbs s.current_PCB).file_desc_arr
      = Function.update (s.pcbs s.current_PCB).file_desc_arr fd slot ∧
    ∀ a, a ≠ s.current_PCB →
      (set_open_files (t.open_member (set_slot s fd slot)).1 mask).pcbs a = s.pcbs a := by
  refine ⟨?_, ?_, ?_, ?_⟩
  · cases t <;> rfl
  · cases t <;> simp [set_open_files, set_slot, fops_jumptable_t.open_member]
  · cases t <;> simp [set_open_files, set_slot, fops_jumptable_t.open_member]
  · intro a ha
    cases t <;> simp [set_open_files, set_slot, fops_jumptable_t.open_member, ha]

theorem select_jmptable_indep (file_type : Nat) (old : Option fops_jumptable_t)
    (h : file_type = RTC_FILE_TYPE ∨ file_type = DIRECTORY_FILE_TYPE ∨ file_type = REGULAR_FILE_TYPE) :
    select_jmptable file_type old = select_jmptable file_type none := by
  unfold select_jmptable
  rcases h with h | h | h <;> simp [h, DIRECTORY_FILE_TYPE, RTC_FILE_TYPE, REGULAR_FILE_TYPE]

/-- C13: `open(filename)` in a process whose `open_files` is an 8-bit mask.
When the name is found (with one of the three file types of the image format)
and `f` is the lowest clear bit among 2..7, the call returns `f`, sets exactly
bit `f` of `open_files`, and fills slot `f` with the jump table of the file
type, the entry's inode and file position 0; no other slot and no other
process control block changes.  When bits 2..7 are all set, or when the name
is not found, the call returns -1 and the state is unchanged. -/
theorem open_allocates_lowest_free (e : Env) (s : State) (filename : List Nat)
    (hM : (s.pcbs s.current_PCB).open_files < 256) :
    (∀ dentry f, read_dentry_by_name e.disk filename = some dentry →
      (dentry.file_type = RTC_FILE_TYPE ∨ dentry.file_type = DIRECTORY_FILE_TYPE
        ∨ dentry.file_type = REGULAR_FILE_TYPE) →
      2 ≤ f → f < MAX_FDS → (s.pcbs s.current_PCB).open_files.testBit f = false →
      (∀ k, 2 ≤ k → k < f → (s.pcbs s.current_PCB).open_files.testBit k = true) →
      ∃ s', sys_open e s filename = .returned s' (f : Nat) ∧
        s'.current_PCB = s.current_PCB ∧
        (s'.pcbs s'.current_PCB).open_files = (s.pcbs s.current_PCB).open_files ||| 2 ^ f ∧
        (∀ k, (s'.pcbs s'.current_PCB).open_files.testBit k
          = ((s.pcbs s.current_PCB).open_files.testBit k || decide (k = f))) ∧
        ((s'.pcbs s'.current_PCB).file_desc_arr f).file_pos = 0 ∧
        ((s'.pcbs s'.current_PCB).file_desc_arr f).inode_num = dentry.inode_idx ∧
        ((s'.pcbs s'.current_PCB).file_desc_arr f).fops_table_ptr
          = select_jmptable dentry.file_type none ∧
        ((s'.pcbs s'.current_PCB).file_desc_arr f).fops_table_ptr ≠ none ∧
        (∀ k, k ≠ f →
          (s'.pcbs s'.current_PCB).file_desc_arr k = (s.pcbs s.current_PCB).file_desc_arr k) ∧
        (∀ a, a ≠ s.current_PCB → s'.pcbs a = s.pcbs a)) ∧
    ((∀ k, 2 ≤ k → k < MAX_FDS → (s.pcbs s.current_PCB).open_files.testBit k = true) →
      sys_open e s filename = .returned s (-1)) ∧
    (read_dentry_by_name e.disk filename = none → sys_open e s filename = .returned s (-1)) := by
  refine ⟨?_, fun h => sys_open_full e s filename (find_fd_exhausted _ h),
    fun h => sys_open_not_found e s filename h⟩
  intro dentry f hd hty h2 h8 hc hb
  have hf8 : f < 8 := by simpa [MAX_FDS] using h8
  have hfd := find_fd_lowest _ f h2 h8 hc hb
  obtain ⟨t, ht, _⟩ := select_jmptable_known dentry.file_type
    ((s.pcbs s.current_PCB).file_desc_arr f).fops_table_ptr hty
  have hne : find_fd (s.pcbs s.current_PCB).open_files (MAX_FDS - 2) 2 ≠ MAX_FDS := by
    rw [hfd]; exact Nat.ne_of_lt h8
  have hopen := sys_open_found e s filename dentry t hne hd (by rw [hfd]; exact ht)
  rw [hfd] at hopen
  obtain ⟨g1, g2, g3, g4⟩ := sys_open_found_pcbs s t f
    ((s.pcbs s.current_PCB).open_files ||| shl32 1 f)
    { fops_table_ptr := some t, inode_num := dentry.inode_idx, file_pos := 0, flags := 0 }
  refine ⟨_, hopen, g1, ?_, ?_, ?_, ?_, ?_, ?_, ?_, g4⟩
  · rw [g1, g2, set_u8 _ f hM hf8]
  · intro k
    rw [g1, g2, testBit_set_u8 _ f k hM hf8]
  · rw [g1, g3]; simp
  · rw [g1, g3]; simp
  · rw [g1, g3, ← select_jmptable_indep _ ((s.pcbs s.current_PCB).file_desc_arr f).fops_table_ptr hty,
      ht]
    simp
  · rw [g1, g3]; simp
  · intro k hk
    rw [g1, g3]; simp [hk]

/-- The claim at work: the program with id 3 (mask `0b00000011`) opens
`frame0.txt`, a regular file with inode 3, and receives descriptor 2. -/
theorem open_allocates_lowest_free_witness :
    (child_state.pcbs child_state.current_PCB).open_files < 256 ∧
    ∃ s', sys_open sample_env child_state frame0_name = .returned s' 2 ∧
      (s'.pcbs s'.current_PCB).open_files = 7 ∧
      ((s'.pcbs s'.current_PCB).file_desc_arr 2).inode_num = 3 ∧
      ((s'.pcbs s'.current_PCB).file_desc_arr 2).file_pos = 0 :=
  ⟨by decide,
   have h := (open_allocates_lowest_free sample_env child_state frame0_name (by decide)).1
     (sample_disk.file_dir_arr 3) 2 (by rfl) (by decide) (by decide) (by decide) (by decide)
     (by intro k h1 h2; omega)
   match h with
   | ⟨s', h1, _, h3, _, h5, h6, _⟩ => ⟨s', h1, h3, h6, h5⟩⟩

theorem slot_closable_iff (pcb : pcb_t) (i : Nat) :
    slot_closable pcb i = true ↔ ∃ t, (pcb.file_desc_arr i).fops_table_ptr = some t ∧ t.close = some 0 := by
  unfold slot_closable
  cases h : (pcb.file_desc_arr i).fops_table_ptr with
  | none => simp
  | some t => cases t <;> simp [fops_jumptable_t.close]

/-- The early returns of `close`. -/
theorem close_out_of_range (s : State) (fd : Int) (h : fd < 2 ∨ (MAX_FDS : Int) ≤ fd) :
    close s fd = .returned s (-1) := by
  unfold close
  rw [if_pos h]

theorem close_not_open (s : State) (fd : Int)
    (h : CHECK_FLAG (s.pcbs s.current_PCB).open_files fd.toNat = 0) :
    close s fd = .returned s (-1) := by
  unfold close
  split
  · rfl
  · rfl

/-- The path of `close` that clears the slot and the bit. -/
theorem close_open_slot (s : State) (fd : Nat) (t : fops_jumptable_t) (h2 : 2 ≤ fd) (h8 : fd < MAX_FDS)
    (hb : CHECK_FLAG (s.pcbs s.current_PCB).open_files fd ≠ 0)
    (hp : ((s.pcbs s.current_PCB).file_desc_arr fd).fops_table_ptr = some t) (hc : t.close = some 0) :
    close s (fd : Nat)
      = .returned
          (set_open_files (set_slot s fd cleared_file_desc)
            ((s.pcbs s.current_PCB).open_files &&& not32 (shl32 1 fd))) 0 := by
  have hr : ¬ (((fd : Nat) : Int) < 2 ∨ (MAX_FDS : Int) ≤ ((fd : Nat) : Int)) := by
    unfold MAX_FDS at h8 ⊢
    omega
  unfold close
  rw [if_neg hr]
  simp only [Int.toNat_ofNat, hb, if_false, hp, hc, set_slot_current_PCB, set_slot_open_files]
  simp

/-- The state `close` leaves on success, seen from the process control blocks. -/
theorem close_open_slot_pcbs (s : State) (fd mask : Nat) (slot : file_desc_t) :
    (set_open_files (set_slot s fd slot) mask).current_PCB = s.current_PCB ∧
    ((set_open_files (set_slot s fd slot) mask).pcbs s.current_PCB).open_files = mask % 256 ∧
    ((set_open_files (set_slot s fd slot) mask).pcbs s.current_PCB).file_desc_arr
      = Function.update (s.pcbs s.current_PCB).file_desc_arr fd slot ∧
    ∀ a, a ≠ s.current_PCB → (set_open_files (set_slot s fd slot) mask).pcbs a = s.pcbs a := by
  refine ⟨rfl, ?_, ?_, ?_⟩
  · simp [set_open_files, set_slot]
  · simp [set_open_files, set_slot]
  · intro a ha
    simp [set_open_files, set_slot, ha]

/-- Every way `open` can end. -/
theorem sys_open_cases (e : Env) (s : State) (filename : List Nat) :
    sys_open e s filename = .returned s (-1) ∨ sys_open e s filename = .undefined ∨
    ∃ dentry t fd, 2 ≤ fd ∧ fd < MAX_FDS ∧
      fd = find_fd (s.pcbs s.current_PCB).open_files (MAX_FDS - 2) 2 ∧
      read_dentry_by_name e.disk filename = some dentry ∧
      select_jmptable dentry.file_type ((s.pcbs s.current_PCB).file_desc_arr fd).fops_table_ptr = some t ∧
      sys_open e s filename
        = .returned
            (set_open_files
              (t.open_member
                (set_slot s fd
                  { fops_table_ptr := some t, inode_num := dentry.inode_idx, file_pos := 0, flags := 0 })).1
              ((s.pcbs s.current_PCB).open_files ||| shl32 1 fd))
            (fd : Nat) := by
  by_cases hfd : find_fd (s.pcbs s.current_PCB).open_files (MAX_FDS - 2) 2 = MAX_FDS
  · exact Or.inl (sys_open_full e s filename hfd)
  · cases hd : read_dentry_by_name e.disk filename with
    | none => exact Or.inl (sys_open_not_found e s filename hd)
    | some dentry =>
      cases ht : select_jmptable dentry.file_type
          ((s.pcbs s.current_PCB).file_desc_arr
            (find_fd (s.pcbs s.current_PCB).open_files (MAX_FDS - 2) 2)).fops_table_ptr with
      | none => exact Or.inr (Or.inl (sys_open_null e s filename dentry hfd hd ht))
      | some t =>
        obtain ⟨g1, g2, _, _⟩ := find_fd_spec (s.pcbs s.current_PCB).open_files (MAX_FDS - 2) 2
        refine Or.inr (Or.inr ⟨dentry, t, _, g1, ?_, rfl, rfl, ht, sys_open_found e s filename dentry t hfd hd ht⟩)
        have : 2 + (MAX_FDS - 2) = MAX_FDS := by decide
        omega

/-- Every way `close` can end. -/
theorem close_cases (s : State) (fd : Int) :
    close s fd = .returned s (-1) ∨ close s fd = .undefined ∨
    ∃ k : Nat, fd = (k : Nat) ∧ 2 ≤ k ∧ k < MAX_FDS ∧
      CHECK_FLAG (s.pcbs s.current_PCB).open_files k ≠ 0 ∧
      close s fd
        = .returned
            (set_open_files (set_slot s k cleared_file_desc)
              ((s.pcbs s.current_PCB).open_files &&& not32 (shl32 1 k))) 0 := by
  by_cases hr : fd < 2 ∨ (MAX_FDS : Int) ≤ fd
  · exact Or.inl (close_out_of_range s fd hr)
  · by_cases hb : CHECK_FLAG (s.pcbs s.current_PCB).open_files fd.toNat = 0
    · exact Or.inl (close_not_open s fd hb)
    · have hk : fd = (fd.toNat : Nat) := by omega
      have h2 : 2 ≤ fd.toNat := by omega
      have h8 : fd.toNat < MAX_FDS := by unfold MAX_FDS at hr ⊢; omega
      cases hp : ((s.pcbs s.current_PCB).file_desc_arr fd.toNat).fops_table_ptr with
      | none =>
        refine Or.inr (Or.inl ?_)
        unfold close
        rw [if_neg hr, if_neg hb]
        simp only [hp]
      | some t =>
        cases hc : t.close with
        | none =>
          refine Or.inr (Or.inl ?_)
          unfold close
          rw [if_neg hr, if_neg hb]
          simp only [hp, hc]
        | some r =>
          have hr0 : r = 0 := by cases t <;> simp [fops_jumptable_t.close] at hc <;> omega
          subst hr0
          refine Or.inr (Or.inr ⟨fd.toNat, hk, h2, h8, hb, ?_⟩)
          have := close_open_slot s fd.toNat t h2 h8 hb hp hc
          rw [← hk] at this
          exact this

theorem testBit_mod_256 (x k : Nat) (hk : k < 8) : (x % 256).testBit k = x.testBit k := by
  have e : (256 : Nat) = 2 ^ 8 := by norm_num
  rw [e, Nat.testBit_mod_two_pow]
  simp [hk]

/-- `open_files |= 1 << fd` leaves the other bits of the byte alone. -/
theorem testBit_set_u8_other (M fd k : Nat) (hfd : fd < 32) (hk : k < 8) (hne : k ≠ fd) :
    ((M ||| shl32 1 fd) % 256).testBit k = M.testBit k := by
  rw [testBit_mod_256 _ k hk, shl32_one fd hfd, Nat.testBit_or, Nat.testBit_two_pow]
  have h' : ¬ fd = k := fun hh => hne hh.symm
  simp [h']

/-- `open_files &= ~(1 << fd)` leaves the other bits of the byte alone. -/
theorem testBit_clear_u8_other (M fd k : Nat) (hfd : fd < 32) (hk : k < 8) (hne : k ≠ fd) :
    ((M &&& not32 (shl32 1 fd)) % 256).testBit k = M.testBit k := by
  rw [testBit_mod_256 _ k hk, Nat.testBit_and, testBit_not32_shl fd k hfd]
  have : k < 32 := by omega
  simp [this, hne]

/-- `open_files &= ~(1 << fd)` clears bit `fd` of the byte. -/
theorem testBit_clear_u8_same (M fd : Nat) (hfd : fd < 8) :
    ((M &&& not32 (shl32 1 fd)) % 256).testBit fd = false := by
  rw [testBit_mod_256 _ fd hfd, Nat.testBit_and, testBit_not32_shl fd fd (by omega)]
  simp

theorem CHECK_FLAG_ne_zero_iff (A i : Nat) (hi : i < 32) : CHECK_FLAG A i ≠ 0 ↔ A.testBit i = true := by
  rw [Ne, CHECK_FLAG_eq_zero_iff A i hi]
  cases A.testBit i <;> simp

/-- A descriptor call never changes which process is current nor bits 0 and 1
of its `open_files`. -/
theorem fd_call_step (e : Env) (s s' : State) (c : FdCall)
    (h : (c.outcome e s).state? = some s') :
    s'.current_PCB = s.current_PCB ∧
    ∀ k, k < 2 → (s'.pcbs s'.current_PCB).open_files.testBit k
        = (s.pcbs s.current_PCB).open_files.testBit k := by
  cases c with
  | sys_open filename =>
    simp only [FdCall.outcome] at h
    rcases sys_open_cases e s filename with h1 | h1 | ⟨dentry, t, fd, h2, h8, _, _, _, h1⟩
    · rw [h1] at h
      simp only [Outcome.state?, Option.some.injEq] at h
      subst h
      exact ⟨rfl, fun _ _ => rfl⟩
    · rw [h1] at h
      simp [Outcome.state?] at h
    · rw [h1] at h
      simp only [Outcome.state?, Option.some.injEq] at h
      subst h
      obtain ⟨g1, g2, _, _⟩ := sys_open_found_pcbs s t fd
        ((s.pcbs s.current_PCB).open_files ||| shl32 1 fd)
        { fops_table_ptr := some t, inode_num := dentry.inode_idx, file_pos := 0, flags := 0 }
      refine ⟨g1, ?_⟩
      intro k hk
      unfold MAX_FDS at h8
      rw [g1, g2, testBit_set_u8_other _ fd k (by omega) (by omega) (by omega)]
  | close fd =>
    simp only [FdCall.outcome] at h
    rcases close_cases s fd with h1 | h1 | ⟨k, _, h2, h8, _, h1⟩
    · rw [h1] at h
      simp only [Outcome.state?, Option.some.injEq] at h
      subst h
      exact ⟨rfl, fun _ _ => rfl⟩
    · rw [h1] at h
      simp [Outcome.state?] at h
    · rw [h1] at h
      simp only [Outcome.state?, Option.some.injEq] at h
      subst h
      obtain ⟨g1, g2, _, _⟩ := close_open_slot_pcbs s k
        ((s.pcbs s.current_PCB).open_files &&& not32 (shl32 1 k)) cleared_file_desc
      refine ⟨g1, ?_⟩
      intro j hj
      unfold MAX_FDS at h8
      rw [g1, g2, testBit_clear_u8_other _ k j (by omega) (by omega) (by omega)]

theorem run_fd_calls_reserved (e : Env) : ∀ (calls : List FdCall) (s s' : State),
    run_fd_calls e s calls = some s' →
    s'.current_PCB = s.current_PCB ∧
    ∀ k, k < 2 → (s'.pcbs s'.current_PCB).open_files.testBit k
        = (s.pcbs s.current_PCB).open_files.testBit k := by
  intro calls
  induction calls with
  | nil =>
    intro s s' h
    simp only [run_fd_calls, Option.some.injEq] at h
    subst h
    exact ⟨rfl, fun _ _ => rfl⟩
  | cons c rest ih =>
    intro s s' h
    unfold run_fd_calls at h
    cases hc : (c.outcome e s).state? with
    | none => rw [hc] at h; simp at h
    | some s1 =>
      rw [hc] at h
      simp only at h
      obtain ⟨a1, a2⟩ := fd_call_step e s s1 c hc
      obtain ⟨b1, b2⟩ := ih s1 s' h
      exact ⟨b1.trans a1, fun k hk => (b2 k hk).trans (a2 k hk)⟩

theorem read_dentry_by_name_loop_mem (d : Disk) (fname : List Nat) : ∀ (n i : Nat) (dentry : dentry_t),
    read_dentry_by_name_loop d fname n i = some dentry →
    ∃ j, i ≤ j ∧ j < i + n ∧ dentry = d.file_dir_arr j := by
  intro n
  induction n with
  | zero => intro i dentry h; simp [read_dentry_by_name_loop] at h
  | succ n ih =>
    intro i dentry h
    unfold read_dentry_by_name_loop at h
    split at h
    · simp only [Option.some.injEq] at h
      exact ⟨i, le_refl _, by omega, h.symm⟩
    · obtain ⟨j, h1, h2, h3⟩ := ih (i + 1) dentry h
      exact ⟨j, by omega, by omega, h3⟩

theorem known_type_of_found (d : Disk) (fname : List Nat) (dentry : dentry_t)
    (hk : known_file_types d) (h : read_dentry_by_name d fname = some dentry) :
    dentry.file_type = RTC_FILE_TYPE ∨ dentry.file_type = DIRECTORY_FILE_TYPE
      ∨ dentry.file_type = REGULAR_FILE_TYPE := by
  obtain ⟨j, _, h2, h3⟩ := read_dentry_by_name_loop_mem d fname _ _ _ h
  rw [h3]
  exact hk j (by omega)

/-- With the three known file types on the image and closable open slots, a
descriptor call returns, and the open slots stay closable. -/
theorem fd_call_defined (e : Env) (s : State) (c : FdCall) (hk : known_file_types e.disk)
    (hJ : open_slots_closable (s.pcbs s.current_PCB)) :
    ∃ s' r, c.outcome e s = .returned s' r ∧ open_slots_closable (s'.pcbs s'.current_PCB) := by
  cases c with
  | sys_open filename =>
    simp only [FdCall.outcome]
    by_cases hfd : find_fd (s.pcbs s.current_PCB).open_files (MAX_FDS - 2) 2 = MAX_FDS
    · exact ⟨s, -1, sys_open_full e s filename hfd, hJ⟩
    · cases hd : read_dentry_by_name e.disk filename with
      | none => exact ⟨s, -1, sys_open_not_found e s filename hd, hJ⟩
      | some dentry =>
        obtain ⟨t, ht, hc⟩ := select_jmptable_known dentry.file_type
          ((s.pcbs s.current_PCB).file_desc_arr
            (find_fd (s.pcbs s.current_PCB).open_files (MAX_FDS - 2) 2)).fops_table_ptr
          (known_type_of_found e.disk filename dentry hk hd)
        obtain ⟨f1, f2, _, _⟩ := find_fd_spec (s.pcbs s.current_PCB).open_files (MAX_FDS - 2) 2
        have f8 : find_fd (s.pcbs s.current_PCB).open_files (MAX_FDS - 2) 2 < 8 := by
          have : 2 + (MAX_FDS - 2) = 8 := by decide
          have : MAX_FDS = 8 := rfl
          omega
        refine ⟨_, _, sys_open_found e s filename dentry t hfd hd ht, ?_⟩
        obtain ⟨g1, g2, g3, _⟩ := sys_open_found_pcbs s t
          (find_fd (s.pcbs s.current_PCB).open_files (MAX_FDS - 2) 2)
          ((s.pcbs s.current_PCB).open_files
            ||| shl32 1 (find_fd (s.pcbs s.current_PCB).open_files (MAX_FDS - 2) 2))
          { fops_table_ptr := some t, inode_num := dentry.inode_idx, file_pos := 0, flags := 0 }
        rw [g1]
        intro i hi h2 hb
        have hi8 : i < 8 := by simpa [MAX_FDS] using hi
        by_cases hif : i = find_fd (s.pcbs s.current_PCB).open_files (MAX_FDS - 2) 2
        · rw [slot_closable_iff, g3, hif]
          exact ⟨t, by simp, hc⟩
        · have hb' := (CHECK_FLAG_ne_zero_iff _ i (by omega)).1 hb
          rw [g2, testBit_set_u8_other _ _ i (by omega) hi8 hif] at hb'
          have hold := hJ i hi h2 ((CHECK_FLAG_ne_zero_iff _ i (by omega)).2 hb')
          rw [slot_closable_iff] at hold ⊢
          rw [g3]
          simpa [hif] using hold
  | close fd =>
    simp only [FdCall.outcome]
    by_cases hr : fd < 2 ∨ (MAX_FDS : Int) ≤ fd
    · exact ⟨s, -1, close_out_of_range s fd hr, hJ⟩
    · by_cases hb : CHECK_FLAG (s.pcbs s.current_PCB).open_files fd.toNat = 0
      · exact ⟨s, -1, close_not_open s fd hb, hJ⟩
      · have hfk : fd = (fd.toNat : Nat) := by omega
        have h2 : 2 ≤ fd.toNat := by omega
        have h8 : fd.toNat < MAX_FDS := by unfold MAX_FDS at hr ⊢; omega
        have h8' : fd.toNat < 8 := by simpa [MAX_FDS] using h8
        obtain ⟨t, hp, hc⟩ := (slot_closable_iff _ _).1 (hJ fd.toNat h8 h2 hb)
        have hcl := close_open_slot s fd.toNat t h2 h8 hb hp hc
        rw [← hfk] at hcl
        refine ⟨_, _, hcl, ?_⟩
        obtain ⟨g1, g2, g3, _⟩ := close_open_slot_pcbs s fd.toNat
          ((s.pcbs s.current_PCB).open_files &&& not32 (shl32 1 fd.toNat)) cleared_file_desc
        rw [g1]
        intro i hi hi2 hbi
        have hi8 : i < 8 := by simpa [MAX_FDS] using hi
        have hb' := (CHECK_FLAG_ne_zero_iff _ i (by omega)).1 hbi
        by_cases hif : i = fd.toNat
        · rw [g2, hif, testBit_clear_u8_same _ _ h8'] at hb'
          cases hb'
        · rw [g2, testBit_clear_u8_other _ _ i (by omega) hi8 hif] at hb'
          have hold := hJ i hi hi2 ((CHECK_FLAG_ne_zero_iff _ i (by omega)).2 hb')
          rw [slot_closable_iff] at hold ⊢
          rw [g3]
          simpa [hif] using hold

theorem run_fd_calls_defined (e : Env) (hk : known_file_types e.disk) : ∀ (calls : List FdCall) (s : State),
    open_slots_closable (s.pcbs s.current_PCB) → ∃ s', run_fd_calls e s calls = some s' := by
  intro calls
  induction calls with
  | nil => intro s _; exact ⟨s, rfl⟩
  | cons c rest ih =>
    intro s hJ
    obtain ⟨s1, r, h1, hJ1⟩ := fd_call_defined e s c hk hJ
    obtain ⟨s2, h2⟩ := ih s1 hJ1
    refine ⟨s2, ?_⟩
    unfold run_fd_calls
    rw [h1]
    simpa [Outcome.state?] using h2

/-- What a successful `close` does to the current process control block. -/
theorem close_success (s : State) (fd : Nat) (hM : (s.pcbs s.current_PCB).open_files < 256)
    (h2 : 2 ≤ fd) (h8 : fd < MAX_FDS) (hb : (s.pcbs s.current_PCB).open_files.testBit fd = true)
    (hc : slot_closable (s.pcbs s.current_PCB) fd = true) :
    ∃ s', close s (fd : Nat) = .returned s' 0 ∧ s'.current_PCB = s.current_PCB ∧
      (s'.pcbs s'.current_PCB).open_files = (s.pcbs s.current_PCB).open_files &&& not32 (shl32 1 fd) ∧
      (∀ k, (s'.pcbs s'.current_PCB).open_files.testBit k
        = ((s.pcbs s.current_PCB).open_files.testBit k && !decide (k = fd))) ∧
      (s'.pcbs s'.current_PCB).file_desc_arr fd = cleared_file_desc ∧
      (∀ k, k ≠ fd →
        (s'.pcbs s'.current_PCB).file_desc_arr k = (s.pcbs s.current_PCB).file_desc_arr k) ∧
      (∀ a, a ≠ s.current_PCB → s'.pcbs a = s.pcbs a) := by
  have h8' : fd < 8 := by simpa [MAX_FDS] using h8
  obtain ⟨t, hp, hcl⟩ := (slot_closable_iff _ _).1 hc
  have hflag := (CHECK_FLAG_ne_zero_iff _ fd (by omega)).2 hb
  obtain ⟨g1, g2, g3, g4⟩ := close_open_slot_pcbs s fd
    ((s.pcbs s.current_PCB).open_files &&& not32 (shl32 1 fd)) cleared_file_desc
  refine ⟨_, close_open_slot s fd t h2 h8 hflag hp hcl, g1, ?_, ?_, ?_, ?_, g4⟩
  · rw [g1, g2, clear_u8 _ fd hM]
  · intro k
    rw [g1, g2, testBit_clear_u8 _ fd k hM h8']
  · rw [g1, g3]; simp
  · intro k hk
    rw [g1, g3]; simp [hk]

/-- Closing the descriptor that `open` has just returned gives the mask back. -/
theorem open_then_close (e : Env) (s s1 : State) (filename : List Nat) (f : Nat)
    (hM : (s.pcbs s.current_PCB).open_files < 256) (hk : known_file_types e.disk)
    (h : sys_open e s filename = .returned s1 (f : Nat)) :
    ∃ s2, close s1 (f : Nat) = .returned s2 0 ∧ s2.current_PCB = s.current_PCB ∧
      (s2.pcbs s2.current_PCB).open_files = (s.pcbs s.current_PCB).open_files := by
  rcases sys_open_cases e s filename with h1 | h1 | ⟨dentry, t, fd, h2, h8, hfd, hd, ht, h1⟩
  · rw [h1] at h
    simp only [Outcome.returned.injEq] at h
    omega
  · rw [h1] at h
    cases h
  · rw [h1] at h
    simp only [Outcome.returned.injEq, Nat.cast_inj] at h
    obtain ⟨hs, hf⟩ := h
    subst hf
    have h8' : fd < 8 := by simpa [MAX_FDS] using h8
    obtain ⟨g1, g2, g3, _⟩ := sys_open_found_pcbs s t fd
      ((s.pcbs s.current_PCB).open_files ||| shl32 1 fd)
      { fops_table_ptr := some t, inode_num := dentry.inode_idx, file_pos := 0, flags := 0 }
    rw [hs] at g1 g2 g3
    obtain ⟨t', ht', hcl⟩ := select_jmptable_known dentry.file_type
      ((s.pcbs s.current_PCB).file_desc_arr fd).fops_table_ptr
      (known_type_of_found e.disk filename dentry hk hd)
    rw [ht] at ht'
    simp only [Option.some.injEq] at ht'
    subst ht'
    have hclear : (s.pcbs s.current_PCB).open_files.testBit fd = false := by
      obtain ⟨_, _, f3, _⟩ := find_fd_spec (s.pcbs s.current_PCB).open_files (MAX_FDS - 2) 2
      rw [← hfd] at f3
      have : 2 + (MAX_FDS - 2) = 8 := by decide
      exact (CHECK_FLAG_eq_zero_iff _ fd (by omega)).1 (f3 (by omega))
    have hM1 : (s1.pcbs s1.current_PCB).open_files < 256 := by
      rw [g1, g2]; exact Nat.mod_lt _ (by norm_num)
    have hb1 : (s1.pcbs s1.current_PCB).open_files.testBit fd = true := by
      rw [g1, g2, testBit_set_u8 _ fd fd hM h8']; simp
    have hc1 : slot_closable (s1.pcbs s1.current_PCB) fd = true := by
      rw [slot_closable_iff, g1, g3]
      exact ⟨t, by simp, hcl⟩
    obtain ⟨s2, c1, c2, _, c4, _⟩ := close_success s1 fd hM1 h2 h8 hb1 hc1
    refine ⟨s2, c1, c2.trans g1, ?_⟩
    apply Nat.eq_of_testBit_eq
    intro k
    rw [c4 k, g1, g2, testBit_set_u8 _ fd k hM h8']
    by_cases hkf : k = fd
    · subst hkf; simp [hclear]
    · simp [hkf]

/-- C14: `close(fd)` in a process whose `open_files` is an 8-bit mask.  For
`fd` in 2..7 whose bit is set (the slot holding a table with a `close`
function, as every slot filled by `open` does) the call returns 0, clears
exactly bit `fd` and clears the slot; no other slot and no other process
control block changes.  For every `fd` whose bit is clear and for every `fd`
outside 2..7, 0 and 1 and the negative values included, it returns -1 and the
state is unchanged.  Closing the descriptor that `open` has just returned
restores the mask; along every run of `open` and `close` calls bits 0 and 1 of
the mask keep their value, and on an image with the three known file types
every such run is defined. -/
theorem close_releases_descriptor (e : Env) (s : State)
    (hM : (s.pcbs s.current_PCB).open_files < 256) :
    (∀ fd : Nat, 2 ≤ fd → fd < MAX_FDS → (s.pcbs s.current_PCB).open_files.testBit fd = true →
      slot_closable (s.pcbs s.current_PCB) fd = true →
      ∃ s', close s (fd : Nat) = .returned s' 0 ∧ s'.current_PCB = s.current_PCB ∧
        (s'.pcbs s'.current_PCB).open_files
          = (s.pcbs s.current_PCB).open_files &&& not32 (shl32 1 fd) ∧
        (∀ k, (s'.pcbs s'.current_PCB).open_files.testBit k
          = ((s.pcbs s.current_PCB).open_files.testBit k && !decide (k = fd))) ∧
        (s'.pcbs s'.current_PCB).file_desc_arr fd = cleared_file_desc ∧
        (∀ k, k ≠ fd →
          (s'.pcbs s'.current_PCB).file_desc_arr k = (s.pcbs s.current_PCB).file_desc_arr k) ∧
        (∀ a, a ≠ s.current_PCB → s'.pcbs a = s.pcbs a)) ∧
    (∀ fd : Int, (s.pcbs s.current_PCB).open_files.testBit fd.toNat = false →
      close s fd = .returned s (-1)) ∧
    (∀ fd : Int, fd < 2 ∨ (MAX_FDS : Int) ≤ fd → close s fd = .returned s (-1)) ∧
    close s 0 = .returned s (-1) ∧ close s 1 = .returned s (-1) ∧
    (∀ filename s1 (f : Nat), known_file_types e.disk →
      sys_open e s filename = .returned s1 (f : Nat) →
      ∃ s2, close s1 (f : Nat) = .returned s2 0 ∧ s2.current_PCB = s.current_PCB ∧
        (s2.pcbs s2.current_PCB).open_files = (s.pcbs s.current_PCB).open_files) ∧
    (∀ calls s', run_fd_calls e s calls = some s' →
      (s.pcbs s.current_PCB).open_files.testBit 0 = true →
      (s.pcbs s.current_PCB).open_files.testBit 1 = true →
      (s'.pcbs s'.current_PCB).open_files.testBit 0 = true ∧
      (s'.pcbs s'.current_PCB).open_files.testBit 1 = true) ∧
    (known_file_types e.disk → open_slots_closable (s.pcbs s.current_PCB) →
      ∀ calls, ∃ s', run_fd_calls e s calls = some s') := by
  refine ⟨fun fd h2 h8 hb hc => close_success s fd hM h2 h8 hb hc, ?_,
    fun fd h => close_out_of_range s fd h,
    close_out_of_range s 0 (Or.inl (by decide)), close_out_of_range s 1 (Or.inl (by decide)),
    fun filename s1 f hk h => open_then_close e s s1 filename f hM hk h, ?_,
    fun hk hJ calls => run_fd_calls_defined e hk calls s hJ⟩
  · intro fd hb
    by_cases hr : fd < 2 ∨ (MAX_FDS : Int) ≤ fd
    · exact close_out_of_range s fd hr
    · have h8 : fd.toNat < 8 := by unfold MAX_FDS at hr; omega
      exact close_not_open s fd ((CHECK_FLAG_eq_zero_iff _ _ (by omega)).2 hb)
  · intro calls s' h h0 h1
    obtain ⟨_, hbits⟩ := run_fd_calls_reserved e calls s s' h
    exact ⟨(hbits 0 (by decide)).trans h0, (hbits 1 (by decide)).trans h1⟩

/-- The claim at work: the program with id 3 holds `frame0.txt` on descriptor
2 (mask `0b00000111`); closing descriptor 2 returns 0 and leaves the mask
`0b00000011`, and closing descriptor 1 is refused. -/
theorem close_releases_descriptor_witness :
    (child_open_state.pcbs child_open_state.current_PCB).open_files < 256 ∧
    (∃ s', close child_open_state 2 = .returned s' 0 ∧
      (s'.pcbs s'.current_PCB).open_files = 3) ∧
    close child_open_state 1 = .returned child_open_state (-1) :=
  have h := close_releases_descriptor sample_env child_open_state (by decide)
  ⟨by decide,
   match h.1 2 (by decide) (by decide) (by decide) (by decide) with
   | ⟨s', h1, _, h3, _⟩ => ⟨s', h1, h3.trans (by decide)⟩,
   h.2.2.2.2.1⟩

/-! ## The slot invariant -/

theorem new_pcb_open_slots_bound (old : pcb_t) (pid c esp0 ebp : Nat) (a : List Nat) :
    open_slots_bound (new_pcb old pid c esp0 ebp a) := by
  intro k hk hb
  have hk8 : k < 8 := by simpa [MAX_FDS] using hk
  simp only [new_pcb] at hb ⊢
  interval_cases k
  · simp [stdin_file_desc]
  · simp [stdout_file_desc]
  all_goals exact absurd (by decide) hb

theorem sys_open_open_slots_bound (e : Env) (s s' : State) (filename : List Nat) (r : Int)
    (h : sys_open e s filename = .returned s' r)
    (hJ : open_slots_bound (s.pcbs s.current_PCB)) :
    open_slots_bound (s'.pcbs s'.current_PCB) ∧ s'.current_PCB = s.current_PCB ∧
    ∀ a, a ≠ s.current_PCB → s'.pcbs a = s.pcbs a := by
  rcases sys_open_cases e s filename with h1 | h1 | ⟨dentry, t, fd, h2, h8, _, _, _, h1⟩
  · rw [h1] at h
    simp only [Outcome.returned.injEq] at h
    obtain ⟨hs, _⟩ := h
    subst hs
    exact ⟨hJ, rfl, fun _ _ => rfl⟩
  · rw [h1] at h
    cases h
  · rw [h1] at h
    simp only [Outcome.returned.injEq] at h
    obtain ⟨hs, _⟩ := h
    obtain ⟨g1, g2, g3, g4⟩ := sys_open_found_pcbs s t fd
      ((s.pcbs s.current_PCB).open_files ||| shl32 1 fd)
      { fops_table_ptr := some t, inode_num := dentry.inode_idx, file_pos := 0, flags := 0 }
    rw [hs] at g1 g2 g3 g4
    refine ⟨?_, g1, g4⟩
    rw [g1]
    intro k hk hb
    have hk8 : k < 8 := by simpa [MAX_FDS] using hk
    have h8' : fd < 8 := by simpa [MAX_FDS] using h8
    rw [g3]
    by_cases hkf : k = fd
    · subst hkf; simp
    · have hb' := (CHECK_FLAG_ne_zero_iff _ k (by omega)).1 hb
      rw [g2, testBit_set_u8_other _ fd k (by omega) hk8 hkf] at hb'
      have := hJ k hk ((CHECK_FLAG_ne_zero_iff _ k (by omega)).2 hb')
      simpa [hkf] using this

theorem close_open_slots_bound (s s' : State) (fd : Int) (r : Int)
    (h : close s fd = .returned s' r)
    (hJ : open_slots_bound (s.pcbs s.current_PCB)) :
    open_slots_bound (s'.pcbs s'.current_PCB) ∧ s'.current_PCB = s.current_PCB ∧
    ∀ a, a ≠ s.current_PCB → s'.pcbs a = s.pcbs a := by
  rcases close_cases s fd with h1 | h1 | ⟨j, _, h2, h8, _, h1⟩
  · rw [h1] at h
    simp only [Outcome.returned.injEq] at h
    obtain ⟨hs, _⟩ := h
    subst hs
    exact ⟨hJ, rfl, fun _ _ => rfl⟩
  · rw [h1] at h
    cases h
  · rw [h1] at h
    simp only [Outcome.returned.injEq] at h
    obtain ⟨hs, _⟩ := h
    obtain ⟨g1, g2, g3, g4⟩ := close_open_slot_pcbs s j
      ((s.pcbs s.current_PCB).open_files &&& not32 (shl32 1 j)) cleared_file_desc
    rw [hs] at g1 g2 g3 g4
    refine ⟨?_, g1, g4⟩
    rw [g1]
    intro k hk hb
    have hk8 : k < 8 := by simpa [MAX_FDS] using hk
    have h8' : j < 8 := by simpa [MAX_FDS] using h8
    have hb' := (CHECK_FLAG_ne_zero_iff _ k (by omega)).1 hb
    rw [g3]
    by_cases hkf : k = j
    · rw [g2, hkf, testBit_clear_u8_same _ _ h8'] at hb'
      cases hb'
    · rw [g2, testBit_clear_u8_other _ j k (by omega) hk8 hkf] at hb'
      have := hJ k hk ((CHECK_FLAG_ne_zero_iff _ k (by omega)).2 hb')
      simpa [hkf] using this

theorem restore_parent_pcbs (e : Env) (s s' : State) (h : restore_parent e s = some s') :
    s'.pcbs = s.pcbs := by
  unfold restore_parent at h
  split at h
  · cases h
  · simp only [Option.some.injEq] at h
    rw [← h]
    exact restore_parent_state_pcbs e s

/-- C15, as stated, fails: the program with id 3 opened `frame0.txt` on
descriptor 2 and terminated without closing it; the next program launched
from the same shell receives id 3 again, and its descriptor has
`open_files = 0b00000011` while slot 2 still points to the file jump table. -/
theorem relaunch_slot_not_null :
    sys_open sample_env child_state frame0_name = .returned child_open_state 2 ∧
    halt sample_env child_open_state 0 0x7FBC00 = .to_parent child_halted_state 0x7FBE00 0 ∧
    execute sample_env child_halted_state shell_command 0x7FBE00
      = .user_mode relaunch_state (VIRTUAL_USER_BASE_ADDR + _4MB) 0x080482E8 ∧
    relaunch_state.currentPID = 3 ∧
    (relaunch_state.pcbs relaunch_state.current_PCB).open_files = 3 ∧
    ((relaunch_state.pcbs relaunch_state.current_PCB).file_desc_arr 2).fops_table_ptr
      = some .file_jmptable ∧
    ¬ slot_iff_bit (relaunch_state.pcbs relaunch_state.current_PCB) :=
  ⟨rfl, rfl, rfl, rfl, rfl, rfl, by decide⟩

/-- C15, amended to the direction the code maintains: in every slot 0..7 whose
bit is set in `open_files` the jump-table pointer is non-NULL.  This holds for
the descriptor `execute` creates, whatever the memory held before, and
`execute` changes no other descriptor; `open` and `close` preserve it for the
current descriptor and change no other descriptor; `restore_parent` changes no
descriptor at all. -/
theorem open_slots_bound_maintained (e : Env) (s : State) :
    (∀ command saved_ebp s' esp eip, execute e s command saved_ebp = .user_mode s' esp eip →
      open_slots_bound (s'.pcbs s'.current_PCB) ∧
      ∀ a, a ≠ s'.current_PCB → s'.pcbs a = s.pcbs a) ∧
    (∀ filename s' r, sys_open e s filename = .returned s' r →
      open_slots_bound (s.pcbs s.current_PCB) →
      open_slots_bound (s'.pcbs s'.current_PCB) ∧ s'.current_PCB = s.current_PCB ∧
      ∀ a, a ≠ s.current_PCB → s'.pcbs a = s.pcbs a) ∧
    (∀ fd s' r, close s fd = .returned s' r →
      open_slots_bound (s.pcbs s.current_PCB) →
      open_slots_bound (s'.pcbs s'.current_PCB) ∧ s'.current_PCB = s.current_PCB ∧
      ∀ a, a ≠ s.current_PCB → s'.pcbs a = s.pcbs a) ∧
    (∀ s', restore_parent e s = some s' →
      s'.pcbs = s.pcbs ∧ ∀ a, open_slots_bound (s.pcbs a) → open_slots_bound (s'.pcbs a)) := by
  refine ⟨?_, fun filename s' r h hJ => sys_open_open_slots_bound e s s' filename r h hJ,
    fun fd s' r h hJ => close_open_slots_bound s s' fd r h hJ, ?_⟩
  · intro command saved_ebp s' esp eip h
    obtain ⟨dentry, pid, cmd_args, _, _, _, _, hs, _⟩ := execute_user_mode h
    subst hs
    refine ⟨?_, ?_⟩
    · rw [spawn_current_PCB, spawn_pcb]
      exact new_pcb_open_slots_bound _ _ _ _ _ _
    · intro a ha
      rw [spawn_current_PCB] at ha
      rw [spawn_pcb_other _ _ _ _ _ ha]
      rfl
  · intro s' h
    have hp := restore_parent_pcbs e s s' h
    exact ⟨hp, fun a ha => by rw [hp]; exact ha⟩

/-- The amended claim at work on the relaunch above: the descriptor of the new
program satisfies the one-directional invariant. -/
theorem open_slots_bound_maintained_witness :
    execute sample_env child_halted_state shell_command 0x7FBE00
      = .user_mode relaunch_state (VIRTUAL_USER_BASE_ADDR + _4MB) 0x080482E8 ∧
    open_slots_bound (relaunch_state.pcbs relaunch_state.current_PCB) :=
  ⟨rfl,
   ((open_slots_bound_maintained sample_env child_halted_state).1 shell_command 0x7FBE00
      relaunch_state (VIRTUAL_USER_BASE_ADDR + _4MB) 0x080482E8 rfl).1⟩

/-! ## Fault handlers -/

/-- A handler of the terminating kind, run by a process whose id is not a
bootstrap shell's and whose open files can be closed: the `execute` call of the
parent receives 256, and the flag is clear again. -/
theorem terminate_program_exit (e : Env) (s : State) (msg : List Nat) (exec_ebp : Nat)
    (hp : MAX_TERMINALS ≤ s.currentPID) (hc : open_slots_closable (s.pcbs s.current_PCB)) :
    ∃ s', terminate_program e s msg exec_ebp
        = .halted (.to_parent s' (s.pcbs s.current_PCB).parent_ebp 256) ∧
      s'.exception_flag = 0 ∧ s'.currentPID = (s.pcbs s.current_PCB).parent_pid := by
  have hnot : ¬ s.currentPID < MAX_TERMINALS := by omega
  refine ⟨{ publish_owner (restore_parent_state e
      { s with console := e.printf msg s.console, exception_flag := 1 }) with exception_flag := 0 },
    ?_, rfl, ?_⟩
  · have key := halt_resume_eq e { s with console := e.printf msg s.console, exception_flag := 1 } 0
      (s.pcbs s.current_PCB).parent_ebp hc
    unfold terminate_program halt
    simp only [hnot, if_false]
    rw [key]
    simp
  · simp [restore_parent_state]

/-- C16, as stated, fails: the general protection handler, run by the program
with id 3, prints its message and stops with the program still current and
`exception_flag` still 0; nothing is handed to the parent.  The divide error
handler in the same state hands 256 to the parent's `execute` call. -/
theorem general_protection_stops_system :
    General_Protection_Handler sample_env child_state
      = .system_stopped
          { child_state with
            console := sample_env.printf msg_General_Protection child_state.console } ∧
    (General_Protection_Handler sample_env child_state).state.currentPID = 3 ∧
    (General_Protection_Handler sample_env child_state).state.exception_flag = 0 ∧
    ∃ s', Divide_Error_Handler sample_env child_state 0x7FBC00
      = .halted (.to_parent s' 0x7FBE00 256) :=
  ⟨rfl, rfl, rfl, _, rfl⟩

/-- C16, amended to the handlers as written.  The handlers for divide error,
debug exception, breakpoint, overflow, bound range exceeded, invalid opcode,
device not available, page fault and assertion failure print a message, set
`exception_flag` and call `halt(0)`; for a process other than a bootstrap
shell whose open files can be closed, the parent's `execute` call receives 256
and the flag is clear again.  The handlers for NMI, double fault, coprocessor
segment overrun, invalid TSS, segment not present, stack segment fault,
general protection, FPU error, alignment check, machine check and SIMD
exception print a message and stop the system. -/
theorem fault_handler_taxonomy (e : Env) (s : State) (exec_ebp : Nat) :
    (∀ h ∈ [Divide_Error_Handler, Debug_Expection_Handler, Breakpoint_Handler, Overflow_Handler,
        Bound_Range_Exceeded_Handler, Invalid_Opcode_Handler, Device_Not_Available_Handler,
        Page_Fault_Handler, Assertion_Fail_Handler],
      ∃ msg, h e s exec_ebp
        = .halted (halt e { s with console := e.printf msg s.console, exception_flag := 1 } 0 exec_ebp)) ∧
    (MAX_TERMINALS ≤ s.currentPID → open_slots_closable (s.pcbs s.current_PCB) →
      ∀ h ∈ [Divide_Error_Handler, Debug_Expection_Handler, Breakpoint_Handler, Overflow_Handler,
        Bound_Range_Exceeded_Handler, Invalid_Opcode_Handler, Device_Not_Available_Handler,
        Page_Fault_Handler, Assertion_Fail_Handler],
      ∃ s', h e s exec_ebp = .halted (.to_parent s' (s.pcbs s.current_PCB).parent_ebp 256) ∧
        s'.exception_flag = 0 ∧ s'.currentPID = (s.pcbs s.current_PCB).parent_pid) ∧
    (∀ h ∈ [NMI_Interrupt_Handler, Double_Fault_Handler, Coprocessor_Segment_Overrun_Handler,
        Invalid_TSS_Handler, Segment_Not_Present_Handler, Stack_Segment_Fault_Handler,
        General_Protection_Handler, FPU_Floating_Point_Error_Handler, Alignment_Check_Handler,
        Machine_Check_Handler, SIMD_Floating_Point_Exception_Handler],
      ∃ msg, h e s = .system_stopped { s with console := e.printf msg s.console }) := by
  refine ⟨?_, ?_, ?_⟩
  · intro h hm
    simp only [List.mem_cons, List.mem_singleton, List.mem_nil_iff, or_false] at hm
    rcases hm with rfl | rfl | rfl | rfl | rfl | rfl | rfl | rfl | rfl
    · exact ⟨msg_Divide_Error, rfl⟩
    · exact ⟨msg_Debug_Expection, rfl⟩
    · exact ⟨msg_Breakpoint, rfl⟩
    · exact ⟨msg_Overflow, rfl⟩
    · exact ⟨msg_Bound_Range_Exceeded, rfl⟩
    · exact ⟨msg_Invalid_Opcode, rfl⟩
    · exact ⟨msg_Device_Not_Available, rfl⟩
    · exact ⟨msg_Page_Fault, rfl⟩
    · exact ⟨msg_Assertion_Fail, rfl⟩
  · intro hp hc h hm
    simp only [List.mem_cons, List.mem_singleton, List.mem_nil_iff, or_false] at hm
    rcases hm with rfl | rfl | rfl | rfl | rfl | rfl | rfl | rfl | rfl
    · exact terminate_program_exit e s msg_Divide_Error exec_ebp hp hc
    · exact terminate_program_exit e s msg_Debug_Expection exec_ebp hp hc
    · exact terminate_program_exit e s msg_Breakpoint exec_ebp hp hc
    · exact terminate_program_exit e s msg_Overflow exec_ebp hp hc
    · exact terminate_program_exit e s msg_Bound_Range_Exceeded exec_ebp hp hc
    · exact terminate_program_exit e s msg_Invalid_Opcode exec_ebp hp hc
    · exact terminate_program_exit e s msg_Device_Not_Available exec_ebp hp hc
    · exact terminate_program_exit e s msg_Page_Fault exec_ebp hp hc
    · exact terminate_program_exit e s msg_Assertion_Fail exec_ebp hp hc
  · intro h hm
    simp only [List.mem_cons, List.mem_singleton, List.mem_nil_iff, or_false] at hm
    rcases hm with rfl | rfl | rfl | rfl | rfl | rfl | rfl | rfl | rfl | rfl | rfl
    · exact ⟨msg_NMI_Interrupt, rfl⟩
    · exact ⟨msg_Double_Fault, rfl⟩
    · exact ⟨msg_Coprocessor_Segment_Overrun, rfl⟩
    · exact ⟨msg_Invalid_TSS, rfl⟩
    · exact ⟨msg_Segment_Not_Present, rfl⟩
    · exact ⟨msg_Stack_Segment_Fault, rfl⟩
    · exact ⟨msg_General_Protection, rfl⟩
    · exact ⟨msg_FPU_Floating_Point_Error, rfl⟩
    · exact ⟨msg_Alignment_Check, rfl⟩
    · exact ⟨msg_Machine_Check, rfl⟩
    · exact ⟨msg_SIMD_Floating_Point_Exception, rfl⟩

/-- The amended claim at work: a page fault taken by the program with id 3
hands 256 to the `execute` call of the shell with id 2. -/
theorem fault_handler_taxonomy_witness :
    MAX_TERMINALS ≤ child_state.currentPID ∧
    open_slots_closable (child_state.pcbs child_state.current_PCB) ∧
    ∃ s', Page_Fault_Handler sample_env child_state 0x7FBC00 = .halted (.to_parent s' 0x7FBE00 256) ∧
      s'.exception_flag = 0 ∧ s'.currentPID = 2 :=
  ⟨by decide, by decide,
   (fault_handler_taxonomy sample_env child_state 0x7FBC00).2.1 (by decide) (by decide)
     Page_Fault_Handler (by simp)⟩

/-- C17, evaluated on the failing run.  The shell of terminal 2 (id 2) takes a
page fault: the handler sets `exception_flag`, `halt` starts the shell again
and never reaches the code that clears the flag.  The restarted shell launches
a program (id 3) that takes no fault and calls `halt(7)`: the `execute` call
of the shell receives 256, not 7.  Without the earlier fault the same exit
hands over 7. -/
theorem shell_fault_taints_later_exit :
    Page_Fault_Handler sample_env tick2_state 0x7FBC00
      = .halted (.user_mode respawned_shell_state (VIRTUAL_USER_BASE_ADDR + _4MB) 0x080482E8) ∧
    respawned_shell_state.currentPID = 2 ∧
    respawned_shell_state.exception_flag = 1 ∧
    execute sample_env respawned_shell_state shell_command 0x7FBE00
      = .user_mode second_child_state (VIRTUAL_USER_BASE_ADDR + _4MB) 0x080482E8 ∧
    second_child_state.currentPID = 3 ∧
    (halt sample_env second_child_state 7 0x7FBC00).exit_value? = some 256 ∧
    (halt sample_env child_state 7 0x7FBC00).exit_value? = some 7 :=
  ⟨rfl, rfl, rfl, rfl, rfl, rfl, rfl⟩

/-- C20, evaluated on the failing run.  The shell of terminal 2 calls `vidmap`,
which marks the video window present, and then launches a program (id 3).
When `execute` hands control to the program its `vidmap_inuse` is 0, it has not
called `vidmap`, and both present bits of the video window are 1. -/
theorem video_window_present_in_child :
    vidmap sample_env tick2_state 0x08000100 = .returned vidmap_state 0 ∧
    execute sample_env vidmap_state shell_command 0x7FBE00
      = .user_mode vidmap_child_state (VIRTUAL_USER_BASE_ADDR + _4MB) 0x080482E8 ∧
    vidmap_child_state.currentPID = 3 ∧
    (vidmap_child_state.pcbs vidmap_child_state.current_PCB).vidmap_inuse = 0 ∧
    (vidmap_child_state.page_dir 33).present = 1 ∧
    (vidmap_child_state.user_page_table 1).present = 1 ∧
    (child_state.page_dir 33).present = 0 :=
  ⟨rfl, rfl, rfl, rfl, rfl, rfl, rfl⟩

/-! ## Parsing the command line -/

theorem takeWhile_no_nul : ∀ (command : List Nat), (∀ c ∈ command, c ≠ 0) →
    command.takeWhile (fun c => decide (c ≠ 32) && decide (c ≠ 0))
      = command.takeWhile (fun c => decide (c ≠ 32))
  | [], _ => rfl
  | c :: rest, h => by
    have hc : c ≠ 0 := h c (List.mem_cons_self _ _)
    have hr := takeWhile_no_nul rest (fun x hx => h x (List.mem_cons_of_mem _ hx))
    by_cases h32 : c = 32
    · simp [List.takeWhile, h32]
    · simp only [List.takeWhile, h32, hc, ne_eq, not_false_eq_true, decide_True, Bool.and_self]
      rw [← hr]

theorem find_args_idx_eq (command : List Nat) (h0 : ∀ c ∈ command, c ≠ 0) :
    find_args_idx command = (text_before_space command).length := by
  unfold find_args_idx text_before_space
  rw [takeWhile_no_nul command h0]

theorem command_split (command : List Nat) :
    command = text_before_space command ++ command.dropWhile (fun c => decide (c ≠ 32)) := by
  unfold text_before_space
  exact (List.takeWhile_append_dropWhile _ _).symm

theorem exe_fname_eq (command : List Nat) (h0 : ∀ c ∈ command, c ≠ 0) :
    exe_fname command = (text_before_space command).take 32 := by
  unfold exe_fname
  rw [find_args_idx_eq command h0]
  have hsplit := command_split command
  by_cases h : 32 ≤ (text_before_space command).length
  · rw [if_pos h]
    calc command.take 32
        = (text_before_space command ++ command.dropWhile (fun c => decide (c ≠ 32))).take 32 :=
          congrArg (fun l => List.take 32 l) hsplit
      _ = (text_before_space command).take 32 := List.take_append_of_le_length h
  · rw [if_neg h]
    calc command.take (text_before_space command).length
        = (text_before_space command ++ command.dropWhile (fun c => decide (c ≠ 32))).take
            (text_before_space command).length :=
          congrArg (fun l => List.take (text_before_space command).length l) hsplit
      _ = text_before_space command := List.take_left' rfl
      _ = (text_before_space command).take 32 := (List.take_of_length_le (by omega)).symm

theorem drop_args_idx (command : List Nat) (h0 : ∀ c ∈ command, c ≠ 0) :
    command.drop (find_args_idx command) = command.dropWhile (fun c => decide (c ≠ 32)) := by
  rw [find_args_idx_eq command h0]
  calc command.drop (text_before_space command).length
      = (text_before_space command ++ command.dropWhile (fun c => decide (c ≠ 32))).drop
          (text_before_space command).length :=
        congrArg (fun l => List.drop (text_before_space command).length l) (command_split command)
    _ = command.dropWhile (fun c => decide (c ≠ 32)) := List.drop_left' rfl

theorem takeWhile_all (l : List Nat) (h0 : ∀ c ∈ l, c ≠ 0) :
    l.takeWhile (fun c => decide (c ≠ 0)) = l := by
  rw [List.takeWhile_eq_self_iff]
  intro c hc
  simpa using h0 c hc

/-- `strncpy` of a string shorter than `n`: the string, then NUL padding. -/
theorem strncpy_short (src : List Nat) (n : Nat) (h0 : ∀ c ∈ src, c ≠ 0) (hl : src.length ≤ n) :
    strncpy src n = src ++ List.replicate (n - src.length) 0 := by
  unfold strncpy
  rw [takeWhile_all src h0]
  apply List.ext_getElem
  · simp; omega
  · intro i h1 h2
    simp only [List.getElem_map, List.getElem_range]
    by_cases hi : i < src.length
    · rw [if_pos hi, List.getElem_append_left hi]
      unfold byte_at
      rw [List.getD_eq_getElem _ _ hi]
    · rw [if_neg hi, List.getElem_append_right (by omega)]
      simp

/-- The argument string `execute` stores, from a terminated `args` array. -/
theorem cmd_args_of_terminated (tail : List Nat) (k : Nat) (h0 : ∀ c ∈ tail, c ≠ 0) (hk : 0 < k) :
    cmd_args_of (tail ++ List.replicate k 0) = some (tail.drop 1) := by
  obtain ⟨k', rfl⟩ : ∃ k', k = k' + 1 := ⟨k - 1, by omega⟩
  cases tail with
  | nil => simp [cmd_args_of, List.replicate_succ]
  | cons a rest =>
    have ha : a ≠ 0 := h0 a (List.mem_cons_self _ _)
    have hr : ∀ c ∈ rest, c ≠ 0 := fun c hc => h0 c (List.mem_cons_of_mem _ hc)
    simp only [cmd_args_of, List.cons_append, ha, if_false, List.drop_succ_cons, List.drop_zero]
    have hall : (rest ++ List.replicate (k' + 1) 0).all (fun c => decide (c ≠ 0)) = false := by
      simp [List.replicate_succ]
    rw [hall]
    simp only [Bool.false_eq_true, if_false, Option.some.injEq]
    rw [List.takeWhile_append_of_pos (by intro c hc; simpa using hr c hc)]
    simp [List.replicate_succ, takeWhile_all rest hr]

theorem cmd_args_of_command (command : List Nat) (h0 : ∀ c ∈ command, c ≠ 0)
    (hlen : command.length ≤ 127) :
    cmd_args_of (args_of command) = some (text_after_space command) := by
  have hidx : find_args_idx command ≤ command.length := by
    unfold find_args_idx
    exact (List.takeWhile_sublist _).length_le
  have hn : sub32 128 (find_args_idx command) = 128 - find_args_idx command := by
    unfold sub32
    omega
  have htail0 : ∀ c ∈ command.dropWhile (fun c => decide (c ≠ 32)), c ≠ 0 :=
    fun c hc => h0 c ((List.dropWhile_sublist _).subset hc)
  have hlt : (command.dropWhile (fun c => decide (c ≠ 32))).length + find_args_idx command
      = command.length := by
    rw [← drop_args_idx command h0, List.length_drop]
    omega
  unfold args_of
  rw [hn, drop_args_idx command h0, strncpy_short _ _ htail0 (by omega),
    cmd_args_of_terminated _ _ htail0 (by omega)]
  rfl

set_option maxRecDepth 8000 in
/-- The 123 bytes `strncpy` writes into `args` for the long command: the
space and 122 letters, no NUL. -/
theorem long_args_written : args_of long_args_command = 32 :: List.replicate 122 97 := rfl

set_option maxRecDepth 8000 in
theorem long_args_unterminated : cmd_args_of (args_of long_args_command) = none := rfl

set_option maxRecDepth 8000 in
theorem long_args_execute :
    execute sample_env tick2_state long_args_command 0x7FBE00 = .undefined := rfl

/-- C18, as stated, fails: the command `shell`, a space and 125 letters has a
text of 125 bytes after its first space, but only 123 bytes fit into `args`
next to the 5-byte name; they are copied without a terminating NUL, and the
copy into `cmd_args` runs past them. -/
theorem long_args_overrun :
    text_before_space long_args_command = shell_command ∧
    (text_after_space long_args_command).length = 125 ∧
    (args_of long_args_command).length = 123 ∧
    (∀ c ∈ args_of long_args_command, c ≠ 0) ∧
    cmd_args_of (args_of long_args_command) = none ∧
    execute sample_env tick2_state long_args_command 0x7FBE00 = .undefined :=
  ⟨rfl, rfl, rfl,
   fun c hc => by
     rw [long_args_written] at hc
     simp only [List.mem_cons, List.mem_replicate] at hc
     omega,
   long_args_unterminated, long_args_execute⟩

/-- C18, amended to command lines of at most 127 bytes (name, space and text
together; the bytes of the command are those before its terminating NUL).
The name looked up is the text before the first space (the whole line if there
is none), limited to its first 32 bytes; `execute` never runs into undefined
behaviour, and when it launches the process, `cmd_args` holds exactly the text
after the first space, the empty string when there is no space. -/
theorem execute_parses_command (e : Env) (s : State) (command : List Nat) (saved_ebp : Nat)
    (h0 : ∀ c ∈ command, c ≠ 0) (hlen : command.length ≤ 127) :
    exe_fname command = (text_before_space command).take 32 ∧
    cmd_args_of (args_of command) = some (text_after_space command) ∧
    (read_dentry_by_name e.disk ((text_before_space command).take 32) = none →
      execute e s command saved_ebp = .returned s (-1)) ∧
    execute e s command saved_ebp ≠ .undefined ∧
    (∀ s' esp eip, execute e s command saved_ebp = .user_mode s' esp eip →
      (s'.pcbs s'.current_PCB).cmd_args = text_after_space command ∧
      ∃ dentry, read_dentry_by_name e.disk ((text_before_space command).take 32) = some dentry) := by
  have hname := exe_fname_eq command h0
  have hargs := cmd_args_of_command command h0 hlen
  have hidx : find_args_idx command ≤ 128 := by
    have : find_args_idx command ≤ command.length := by
      unfold find_args_idx
      exact (List.takeWhile_sublist _).length_le
    omega
  refine ⟨hname, hargs, ?_, ?_, ?_⟩
  · intro hnone
    rw [execute_eq, if_neg (args_in_bounds command hidx)]
    have : passes_checks e.disk command = none := by
      rw [passes_checks_none_iff, hname]
      exact Or.inl hnone
    rw [this]
  · intro hu
    rw [execute_eq, if_neg (args_in_bounds command hidx), hargs] at hu
    split at hu
    · cases hu
    · split at hu
      · cases hu
      · split at hu
        · simp [load_failed] at hu
        · cases hu
  · intro s' esp eip h
    obtain ⟨dentry, pid, cmd_args, hchk, _, _, hca, hs, _⟩ := execute_user_mode h
    rw [hargs] at hca
    simp only [Option.some.injEq] at hca
    subst hs
    refine ⟨?_, ?_⟩
    · rw [spawn_current_PCB, spawn_pcb, ← hca]
      rfl
    · cases hd : read_dentry_by_name e.disk ((text_before_space command).take 32) with
      | some d => exact ⟨d, rfl⟩
      | none =>
        have : passes_checks e.disk command = none := by
          rw [passes_checks_none_iff, hname]
          exact Or.inl hd
        rw [this] at hchk
        cases hchk

/-- The amended claim at work: `shell frame0.txt` looks up `shell` and the new
process receives the argument string `frame0.txt`. -/
theorem execute_parses_command_witness :
    (∀ c ∈ shell_frame0_command, c ≠ 0) ∧ shell_frame0_command.length ≤ 127 ∧
    exe_fname shell_frame0_command = shell_command ∧
    ∃ s' esp eip, execute sample_env tick2_state shell_frame0_command 0x7FBE00 = .user_mode s' esp eip ∧
      (s'.pcbs s'.current_PCB).cmd_args = frame0_name :=
  have h := execute_parses_command sample_env tick2_state shell_frame0_command 0x7FBE00
    (by decide) (by decide)
  ⟨by decide, by decide, h.1.trans (by decide),
   _, _, _, rfl, (h.2.2.2.2 _ _ _ rfl).1.trans (by decide)⟩

/-! ## The executable-format check -/

/-- The read of bytes 1..3 that `execute` makes: it fails for an inode out of
range, a file shorter than 4 bytes or a bad block index, and otherwise
delivers bytes 1, 2 and 3 of the file. -/
theorem read_data_signature (d : Disk) (inode : Nat) :
    (d.num_inodes ≤ inode ∨ (d.inodes_arr inode).file_size < 4 ∨
        bad_block_idx d (d.inodes_arr inode) = true →
      (read_data d inode 1 3).1 = -1) ∧
    (¬ (d.num_inodes ≤ inode ∨ (d.inodes_arr inode).file_size < 4 ∨
        bad_block_idx d (d.inodes_arr inode) = true) →
      (read_data d inode 1 3).1 ≠ -1 ∧
      (read_data d inode 1 3).2
        = [file_byte d (d.inodes_arr inode) 1, file_byte d (d.inodes_arr inode) 2,
           file_byte d (d.inodes_arr inode) 3]) := by
  have hadd : add32 1 3 = 4 := by decide
  refine ⟨?_, ?_⟩
  · intro h
    unfold read_data
    by_cases h1 : d.num_inodes ≤ inode
    · rw [if_pos h1]
    · rw [if_neg h1]
      simp only [hadd]
      by_cases h2 : (d.inodes_arr inode).file_size ≤ 1
      · rw [if_pos h2]
      · rw [if_neg h2]
        by_cases h3 : (d.inodes_arr inode).file_size < 4
        · rw [if_pos h3]
        · rw [if_neg h3]
          have h4 : bad_block_idx d (d.inodes_arr inode) = true := by
            rcases h with h | h | h
            · exact absurd h h1
            · exact absurd h h3
            · exact h
          rw [if_pos h4]
  · intro h
    have h1 : ¬ d.num_inodes ≤ inode := fun hh => h (Or.inl hh)
    have h3 : ¬ (d.inodes_arr inode).file_size < 4 := fun hh => h (Or.inr (Or.inl hh))
    have h2 : ¬ (d.inodes_arr inode).file_size ≤ 1 := by omega
    have h4 : ¬ bad_block_idx d (d.inodes_arr inode) = true := fun hh => h (Or.inr (Or.inr hh))
    have hcopy : copy_bytes d ((d.inodes_arr inode).block_idx_arr 0) 1 3
        = [file_byte d (d.inodes_arr inode) 1, file_byte d (d.inodes_arr inode) 2,
           file_byte d (d.inodes_arr inode) 3] := by
      simp [copy_bytes, file_byte, DISK_BLOCK_SIZE, List.range_succ, add_assoc]
    unfold read_data
    rw [if_neg h1]
    simp only [hadd, if_neg h2, if_neg h3, if_neg h4]
    have hb : (1 : Nat) / DISK_BLOCK_SIZE = 4 / DISK_BLOCK_SIZE := by decide
    have hz : (1 : Nat) / DISK_BLOCK_SIZE = 0 := by decide
    have h1m : (1 : Nat) % DISK_BLOCK_SIZE = 1 := by decide
    rw [if_pos hb, hz]
    simp only [h1m]
    rw [hcopy]
    constructor
    · split <;> simp [as_int32, add32]
    · split <;> rfl

theorem as_int8_sub_ne (a b : Nat) (ha : a < 128) (hb : b < 256) (h : a ≠ b) :
    as_int8 a - as_int8 b ≠ 0 := by
  unfold as_int8
  rw [Nat.mod_eq_of_lt (by omega : a < 256), Nat.mod_eq_of_lt hb, if_pos ha]
  split <;> omega

/-- The comparison with `ELF` on three bytes. -/
theorem strncmp_elf (b1 b2 b3 : Nat) (h1 : b1 < 256) (h2 : b2 < 256) (h3 : b3 < 256) :
    strncmp elf_str [b1, b2, b3] 3 0 = 0 ↔ [b1, b2, b3] = elf_str := by
  by_cases c1 : b1 = 69
  · subst c1
    by_cases c2 : b2 = 76
    · subst c2
      by_cases c3 : b3 = 70
      · subst c3
        exact ⟨fun _ => rfl, fun _ => by decide⟩
      · have hne : (70 : Nat) ≠ b3 := fun h => c3 h.symm
        have := as_int8_sub_ne 70 b3 (by decide) h3 hne
        simp [strncmp, elf_str, byte_at, hne, c3, this]
    · have hne : (76 : Nat) ≠ b2 := fun h => c2 h.symm
      have := as_int8_sub_ne 76 b2 (by decide) h2 hne
      simp [strncmp, elf_str, byte_at, hne, c2, this]
  · have hne : (69 : Nat) ≠ b1 := fun h => c1 h.symm
    have := as_int8_sub_ne 69 b1 (by decide) h1 hne
    simp [strncmp, elf_str, byte_at, hne, c1, this]

/-- C19, as stated, fails: on an image whose file `shell` begins with the
bytes 0, `E`, `L`, `F` instead of 0x7F, `E`, `L`, `F`, `execute("shell")`
does not return -1 but launches the file as the process with id 3. -/
theorem bad_magic_accepted :
    read_dentry_by_name bad_magic_env.disk (exe_fname shell_command)
      = some (bad_magic_disk.file_dir_arr 1) ∧
    (List.range 4).map (file_byte bad_magic_disk (bad_magic_disk.inodes_arr 1)) = [0, 69, 76, 70] ∧
    ¬ begins_with_magic bad_magic_disk (bad_magic_disk.inodes_arr 1) ∧
    ∃ s', execute bad_magic_env tick2_state shell_command 0x7FBE00
        = .user_mode s' (VIRTUAL_USER_BASE_ADDR + _4MB) 0x080482E8 ∧
      s'.currentPID = 3 ∧ s'.activeProcesses = 15 :=
  ⟨rfl, rfl, by decide, _, rfl, rfl, rfl⟩

/-- C19, amended to the bytes the code compares.  Let the name of the command
be found.  If the file is shorter than 4 bytes, or its bytes 1, 2 and 3 are
not `E`, `L`, `F`, then `execute` returns -1 and the state is unchanged: no id
is allocated and no page directory entry is written.  Conversely the check
passes for every file of at least 4 bytes with a valid inode and valid block
indices whose bytes 1, 2 and 3 are `E`, `L`, `F`; byte 0 is not examined. -/
theorem execute_rejects_non_elf (e : Env) (s : State) (command : List Nat) (saved_ebp : Nat)
    (dentry : dentry_t) (hidx : find_args_idx command ≤ 128)
    (hd : read_dentry_by_name e.disk (exe_fname command) = some dentry)
    (hbytes : ∀ p, p < 4 → file_byte e.disk (e.disk.inodes_arr dentry.inode_idx) p < 256) :
    ((e.disk.inodes_arr dentry.inode_idx).file_size < 4 ∨
      [file_byte e.disk (e.disk.inodes_arr dentry.inode_idx) 1,
       file_byte e.disk (e.disk.inodes_arr dentry.inode_idx) 2,
       file_byte e.disk (e.disk.inodes_arr dentry.inode_idx) 3] ≠ elf_str →
      execute e s command saved_ebp = .returned s (-1)) ∧
    (dentry.inode_idx < e.disk.num_inodes →
      4 ≤ (e.disk.inodes_arr dentry.inode_idx).file_size →
      bad_block_idx e.disk (e.disk.inodes_arr dentry.inode_idx) = false →
      [file_byte e.disk (e.disk.inodes_arr dentry.inode_idx) 1,
       file_byte e.disk (e.disk.inodes_arr dentry.inode_idx) 2,
       file_byte e.disk (e.disk.inodes_arr dentry.inode_idx) 3] = elf_str →
      passes_checks e.disk command = some dentry) := by
  obtain ⟨hfail, hok⟩ := read_data_signature e.disk dentry.inode_idx
  have hcmp := strncmp_elf _ _ _ (hbytes 1 (by decide)) (hbytes 2 (by decide)) (hbytes 3 (by decide))
  refine ⟨?_, ?_⟩
  · intro hbad
    have hnone : passes_checks e.disk command = none := by
      rw [passes_checks_none_iff]
      refine Or.inr ⟨dentry, hd, ?_⟩
      by_cases hf : e.disk.num_inodes ≤ dentry.inode_idx ∨
          (e.disk.inodes_arr dentry.inode_idx).file_size < 4 ∨
          bad_block_idx e.disk (e.disk.inodes_arr dentry.inode_idx) = true
      · exact Or.inl (hfail hf)
      · obtain ⟨_, hbuf⟩ := hok hf
        refine Or.inr ?_
        rw [hbuf]
        rcases hbad with hbad | hbad
        · exact absurd (Or.inr (Or.inl hbad)) hf
        · exact fun h => hbad (hcmp.1 h)
    rw [execute_eq, if_neg (args_in_bounds command hidx), hnone]
  · intro h1 h2 h3 h4
    have hf : ¬ (e.disk.num_inodes ≤ dentry.inode_idx ∨
        (e.disk.inodes_arr dentry.inode_idx).file_size < 4 ∨
        bad_block_idx e.disk (e.disk.inodes_arr dentry.inode_idx) = true) := by
      rintro (h | h | h)
      · omega
      · omega
      · rw [h3] at h; cases h
    obtain ⟨hret, hbuf⟩ := hok hf
    unfold passes_checks
    rw [hd]
    simp only [hret, if_false, hbuf, hcmp.2 h4, ne_eq, not_true_eq_false]

/-- The amended claim at work: `frame0.txt` holds the text `hello`, whose
bytes 1..3 are not `ELF`; `execute("frame0.txt")` returns -1 and changes
nothing. -/
theorem execute_rejects_non_elf_witness :
    find_args_idx frame0_name ≤ 128 ∧
    read_dentry_by_name sample_env.disk (exe_fname frame0_name) = some (sample_disk.file_dir_arr 3) ∧
    execute sample_env tick2_state frame0_name 0x7FBE00 = .returned tick2_state (-1) :=
  ⟨by decide, rfl,
   (execute_rejects_non_elf sample_env tick2_state frame0_name 0x7FBE00 (sample_disk.file_dir_arr 3)
      (by decide) rfl (by decide)).1 (Or.inr (by decide))⟩

/-! ## Directory lookup by index -/

/-- C27: `read_dentry_by_index(i, d)` returns 0 and copies entry `i - 1` of the
directory table into `d` for every `i` with `1 ≤ i ≤ num_dir_entries`; for
`i = 0` and for every `i > num_dir_entries` it returns -1 and leaves `d` as it
was. -/
theorem read_dentry_by_index_range (d : Disk) (i : Nat) (dentry : dentry_t) :
    (1 ≤ i → i ≤ d.num_dir_entries →
      read_dentry_by_index d i dentry = (0, d.file_dir_arr (i - 1))) ∧
    (i = 0 → read_dentry_by_index d i dentry = (-1, dentry)) ∧
    (d.num_dir_entries < i → read_dentry_by_index d i dentry = (-1, dentry)) := by
  unfold read_dentry_by_index
  refine ⟨?_, ?_, ?_⟩
  · intro h1 h2
    rw [if_neg (by omega)]
  · intro h
    rw [if_pos (Or.inl h)]
  · intro h
    rw [if_pos (Or.inr h)]

/-- The claim at work on a directory of 17 entries: indices 1 and 13 succeed
(index 1 is the entry `.`), indices 0 and 18 fail and leave the entry
untouched. -/
theorem read_dentry_by_index_range_witness :
    seventeen_disk.num_dir_entries = 17 ∧
    read_dentry_by_index seventeen_disk 1 scratch_dentry = (0, seventeen_disk.file_dir_arr 0) ∧
    (seventeen_disk.file_dir_arr 0).file_name = pad32 [46] ∧
    read_dentry_by_index seventeen_disk 13 scratch_dentry = (0, seventeen_disk.file_dir_arr 12) ∧
    read_dentry_by_index seventeen_disk 0 scratch_dentry = (-1, scratch_dentry) ∧
    read_dentry_by_index seventeen_disk 18 scratch_dentry = (-1, scratch_dentry) :=
  ⟨rfl,
   (read_dentry_by_index_range seventeen_disk 1 scratch_dentry).1 (by decide) (by decide),
   rfl,
   (read_dentry_by_index_range seventeen_disk 13 scratch_dentry).1 (by decide) (by decide),
   (read_dentry_by_index_range seventeen_disk 0 scratch_dentry).2.1 rfl,
   (read_dentry_by_index_range seventeen_disk 18 scratch_dentry).2.2 (by decide)⟩

/-! ## Virtual real-time clock -/

set_option maxRecDepth 100000 in
/-- Every frequency that passes the check of `rtc_write` is `2 ^ k` with `k` in
1..9, and the loop ends with `freq_bit = 9 - k`. -/
theorem rtc_accepted_table : ∀ freq, freq ≤ 512 → freq &&& sub32 freq 1 = 0 → 2 ≤ freq →
    ∃ k, k ≤ 9 ∧ 1 ≤ k ∧ freq = 2 ^ k ∧ rtc_shift_loop 32 freq 8 = some (9 - k) := by
  decide


theorem CHECK_FLAG_eq_bit (c b : Nat) (hb : b < 32) :
    CHECK_FLAG c b = if c / 2 ^ b % 2 = 1 then 2 ^ b else 0 := by
  unfold CHECK_FLAG
  rw [shl32_one b hb, Nat.and_two_pow, Nat.testBit_to_div_mod]
  by_cases h : c / 2 ^ b % 2 = 1 <;> simp [h]

theorem rtc_bit_changes_iff (c b : Nat) (hb : b ≤ 8) :
    rtc_bit_changes c b = true ↔ (c + 1) % 2 ^ b = 0 := by
  have hmod : (c + 1) % 4294967296 / 2 ^ b % 2 = (c + 1) / 2 ^ b % 2 := by
    interval_cases b <;> omega
  unfold rtc_bit_changes add32
  rw [CHECK_FLAG_eq_bit c b (by omega), CHECK_FLAG_eq_bit _ b (by omega), hmod, decide_eq_true_eq]
  interval_cases b <;> (simp only [Nat.reducePow]; split_ifs <;> simp <;> omega)

theorem rtc_update_flags_record (c : Nat) (arr : Nat → terminal_t) (i : Nat) (hi : i < MAX_TERMINALS) :
    rtc_update_flags c arr MAX_TERMINALS 0 i
      = if rtc_bit_changes c (arr i).rtc_freq_bit then { arr i with rtc_interrupt_occurred := 1 }
        else arr i := by
  have hi3 : i < 3 := hi
  simp only [MAX_TERMINALS, rtc_update_flags]
  interval_cases i <;>
    (by_cases h0 : rtc_bit_changes c (arr 0).rtc_freq_bit = true <;>
     by_cases h1 : rtc_bit_changes c (arr 1).rtc_freq_bit = true <;>
     by_cases h2 : rtc_bit_changes c (arr 2).rtc_freq_bit = true <;>
     simp [h0, h1, h2, Function.update])

theorem rtc_update_flags_other (c : Nat) (arr : Nat → terminal_t) (i : Nat) (hi : MAX_TERMINALS ≤ i) :
    rtc_update_flags c arr MAX_TERMINALS 0 i = arr i := by
  have hi3 : 3 ≤ i := hi
  have e0 : i ≠ 0 := by omega
  have e1 : i ≠ 1 := by omega
  have e2 : i ≠ 2 := by omega
  simp only [MAX_TERMINALS, rtc_update_flags]
  by_cases h0 : rtc_bit_changes c (arr 0).rtc_freq_bit = true <;>
  by_cases h1 : rtc_bit_changes c (arr 1).rtc_freq_bit = true <;>
  by_cases h2 : rtc_bit_changes c (arr 2).rtc_freq_bit = true <;>
  simp [h0, h1, h2, Function.update, e0, e1, e2]


/-- What `rtc_write` does with a frequency that passes its check. -/
theorem rtc_write_accepts (s : State) (freq k : Nat) (hk : rtc_shift_loop 32 freq 8 = some k)
    (h1 : freq &&& sub32 freq 1 = 0) (h2 : 2 ≤ freq) (h3 : freq ≤ 512) :
    rtc_write s freq
      = .returned
          { s with
            terminal_arr := Function.update s.terminal_arr s.terminal_active
              { s.terminal_arr s.terminal_active with rtc_freq_bit := k } } 0 := by
  unfold rtc_write
  rw [if_neg (by simp [h1, h2, h3]), hk]

theorem rtc_write_rejects (s : State) (freq : Nat)
    (h : ¬ (freq &&& sub32 freq 1 = 0 ∧ 2 ≤ freq ∧ freq ≤ 512)) :
    rtc_write s freq = .returned s (-1) := by
  unfold rtc_write
  rw [if_pos h]

set_option maxRecDepth 100000 in
theorem rtc_powers_pass : ∀ k, k ≤ 9 → 1 ≤ k →
    (2 ^ k &&& sub32 (2 ^ k) 1 = 0 ∧ 2 ≤ 2 ^ k ∧ 2 ^ k ≤ 512) ∧
    rtc_shift_loop 32 (2 ^ k) 8 = some (9 - k) ∧ 512 / 2 ^ k = 2 ^ (9 - k) := by
  decide

/-- C26, evaluated on the failing input: `rtc_write` with the frequency 1024
returns -1 and leaves the terminal's rate alone, while 512 and every smaller
power of two down to 2 is accepted; 1025, 2048 and 5 are rejected. -/
theorem rtc_write_1024_rejected :
    rtc_write tick2_state 1024 = .returned tick2_state (-1) ∧
    (∃ s', rtc_write tick2_state 512 = .returned s' 0) ∧
    (∃ s', rtc_write tick2_state 2 = .returned s' 0) ∧
    rtc_write tick2_state 1025 = .returned tick2_state (-1) ∧
    rtc_write tick2_state 2048 = .returned tick2_state (-1) ∧
    rtc_write tick2_state 5 = .returned tick2_state (-1) :=
  ⟨rtc_write_rejects _ _ (by decide),
   ⟨_, rtc_write_accepts _ 512 0 (by decide) (by decide) (by decide) (by decide)⟩,
   ⟨_, rtc_write_accepts _ 2 8 (by decide) (by decide) (by decide) (by decide)⟩,
   rtc_write_rejects _ _ (by decide), rtc_write_rejects _ _ (by decide),
   rtc_write_rejects _ _ (by decide)⟩

/-- C29: the virtual RTC rate.  `rtc_write` accepts `2 ^ k` for `k` in 1..9,
its loop ends, and it stores `freq_bit = 9 - k` (a value in 0..8, with
`512 / 2 ^ k = 2 ^ (9 - k)`) in the active terminal's record; it accepts
nothing else and is never undefined.  `RTC_Handler` sets the flag
`rtc_interrupt_occurred` of a terminal with frequency bit `b ≤ 8` when
`rtc_counter + 1` is a multiple of `2 ^ b` and leaves the terminal's record as
it was otherwise; it increments the counter modulo `2 ^ 32`.  Among any
`2 ^ b` consecutive interrupts, the counter wrapping around included, exactly
one sets the flag. -/
theorem rtc_virtual_rate (s : State) :
    (∀ k, 1 ≤ k → k ≤ 9 →
      ∃ s', rtc_write s (2 ^ k) = .returned s' 0 ∧
        (s'.terminal_arr s.terminal_active).rtc_freq_bit = 9 - k ∧
        rtc_shift_loop 32 (2 ^ k) 8 = some (9 - k) ∧
        9 - k ≤ 8 ∧ 512 / 2 ^ k = 2 ^ (9 - k)) ∧
    (∀ freq s', rtc_write s freq = .returned s' 0 →
      ∃ k, 1 ≤ k ∧ k ≤ 9 ∧ freq = 2 ^ k ∧
        (s'.terminal_arr s.terminal_active).rtc_freq_bit = 9 - k) ∧
    (∀ freq, rtc_write s freq ≠ .undefined) ∧
    (∀ c i, i < MAX_TERMINALS → (s.terminal_arr i).rtc_freq_bit ≤ 8 →
      ((c + 1) % 2 ^ (s.terminal_arr i).rtc_freq_bit = 0 →
        (RTC_Handler s c).1.terminal_arr i
          = { s.terminal_arr i with rtc_interrupt_occurred := 1 }) ∧
      ((c + 1) % 2 ^ (s.terminal_arr i).rtc_freq_bit ≠ 0 →
        (RTC_Handler s c).1.terminal_arr i = s.terminal_arr i)) ∧
    (∀ c, (RTC_Handler s c).2 = (c + 1) % 4294967296) ∧
    (∀ c b, b ≤ 8 → ∃! j, j < 2 ^ b ∧ rtc_bit_changes ((c + j) % 4294967296) b = true) := by
  refine ⟨?_, ?_, ?_, ?_, fun c => rfl, ?_⟩
  · intro k h1 h9
    obtain ⟨⟨g1, g2, g3⟩, g4, g5⟩ := rtc_powers_pass k h9 h1
    refine ⟨_, rtc_write_accepts s (2 ^ k) (9 - k) g4 g1 g2 g3, ?_, g4, by omega, g5⟩
    simp
  · intro freq s' h
    by_cases hg : freq &&& sub32 freq 1 = 0 ∧ 2 ≤ freq ∧ freq ≤ 512
    · obtain ⟨k, k9, k1, hf, hl⟩ := rtc_accepted_table freq hg.2.2 hg.1 hg.2.1
      rw [rtc_write_accepts s freq (9 - k) hl hg.1 hg.2.1 hg.2.2] at h
      simp only [Outcome.returned.injEq, and_true] at h
      refine ⟨k, k1, k9, hf, ?_⟩
      rw [← h]
      simp
    · rw [rtc_write_rejects s freq hg] at h
      simp at h
  · intro freq
    by_cases hg : freq &&& sub32 freq 1 = 0 ∧ 2 ≤ freq ∧ freq ≤ 512
    · obtain ⟨k, _, _, _, hl⟩ := rtc_accepted_table freq hg.2.2 hg.1 hg.2.1
      rw [rtc_write_accepts s freq (9 - k) hl hg.1 hg.2.1 hg.2.2]
      simp
    · rw [rtc_write_rejects s freq hg]
      simp
  · intro c i hi hb
    have hrec : (RTC_Handler s c).1.terminal_arr i
        = if rtc_bit_changes c (s.terminal_arr i).rtc_freq_bit then
            { s.terminal_arr i with rtc_interrupt_occurred := 1 }
          else s.terminal_arr i := rtc_update_flags_record c s.terminal_arr i hi
    have hiff := rtc_bit_changes_iff c (s.terminal_arr i).rtc_freq_bit hb
    refine ⟨fun h => ?_, fun h => ?_⟩
    · rw [hrec, if_pos (hiff.2 h)]
    · rw [hrec, if_neg (fun hh => h (hiff.1 hh))]
  · intro c b hb
    have key : ∀ j, rtc_bit_changes ((c + j) % 4294967296) b = true ↔ (c + j + 1) % 2 ^ b = 0 := by
      intro j
      rw [rtc_bit_changes_iff _ b hb]
      interval_cases b <;> omega
    refine ⟨2 ^ b - 1 - c % 2 ^ b, ⟨?_, ?_⟩, ?_⟩
    · interval_cases b <;> omega
    · rw [key]
      interval_cases b <;> omega
    · rintro j ⟨hj, hf⟩
      rw [key] at hf
      interval_cases b <;> omega

/-- The claim at work: the shell of terminal 2 sets 64 Hz and `freq_bit`
becomes 3; terminal 0, still at `freq_bit = 8`, has its flag raised by the
interrupt taken with the counter at 255 and not by the one taken at 254. -/
theorem rtc_virtual_rate_witness :
    (∃ s', rtc_write tick2_state (2 ^ 6) = .returned s' 0 ∧
      (s'.terminal_arr tick2_state.terminal_active).rtc_freq_bit = 9 - 6) ∧
    (tick2_state.terminal_arr 0).rtc_freq_bit ≤ 8 ∧
    (RTC_Handler tick2_state 255).1.terminal_arr 0
      = { tick2_state.terminal_arr 0 with rtc_interrupt_occurred := 1 } ∧
    (RTC_Handler tick2_state 254).1.terminal_arr 0 = tick2_state.terminal_arr 0 :=
  have h := rtc_virtual_rate tick2_state
  ⟨match h.1 6 (by decide) (by decide) with
   | ⟨s', h1, h2, _⟩ => ⟨s', h1, h2⟩,
   by decide,
   (h.2.2.2.1 255 0 (by decide) (by decide)).1 (by decide),
   (h.2.2.2.1 254 0 (by decide) (by decide)).2 (by decide)⟩

/-! ## The shown terminal -/

theorem shadow_addr_eq (k : Nat) (hk : k < MAX_TERMINALS) :
    shadow_addr k = 0xB8000 + (k + 1) * 4096 := by
  have hk3 : k < 3 := hk
  unfold shadow_addr add32 mul32 VMEM_BASE_ADDR _4KB
  omega

@[simp] theorem set_shown_terminal_TS_idx (s : State) (mem : Nat → Nat) (n : Nat) :
    (set_shown_terminal s mem n).1.TS_idx = n := rfl

@[simp] theorem set_shown_terminal_terminal_shown (s : State) (mem : Nat → Nat) (n : Nat) :
    (set_shown_terminal s mem n).1.terminal_shown = n := rfl

theorem set_shown_terminal_mem (s : State) (mem : Nat → Nat) (n : Nat) :
    (set_shown_terminal s mem n).2
      = memcpy (memcpy mem (shadow_addr s.TS_idx) VMEM_BASE_ADDR _4KB)
          VMEM_BASE_ADDR (shadow_addr n) _4KB := rfl

/-- C22: `set_shown_terminal(n)` with `n` and the old shown index `t` in 0..2.
Afterwards `TS_idx = n` and `terminal_shown` points to terminal `n`; the shadow
buffer of `t` holds the 4KB the primary display buffer held before; the primary
display buffer holds what the shadow buffer of `n` held before when `n ≠ t`
and is unchanged when `n = t`; the shadow buffers of the other terminals and
all memory outside the primary buffer and the shadow buffer of `t` are
unchanged. -/
theorem set_shown_terminal_swaps (s : State) (mem : Nat → Nat) (n : Nat)
    (hn : n < MAX_TERMINALS) (ht : s.TS_idx < MAX_TERMINALS) :
    (set_shown_terminal s mem n).1.TS_idx = n ∧
    (set_shown_terminal s mem n).1.terminal_shown = n ∧
    (∀ i, i < 4096 →
      (set_shown_terminal s mem n).2 (0xB8000 + (s.TS_idx + 1) * 4096 + i) = mem (0xB8000 + i)) ∧
    (n ≠ s.TS_idx → ∀ i, i < 4096 →
      (set_shown_terminal s mem n).2 (0xB8000 + i) = mem (0xB8000 + (n + 1) * 4096 + i)) ∧
    (n = s.TS_idx → ∀ i, i < 4096 →
      (set_shown_terminal s mem n).2 (0xB8000 + i) = mem (0xB8000 + i)) ∧
    (∀ k, k < MAX_TERMINALS → k ≠ s.TS_idx → ∀ i, i < 4096 →
      (set_shown_terminal s mem n).2 (0xB8000 + (k + 1) * 4096 + i)
        = mem (0xB8000 + (k + 1) * 4096 + i)) ∧
    (∀ a, ¬ (0xB8000 ≤ a ∧ a < 0xB8000 + 4096) →
      ¬ (0xB8000 + (s.TS_idx + 1) * 4096 ≤ a ∧ a < 0xB8000 + (s.TS_idx + 1) * 4096 + 4096) →
      (set_shown_terminal s mem n).2 a = mem a) := by
  have hn3 : n < 3 := hn
  have ht3 : s.TS_idx < 3 := ht
  have en := shadow_addr_eq n hn
  have et := shadow_addr_eq s.TS_idx ht
  refine ⟨rfl, rfl, ?_, ?_, ?_, ?_, ?_⟩
  · intro i hi
    rw [set_shown_terminal_mem, en, et]
    simp only [memcpy, VMEM_BASE_ADDR, _4KB]
    rw [if_neg (by omega), if_pos (by omega)]
    exact congrArg mem (by omega)
  · intro hne i hi
    rw [set_shown_terminal_mem, en, et]
    simp only [memcpy, VMEM_BASE_ADDR, _4KB]
    rw [if_pos (by omega), if_neg (by omega)]
    exact congrArg mem (by omega)
  · intro he i hi
    subst he
    rw [set_shown_terminal_mem, et]
    simp only [memcpy, VMEM_BASE_ADDR, _4KB]
    rw [if_pos (by omega), if_pos (by omega)]
    exact congrArg mem (by omega)
  · intro k hk hne i hi
    have hk3 : k < 3 := hk
    rw [set_shown_terminal_mem, en, et]
    simp only [memcpy, VMEM_BASE_ADDR, _4KB]
    rw [if_neg (by omega), if_neg (by omega)]
  · intro a h1 h2
    rw [set_shown_terminal_mem, en, et]
    simp only [memcpy, VMEM_BASE_ADDR, _4KB]
    rw [if_neg (by omega), if_neg (by omega)]

/-- The claim at work: after three ticks terminal 0 is shown; showing terminal
2 sets `TS_idx = 2`, moves the primary buffer (filled with 184) into the shadow
buffer of terminal 0 and the shadow buffer of terminal 2 (filled with 187) into
the primary buffer, and leaves the shadow buffer of terminal 1 alone. -/
theorem set_shown_terminal_swaps_witness :
    (2 : Nat) < MAX_TERMINALS ∧ tick2_state.TS_idx < MAX_TERMINALS ∧
    (set_shown_terminal tick2_state sample_mem 2).1.TS_idx = 2 ∧
    (set_shown_terminal tick2_state sample_mem 2).2 (0xB9000 + 5) = 184 ∧
    (set_shown_terminal tick2_state sample_mem 2).2 (0xB8000 + 5) = 187 ∧
    (set_shown_terminal tick2_state sample_mem 2).2 (0xBA000 + 5) = 186 :=
  have h := set_shown_terminal_swaps tick2_state sample_mem 2 (by decide) (by decide)
  ⟨by decide, by decide, h.1,
   (h.2.2.1 5 (by decide)).trans (by decide),
   (h.2.2.2.1 (by decide) 5 (by decide)).trans (by decide),
   (h.2.2.2.2.2.1 1 (by decide) (by decide) 5 (by decide)).trans (by decide)⟩

/-- C21, evaluated on the failing run.  The shell of terminal 0 calls `vidmap`
before the second timer tick.  That tick takes the bootstrap branch: it makes
terminal 1 active and enters its shell through `execute`, without a call of
`set_video_mem_page`.  When the shell of terminal 1 starts, terminal 0 is
shown, the shell's `vidmap_inuse` is 0, and the video window is present and
targets the primary display buffer 0xB8000, not the shadow buffer 0xBA000 of
terminal 1.  A tick that takes the round-robin branch in the same situation
rebinds the window: present bit 0 for an owner that has not asked for it. -/
theorem bootstrap_tick_keeps_video_window :
    PIT_Handler sample_env tick0_vidmap_state 0x7FFF00 0x7FFE00
      = .user_mode tick1_vidmap_state (VIRTUAL_USER_BASE_ADDR + _4MB) 0x080482E8 ∧
    tick1_vidmap_state.TA_idx = 1 ∧ tick1_vidmap_state.TS_idx = 0 ∧
    tick1_vidmap_state.currentPID = 1 ∧
    (tick1_vidmap_state.pcbs tick1_vidmap_state.current_PCB).vidmap_inuse = 0 ∧
    (tick1_vidmap_state.page_dir 33).present = 1 ∧
    (tick1_vidmap_state.user_page_table 1).present = 1 ∧
    (tick1_vidmap_state.user_page_table 1).translate VIRTUAL_VMEM_BASE_ADDR = 0xB8000 ∧
    PIT_Handler sample_env vidmap_state 0x7FBF00 0x7FBE00 = .switched tick3_vidmap_state 0x7FFF00 ∧
    tick3_vidmap_state.TA_idx = 0 ∧
    (tick3_vidmap_state.pcbs tick3_vidmap_state.current_PCB).vidmap_inuse = 0 ∧
    (tick3_vidmap_state.page_dir 33).present = 0 ∧
    (tick3_vidmap_state.user_page_table 1).present = 0 :=
  ⟨rfl, rfl, rfl, rfl, rfl, rfl, rfl, rfl, rfl, rfl, rfl, rfl, rfl⟩

/-! ## Reading files -/

theorem file_bytes_append (d : Disk) (ino : inode_t) (p m n : Nat) :
    file_bytes d ino p (m + n) = file_bytes d ino p m ++ file_bytes d ino (p + m) n := by
  unfold file_bytes
  apply List.ext_getElem
  · simp
  · intro i h1 h2
    simp only [List.getElem_map, List.getElem_range, List.getElem_append, List.length_map,
      List.length_range]
    split
    · rfl
    · congr 1
      omega

theorem file_bytes_length (d : Disk) (ino : inode_t) (p n : Nat) :
    (file_bytes d ino p n).length = n := by
  simp [file_bytes]

/-- Bytes copied from inside one data block are the file bytes at the
corresponding positions. -/
theorem copy_bytes_eq (d : Disk) (ino : inode_t) (b o n : Nat) (h : o + n ≤ 4096) :
    copy_bytes d (ino.block_idx_arr b) o n = file_bytes d ino (b * 4096 + o) n := by
  unfold copy_bytes file_bytes
  apply List.map_congr_left
  intro k hk
  have hk' : k < n := List.mem_range.1 hk
  unfold file_byte DISK_BLOCK_SIZE
  have e1 : (b * 4096 + o + k) / 4096 = b := by omega
  have e2 : (b * 4096 + o + k) % 4096 = o + k := by omega
  rw [e1, e2, Nat.add_assoc]

/-- The whole blocks between the first and the last block of a read. -/
theorem middle_blocks_eq (d : Disk) (ino : inode_t) : ∀ (n b : Nat),
    ((List.range' b n).map (fun i => copy_bytes d (ino.block_idx_arr i) 0 DISK_BLOCK_SIZE)).flatten
      = file_bytes d ino (b * 4096) (n * 4096) := by
  intro n
  induction n with
  | zero => intro b; simp [file_bytes]
  | succ n ih =>
    intro b
    have e : (n + 1) * 4096 = 4096 + n * 4096 := by ring
    rw [List.range'_succ, List.map_cons, List.flatten_cons, ih (b + 1), e, file_bytes_append]
    have c := copy_bytes_eq d ino b 0 4096 (by omega)
    simp only [Nat.add_zero] at c
    have e2 : (b + 1) * 4096 = b * 4096 + 4096 := by ring
    rw [e2]
    unfold DISK_BLOCK_SIZE
    rw [c]

/-- What `read_data` copies and returns for a read inside the file, the sum
`offset + length` taken without wrap-around. -/
theorem read_data_inside (d : Disk) (inode offset length : Nat)
    (h1 : inode < d.num_inodes) (hb : bad_block_idx d (d.inodes_arr inode) = false)
    (ho : offset < (d.inodes_arr inode).file_size)
    (hl : offset + length ≤ (d.inodes_arr inode).file_size)
    (hs : (d.inodes_arr inode).file_size < 4294967296) :
    read_data d inode offset length
      = (if offset + length = (d.inodes_arr inode).file_size then 0 else as_int32 length,
         file_bytes d (d.inodes_arr inode) offset length) := by
  have hadd : add32 offset length = offset + length := by
    unfold add32
    exact Nat.mod_eq_of_lt (by omega)
  have hcopied :
      (if offset / DISK_BLOCK_SIZE = (offset + length) / DISK_BLOCK_SIZE then
          copy_bytes d ((d.inodes_arr inode).block_idx_arr (offset / DISK_BLOCK_SIZE))
            (offset % DISK_BLOCK_SIZE) length
        else
          copy_bytes d ((d.inodes_arr inode).block_idx_arr (offset / DISK_BLOCK_SIZE))
              (offset % DISK_BLOCK_SIZE) (DISK_BLOCK_SIZE - offset % DISK_BLOCK_SIZE)
            ++ ((List.range' (offset / DISK_BLOCK_SIZE + 1)
                  ((offset + length) / DISK_BLOCK_SIZE - (offset / DISK_BLOCK_SIZE + 1))).map
                  (fun i => copy_bytes d ((d.inodes_arr inode).block_idx_arr i) 0 DISK_BLOCK_SIZE)).flatten
            ++ copy_bytes d ((d.inodes_arr inode).block_idx_arr ((offset + length) / DISK_BLOCK_SIZE)) 0
                ((offset + length) % DISK_BLOCK_SIZE))
        = file_bytes d (d.inodes_arr inode) offset length := by
    by_cases hsame : offset / DISK_BLOCK_SIZE = (offset + length) / DISK_BLOCK_SIZE
    · rw [if_pos hsame]
      unfold DISK_BLOCK_SIZE at hsame ⊢
      rw [copy_bytes_eq _ _ _ _ _ (by omega)]
      congr 1
      omega
    · rw [if_neg hsame, middle_blocks_eq]
      unfold DISK_BLOCK_SIZE at hsame ⊢
      rw [copy_bytes_eq _ _ _ _ _ (by omega), copy_bytes_eq _ _ _ _ _ (by omega)]
      have e0 : offset / 4096 * 4096 + offset % 4096 = offset := by omega
      have e1 : (offset / 4096 + 1) * 4096 = offset + (4096 - offset % 4096) := by omega
      have e2 : (offset + length) / 4096 * 4096 + 0
          = offset + (4096 - offset % 4096)
            + ((offset + length) / 4096 - (offset / 4096 + 1)) * 4096 := by omega
      have e3 : length = (4096 - offset % 4096)
          + ((offset + length) / 4096 - (offset / 4096 + 1)) * 4096
          + (offset + length) % 4096 := by omega
      rw [e0, e1, e2]
      conv_rhs => rw [e3]
      rw [file_bytes_append, file_bytes_append, Nat.add_assoc]
  unfold read_data
  rw [if_neg (by omega), if_neg (by omega), hadd, if_neg (by omega), hb]
  simp only [Bool.false_eq_true, if_false]
  rw [hcopied, file_bytes_length, Nat.mod_eq_of_lt (by omega : length < 4294967296), hadd]
  split <;> rfl

theorem read_data_eq (d : Disk) (inode offset length : Nat) :
    read_data d inode offset length =
      if d.num_inodes ≤ inode then (-1, [])
      else if (d.inodes_arr inode).file_size ≤ offset then (-1, [])
      else if (d.inodes_arr inode).file_size < add32 offset length then (-1, [])
      else if bad_block_idx d (d.inodes_arr inode) then (-1, [])
      else if add32 offset ((read_data_copy d (d.inodes_arr inode) offset length).length % 4294967296)
          = (d.inodes_arr inode).file_size then
        (0, read_data_copy d (d.inodes_arr inode) offset length)
      else
        (as_int32 ((read_data_copy d (d.inodes_arr inode) offset length).length % 4294967296),
         read_data_copy d (d.inodes_arr inode) offset length) := rfl

/-- The outcome of `read_data` once its four checks have passed. -/
theorem read_data_passed (d : Disk) (inode offset length : Nat)
    (h1 : ¬ d.num_inodes ≤ inode) (h2 : ¬ (d.inodes_arr inode).file_size ≤ offset)
    (h3 : ¬ (d.inodes_arr inode).file_size < add32 offset length)
    (hb : bad_block_idx d (d.inodes_arr inode) = false) :
    (read_data d inode offset length).1
      = (if add32 offset ((read_data_copy d (d.inodes_arr inode) offset length).length % 4294967296)
            = (d.inodes_arr inode).file_size then 0
         else as_int32 ((read_data_copy d (d.inodes_arr inode) offset length).length % 4294967296)) ∧
    (read_data d inode offset length).2 = read_data_copy d (d.inodes_arr inode) offset length := by
  rw [read_data_eq, if_neg h1, if_neg h2, if_neg h3, hb]
  simp only [Bool.false_eq_true, if_false]
  by_cases hc : add32 offset ((read_data_copy d (d.inodes_arr inode) offset length).length % 4294967296)
      = (d.inodes_arr inode).file_size
  · rw [if_pos hc, if_pos hc]
    exact ⟨rfl, rfl⟩
  · rw [if_neg hc, if_neg hc]
    exact ⟨rfl, rfl⟩

theorem read_data_copy_backwards_length (d : Disk) (ino : inode_t) (offset length : Nat)
    (hlt : add32 offset length / DISK_BLOCK_SIZE < offset / DISK_BLOCK_SIZE) :
    (read_data_copy d ino offset length).length
      = DISK_BLOCK_SIZE - offset % DISK_BLOCK_SIZE + add32 offset length % DISK_BLOCK_SIZE := by
  have hne : ¬ offset / DISK_BLOCK_SIZE = add32 offset length / DISK_BLOCK_SIZE := by omega
  have hz : add32 offset length / DISK_BLOCK_SIZE - (offset / DISK_BLOCK_SIZE + 1) = 0 := by omega
  unfold read_data_copy
  rw [if_neg hne, hz]
  simp [copy_bytes]

theorem wrapped_read_copies : (read_data two_file_disk 1 4106 4294963200).2.length = 4096 := by
  rw [(read_data_passed two_file_disk 1 4106 4294963200 (by decide) (by decide)
    (by decide) (by decide)).2, read_data_copy_backwards_length _ _ _ _ (by decide)]
  decide

theorem wrapped_read_returns : (read_data two_file_disk 1 4106 4294963200).1 = 4096 := by
  rw [(read_data_passed two_file_disk 1 4106 4294963200 (by decide) (by decide)
    (by decide) (by decide)).1, read_data_copy_backwards_length _ _ _ _ (by decide)]
  decide

set_option maxRecDepth 100000 in
theorem small_file_reads :
    (read_data two_file_disk 0 0 186).1 = 186 ∧ (read_data two_file_disk 0 0 187).1 = 0 ∧
    read_data two_file_disk 0 0 188 = (-1, []) := by
  decide

/-- C23, evaluated on the failing input.  Inode 1 of the image has 8200 bytes
and valid block indices.  A read of 4294963200 bytes from offset 4106 ends far
beyond the file (the true sum is 4294967306), but the 32-bit sum is 10: the
call is not refused, it copies 4096 bytes and returns 4096.  On the 187-byte
file the calls of the test behave as the claim says: 186 bytes from 0 give
186, 187 bytes give 0, 188 bytes give -1. -/
theorem read_data_sum_wraps :
    (1 : Nat) < two_file_disk.num_inodes ∧
    bad_block_idx two_file_disk (two_file_disk.inodes_arr 1) = false ∧
    (two_file_disk.inodes_arr 1).file_size = 8200 ∧
    4106 + 4294963200 > (two_file_disk.inodes_arr 1).file_size ∧
    add32 4106 4294963200 = 10 ∧
    (read_data two_file_disk 1 4106 4294963200).1 = 4096 ∧
    (read_data two_file_disk 1 4106 4294963200).2.length = 4096 ∧
    (read_data two_file_disk 0 0 186).1 = 186 ∧ (read_data two_file_disk 0 0 187).1 = 0 ∧
    read_data two_file_disk 0 0 188 = (-1, []) :=
  ⟨by decide, by decide, rfl, by decide, by decide, wrapped_read_returns, wrapped_read_copies,
   small_file_reads.1, small_file_reads.2.1, small_file_reads.2.2⟩

/-- C24, as stated, fails: `frame0.txt` has 5 bytes, all in block position 0,
and a read of its 5 bytes from offset 0 delivers them.  With entry 5 of the
inode's block index array changed to a block the image does not have, the same
read returns -1 and delivers nothing: the call reads block indices beyond
those the range covers. -/
theorem stray_index_fails_read :
    (sample_disk.inodes_arr 3).file_size = 5 ∧
    read_data sample_disk 3 0 5 = (0, sample_text) ∧
    (stray_index_disk.inodes_arr 3).file_size = 5 ∧
    (∀ k, k ≠ 5 →
      (stray_index_disk.inodes_arr 3).block_idx_arr k = (sample_disk.inodes_arr 3).block_idx_arr k) ∧
    stray_index_disk.data = sample_disk.data ∧
    (0 + 5 - 1) / 4096 = 0 ∧
    read_data stray_index_disk 3 0 5 = (-1, []) :=
  ⟨rfl, by decide, rfl,
   fun k hk => by
     show (if k = 0 then 2 else if k = 5 then 99 else 0) = (if k = 0 then 2 else 0)
     simp [hk],
   rfl, by decide, by decide⟩

/-- C24, amended to the reads the code accepts.  For an inode in range whose
first 63 block indices are valid (the check `read_data` makes before every
read), `offset` below the file size and `offset + length` at most the file
size, `read_data` does not fail and writes `length` bytes: byte `k` of the
buffer is the file byte at position `offset + k`, that is byte
`(offset + k) mod 4096` of data block `block_idx_arr[(offset + k) div 4096]`,
whether the read starts or ends inside a block, spans several blocks or ends
on a block boundary.  Images that agree on the data region and on the block
indices of the positions read deliver the same bytes. -/
theorem read_data_content (d : Disk) (inode offset length : Nat)
    (h1 : inode < d.num_inodes) (hb : bad_block_idx d (d.inodes_arr inode) = false)
    (ho : offset < (d.inodes_arr inode).file_size)
    (hl : offset + length ≤ (d.inodes_arr inode).file_size)
    (hs : (d.inodes_arr inode).file_size < 4294967296) :
    (read_data d inode offset length).1 ≠ -1 ∧
    (read_data d inode offset length).2 = file_bytes d (d.inodes_arr inode) offset length ∧
    (read_data d inode offset length).2.length = length ∧
    (∀ k, k < length →
      (read_data d inode offset length).2.getD k 0
        = d.data ((d.inodes_arr inode).block_idx_arr ((offset + k) / 4096) * 4096
            + (offset + k) % 4096)) ∧
    (∀ d' : Disk, inode < d'.num_inodes → bad_block_idx d' (d'.inodes_arr inode) = false →
      (d'.inodes_arr inode).file_size = (d.inodes_arr inode).file_size → d'.data = d.data →
      (∀ k, k < length →
        (d'.inodes_arr inode).block_idx_arr ((offset + k) / 4096)
          = (d.inodes_arr inode).block_idx_arr ((offset + k) / 4096)) →
      (read_data d' inode offset length).2 = (read_data d inode offset length).2) := by
  have hrd := read_data_inside d inode offset length h1 hb ho hl hs
  have hget : ∀ (dd : Disk) k, k < length →
      (file_bytes dd (dd.inodes_arr inode) offset length).getD k 0
        = dd.data ((dd.inodes_arr inode).block_idx_arr ((offset + k) / 4096) * 4096
            + (offset + k) % 4096) := by
    intro dd k hk
    unfold file_bytes
    rw [List.getD_eq_getElem _ _ (by simpa using hk)]
    simp [file_byte, DISK_BLOCK_SIZE]
  refine ⟨?_, ?_, ?_, ?_, ?_⟩
  · rw [hrd]
    simp only
    split
    · decide
    · unfold as_int32
      have : length < 4294967295 := by omega
      rw [Nat.mod_eq_of_lt (by omega : length < 4294967296)]
      split <;> omega
  · rw [hrd]
  · rw [hrd]; exact file_bytes_length _ _ _ _
  · intro k hk
    rw [hrd]
    exact hget d k hk
  · intro d' h1' hb' hsz hdata hidx
    rw [hrd, read_data_inside d' inode offset length h1' hb' (by omega) (by omega) (by omega)]
    simp only
    unfold file_bytes
    apply List.map_congr_left
    intro k hk
    have hk' : k < length := List.mem_range.1 hk
    unfold file_byte DISK_BLOCK_SIZE
    rw [hdata, hidx k hk']

/-- The amended claim at work: on the 8200-byte file (blocks 3, 1 and 0) a
read of 4196 bytes from offset 4000 starts inside the first block, covers the
second and ends inside the third; byte 100 of the buffer is file byte 4100,
which is byte 4 of data block 1 and holds 84. -/
theorem read_data_content_witness :
    (1 : Nat) < two_file_disk.num_inodes ∧
    bad_block_idx two_file_disk (two_file_disk.inodes_arr 1) = false ∧
    (read_data two_file_disk 1 4000 4196).2.length = 4196 ∧
    (read_data two_file_disk 1 4000 4196).2.getD 100 0 = two_file_disk.data (1 * 4096 + 4) ∧
    two_file_disk.data (1 * 4096 + 4) = 84 :=
  have h := read_data_content two_file_disk 1 4000 4196 (by decide) (by decide) (by decide)
    (by decide) (by decide)
  ⟨by decide, by decide, h.2.2.1, h.2.2.2.1 100 (by decide), by decide⟩

/-! ## Sequential reads -/

theorem int32_arg_toNat (n : Nat) (h : n < 4294967296) : ((n : Int) % 4294967296).toNat = n := by
  omega

theorem as_int32_small (n : Nat) (h : n < 2147483648) : as_int32 n = (n : Int) := by
  unfold as_int32
  rw [Nat.mod_eq_of_lt (by omega : n < 4294967296), if_pos h]

/-- One call of `file_read` on a descriptor whose inode is in range and has
valid block indices, for a file shorter than `2 ^ 31` bytes and a request
`0 ≤ n < 2 ^ 31`. -/
theorem file_read_step (e : Env) (s : State) (fd n : Nat) (hn : n < 2147483648)
    (hino : ((s.pcbs s.current_PCB).file_desc_arr fd).inode_num < e.disk.num_inodes)
    (hb : bad_block_idx e.disk
      (e.disk.inodes_arr ((s.pcbs s.current_PCB).file_desc_arr fd).inode_num) = false)
    (hS : (e.disk.inodes_arr ((s.pcbs s.current_PCB).file_desc_arr fd).inode_num).file_size
      < 2147483648) :
    (((s.pcbs s.current_PCB).file_desc_arr fd).file_pos
        < (e.disk.inodes_arr ((s.pcbs s.current_PCB).file_desc_arr fd).inode_num).file_size →
      file_read e s fd (n : Nat)
        = (set_slot s fd
            { (s.pcbs s.current_PCB).file_desc_arr fd with
              file_pos := ((s.pcbs s.current_PCB).file_desc_arr fd).file_pos
                + min n ((e.disk.inodes_arr ((s.pcbs s.current_PCB).file_desc_arr fd).inode_num).file_size
                    - ((s.pcbs s.current_PCB).file_desc_arr fd).file_pos) },
           ((min n ((e.disk.inodes_arr ((s.pcbs s.current_PCB).file_desc_arr fd).inode_num).file_size
              - ((s.pcbs s.current_PCB).file_desc_arr fd).file_pos) : Nat) : Int),
           file_bytes e.disk (e.disk.inodes_arr ((s.pcbs s.current_PCB).file_desc_arr fd).inode_num)
             ((s.pcbs s.current_PCB).file_desc_arr fd).file_pos
             (min n ((e.disk.inodes_arr ((s.pcbs s.current_PCB).file_desc_arr fd).inode_num).file_size
               - ((s.pcbs s.current_PCB).file_desc_arr fd).file_pos)))) ∧
    ((e.disk.inodes_arr ((s.pcbs s.current_PCB).file_desc_arr fd).inode_num).file_size
        ≤ ((s.pcbs s.current_PCB).file_desc_arr fd).file_pos →
      file_read e s fd (n : Nat) = (s, 0, [])) := by
  generalize hslot : (s.pcbs s.current_PCB).file_desc_arr fd = slot at *
  generalize hSz : (e.disk.inodes_arr slot.inode_num).file_size = S at *
  refine ⟨?_, ?_⟩
  · intro hp
    have hnn : ((n : Int) % 4294967296).toNat = n := int32_arg_toNat n (by omega)
    have hadd : add32 slot.file_pos n = slot.file_pos + n := by
      unfold add32; exact Nat.mod_eq_of_lt (by omega)
    have hsub : sub32 S slot.file_pos = S - slot.file_pos := by
      unfold sub32; omega
    have hm : (if S ≤ add32 slot.file_pos ((n : Int) % 4294967296).toNat then
          as_int32 (sub32 S slot.file_pos) else (n : Int))
        = ((min n (S - slot.file_pos) : Nat) : Int) := by
      rw [hnn, hadd, hsub]
      by_cases hc : S ≤ slot.file_pos + n
      · rw [if_pos hc, as_int32_small _ (by omega), Nat.min_eq_right (by omega)]
      · rw [if_neg hc, Nat.min_eq_left (by omega)]
    have hmm : (((min n (S - slot.file_pos) : Nat) : Int) % 4294967296).toNat
        = min n (S - slot.file_pos) := int32_arg_toNat _ (by omega)
    have hadd2 : add32 slot.file_pos (min n (S - slot.file_pos))
        = slot.file_pos + min n (S - slot.file_pos) := by
      unfold add32; exact Nat.mod_eq_of_lt (by omega)
    have hrd := read_data_inside e.disk slot.inode_num slot.file_pos (min n (S - slot.file_pos))
      hino hb (by omega) (by omega) (by omega)
    unfold file_read
    simp only [hslot, hSz]
    rw [if_neg (by omega), hm, hmm, hadd2, hrd]
  · intro hp
    unfold file_read
    simp only [hslot, hSz]
    rw [if_pos hp]

/-- Successive reads: the counts returned add up to the bytes left in the file
or to the bytes requested, whichever is smaller, and the bytes delivered are
the file bytes from the starting position on. -/
theorem file_reads_total (e : Env) (fd ino : Nat) (hino : ino < e.disk.num_inodes)
    (hb : bad_block_idx e.disk (e.disk.inodes_arr ino) = false)
    (hS : (e.disk.inodes_arr ino).file_size < 2147483648) :
    ∀ (reqs : List Nat) (s : State) (p : Nat), (∀ n ∈ reqs, n < 2147483648) →
      ((s.pcbs s.current_PCB).file_desc_arr fd).inode_num = ino →
      ((s.pcbs s.current_PCB).file_desc_arr fd).file_pos = p →
      p ≤ (e.disk.inodes_arr ino).file_size →
      ((file_reads e fd s (reqs.map (fun (n : Nat) => (n : Int)))).map (fun r => r.1)).sum
        = ((min reqs.sum ((e.disk.inodes_arr ino).file_size - p) : Nat) : Int) ∧
      ((file_reads e fd s (reqs.map (fun (n : Nat) => (n : Int)))).map (fun r => r.2)).flatten
        = file_bytes e.disk (e.disk.inodes_arr ino) p
            (min reqs.sum ((e.disk.inodes_arr ino).file_size - p)) := by
  intro reqs
  induction reqs with
  | nil =>
    intro s p _ _ _ _
    simp [file_reads, file_bytes]
  | cons n rest ih =>
    intro s p hreq hi hp hle
    have hn : n < 2147483648 := hreq n (List.mem_cons_self _ _)
    have hrest : ∀ m ∈ rest, m < 2147483648 := fun m hm => hreq m (List.mem_cons_of_mem _ hm)
    obtain ⟨hstep1, hstep2⟩ := file_read_step e s fd n hn (by rw [hi]; exact hino)
      (by rw [hi]; exact hb) (by rw [hi]; exact hS)
    rw [hi, hp] at hstep1 hstep2
    simp only [List.map_cons, file_reads, List.sum_cons, List.flatten_cons]
    by_cases hlt : p < (e.disk.inodes_arr ino).file_size
    · rw [hstep1 hlt]
      simp only
      obtain ⟨ih1, ih2⟩ := ih
        (set_slot s fd
          { (s.pcbs s.current_PCB).file_desc_arr fd with
            file_pos := p + min n ((e.disk.inodes_arr ino).file_size - p) })
        (p + min n ((e.disk.inodes_arr ino).file_size - p)) hrest
        (by rw [set_slot_current_PCB, set_slot_slot]; exact hi)
        (by rw [set_slot_current_PCB, set_slot_slot])
        (by omega)
      rw [ih1, ih2, ← file_bytes_append]
      have harith : min n ((e.disk.inodes_arr ino).file_size - p)
          + min rest.sum ((e.disk.inodes_arr ino).file_size
              - (p + min n ((e.disk.inodes_arr ino).file_size - p)))
          = min (n + rest.sum) ((e.disk.inodes_arr ino).file_size - p) := by omega
      rw [← harith]
      exact ⟨by push_cast; rfl, rfl⟩
    · rw [hstep2 (by omega)]
      simp only
      obtain ⟨ih1, ih2⟩ := ih s p hrest hi hp hle
      rw [ih1, ih2]
      have h0 : (e.disk.inodes_arr ino).file_size - p = 0 := by omega
      rw [h0]
      simp [file_bytes]

set_option maxRecDepth 100000 in
/-- The four reads of the file read test on the 187-byte file: requests of
25, 11, 200 and 10 bytes return 25, 11, 151 and 0, and leave the position at
187. -/
theorem frame_reads_counts :
    (file_reads two_file_env 2 reader_state [25, 11, 200, 10]).map (fun r => r.1)
      = [25, 11, 151, 0] ∧
    (file_reads two_file_env 2 reader_state [25, 11, 200, 10]).map (fun r => r.2.length)
      = [25, 11, 151, 0] := by
  decide

/-- C25: sequential file reads.  For a descriptor of the running program whose
inode is in range with valid block indices and whose file has size `S` below
2^31, at position `p`: a read of `n` bytes (`0 ≤ n < 2^31`) with `p < S` returns
`min n (S - p)`, delivers the file bytes `p .. p + min n (S - p) - 1`, advances
the position by exactly that amount and leaves the inode number alone; a read
with `S ≤ p` returns 0, delivers nothing and leaves the state unchanged; and
for successive reads from position 0 the counts add up to `min total S` and the
bytes delivered, concatenated, are the first `min total S` bytes of the file,
so they add up to `S` and give the whole file once `S` bytes were asked for. -/
theorem file_read_sequential (e : Env) (s : State) (fd : Nat)
    (hino : ((s.pcbs s.current_PCB).file_desc_arr fd).inode_num < e.disk.num_inodes)
    (hb : bad_block_idx e.disk
      (e.disk.inodes_arr ((s.pcbs s.current_PCB).file_desc_arr fd).inode_num) = false)
    (hS : (e.disk.inodes_arr ((s.pcbs s.current_PCB).file_desc_arr fd).inode_num).file_size
      < 2147483648) :
    (∀ n : Nat, n < 2147483648 →
      ((s.pcbs s.current_PCB).file_desc_arr fd).file_pos
        < (e.disk.inodes_arr ((s.pcbs s.current_PCB).file_desc_arr fd).inode_num).file_size →
      (file_read e s fd (n : Int)).2.1
        = ((min n ((e.disk.inodes_arr ((s.pcbs s.current_PCB).file_desc_arr fd).inode_num).file_size
            - ((s.pcbs s.current_PCB).file_desc_arr fd).file_pos) : Nat) : Int) ∧
      (file_read e s fd (n : Int)).2.2
        = file_bytes e.disk
            (e.disk.inodes_arr ((s.pcbs s.current_PCB).file_desc_arr fd).inode_num)
            ((s.pcbs s.current_PCB).file_desc_arr fd).file_pos
            (min n ((e.disk.inodes_arr ((s.pcbs s.current_PCB).file_desc_arr fd).inode_num).file_size
              - ((s.pcbs s.current_PCB).file_desc_arr fd).file_pos)) ∧
      (file_read e s fd (n : Int)).1.current_PCB = s.current_PCB ∧
      (((file_read e s fd (n : Int)).1.pcbs s.current_PCB).file_desc_arr fd).file_pos
        = ((s.pcbs s.current_PCB).file_desc_arr fd).file_pos
          + min n ((e.disk.inodes_arr ((s.pcbs s.current_PCB).file_desc_arr fd).inode_num).file_size
              - ((s.pcbs s.current_PCB).file_desc_arr fd).file_pos) ∧
      (((file_read e s fd (n : Int)).1.pcbs s.current_PCB).file_desc_arr fd).inode_num
        = ((s.pcbs s.current_PCB).file_desc_arr fd).inode_num) ∧
    (∀ nbytes : Int,
      (e.disk.inodes_arr ((s.pcbs s.current_PCB).file_desc_arr fd).inode_num).file_size
        ≤ ((s.pcbs s.current_PCB).file_desc_arr fd).file_pos →
      file_read e s fd nbytes = (s, 0, [])) ∧
    (((s.pcbs s.current_PCB).file_desc_arr fd).file_pos = 0 →
      ∀ reqs : List Nat, (∀ n ∈ reqs, n < 2147483648) →
        ((file_reads e fd s (reqs.map (fun (n : Nat) => (n : Int)))).map (fun r => r.1)).sum
          = ((min reqs.sum
              (e.disk.inodes_arr ((s.pcbs s.current_PCB).file_desc_arr fd).inode_num).file_size
              : Nat) : Int) ∧
        ((file_reads e fd s (reqs.map (fun (n : Nat) => (n : Int)))).map (fun r => r.2)).flatten
          = file_bytes e.disk
              (e.disk.inodes_arr ((s.pcbs s.current_PCB).file_desc_arr fd).inode_num) 0
              (min reqs.sum
                (e.disk.inodes_arr ((s.pcbs s.current_PCB).file_desc_arr fd).inode_num).file_size) ∧
        ((e.disk.inodes_arr ((s.pcbs s.current_PCB).file_desc_arr fd).inode_num).file_size
            ≤ reqs.sum →
          ((file_reads e fd s (reqs.map (fun (n : Nat) => (n : Int)))).map (fun r => r.1)).sum
            = ((e.disk.inodes_arr ((s.pcbs s.current_PCB).file_desc_arr fd).inode_num).file_size
                : Int) ∧
          ((file_reads e fd s (reqs.map (fun (n : Nat) => (n : Int)))).map (fun r => r.2)).flatten
            = file_bytes e.disk
                (e.disk.inodes_arr ((s.pcbs s.current_PCB).file_desc_arr fd).inode_num) 0
                (e.disk.inodes_arr ((s.pcbs s.current_PCB).file_desc_arr fd).inode_num).file_size)) := by
  refine ⟨?_, ?_, ?_⟩
  · intro n hn hlt
    rw [(file_read_step e s fd n hn hino hb hS).1 hlt]
    refine ⟨rfl, rfl, rfl, ?_, ?_⟩
    · simp only [set_slot_slot]
    · simp only [set_slot_slot]
  · intro nbytes hle
    unfold file_read
    simp only
    rw [if_pos hle]
  · intro hp reqs hreqs
    obtain ⟨h1, h2⟩ := file_reads_total e fd _ hino hb hS reqs s 0 hreqs rfl hp (Nat.zero_le _)
    rw [Nat.sub_zero] at h1 h2
    refine ⟨h1, h2, ?_⟩
    intro hle
    rw [h1, h2, Nat.min_eq_right hle]
    exact ⟨rfl, rfl⟩

/-- C25 at the 187-byte file of `two_file_disk`, open on descriptor 2 at
position 0: a first read of 25 bytes returns 25 and moves the position to 25,
and the requests 25, 11, 200, 10 of the file read test return 187 bytes in
all. -/
theorem file_read_sequential_witness :
    ((reader_state.pcbs reader_state.current_PCB).file_desc_arr 2).inode_num
      < two_file_env.disk.num_inodes ∧
    bad_block_idx two_file_env.disk
      (two_file_env.disk.inodes_arr
        ((reader_state.pcbs reader_state.current_PCB).file_desc_arr 2).inode_num) = false ∧
    (two_file_env.disk.inodes_arr
      ((reader_state.pcbs reader_state.current_PCB).file_desc_arr 2).inode_num).file_size = 187 ∧
    ((reader_state.pcbs reader_state.current_PCB).file_desc_arr 2).file_pos = 0 ∧
    (file_read two_file_env reader_state 2 25).2.1 = 25 ∧
    (((file_read two_file_env reader_state 2 25).1.pcbs reader_state.current_PCB).file_desc_arr
      2).file_pos = 25 ∧
    ((file_reads two_file_env 2 reader_state [25, 11, 200, 10]).map (fun r => r.1)).sum = 187 := by
  have h := file_read_sequential two_file_env reader_state 2 (by decide) (by decide) (by decide)
  obtain ⟨h1, -, h3⟩ := h
  obtain ⟨a1, -, -, a4, -⟩ := h1 25 (by decide) (by decide)
  obtain ⟨b1, -, -⟩ := h3 rfl [25, 11, 200, 10] (by decide)
  exact ⟨by decide, by decide, by decide, rfl, a1.trans (by decide), a4.trans (by decide),
    b1.trans (by decide)⟩

/-! ## Calls through the jump tables -/

theorem dispatch_through_table (s : State) (fd : Nat) (member : fops_jumptable_t → Option fop_t)
    (t : fops_jumptable_t) (f : fop_t)
    (ht : ((s.pcbs s.current_PCB).file_desc_arr fd).fops_table_ptr = some t)
    (hm : member t = some f) :
    dispatch_through s fd member = .call fd f := by
  unfold dispatch_through
  rw [ht]
  simp only [Option.some_bind, hm]

/-- The three tables of the real-time clock, of files and of the directory
have all their members. -/
theorem file_tables_members (t : fops_jumptable_t)
    (h : t = .rtc_jmptable ∨ t = .file_jmptable ∨ t = .directory_jmptable) :
    (∃ f, t.read_member = some f) ∧ (∃ f, t.write_member = some f) ∧
    (∃ f, t.close_member = some f) ∧ t.close = some 0 := by
  rcases h with h | h | h <;> subst h <;> exact ⟨⟨_, rfl⟩, ⟨_, rfl⟩, ⟨_, rfl⟩, rfl⟩

/-- A descriptor value that passes the range check of a system call is a
slot number below 8. -/
theorem fd_in_range (fd : Int) (h0 : 0 ≤ fd) (h8 : fd < (MAX_FDS : Int)) :
    fd.toNat < MAX_FDS ∧ ((fd.toNat : Nat) : Int) = fd := by
  unfold MAX_FDS at *
  omega

/-- The calls of the loop of `restore_parent` go through open slots in the
range the loop runs over, and none of them goes through `NULL`, when every open
slot of the range holds one of the three file tables. -/
theorem close_open_files_calls_ok (s : State) : ∀ (n i : Nat),
    (∀ j, i ≤ j → j < i + n → (s.pcbs s.current_PCB).open_files &&& shl32 1 j ≠ 0 →
      ∃ t, ((s.pcbs s.current_PCB).file_desc_arr j).fops_table_ptr = some t ∧
        (t = .rtc_jmptable ∨ t = .file_jmptable ∨ t = .directory_jmptable)) →
    ∀ d ∈ close_open_files_calls s n i,
      ∃ j f, d = .call j f ∧ i ≤ j ∧ j < i + n ∧
        (s.pcbs s.current_PCB).open_files &&& shl32 1 j ≠ 0 ∧
        ((s.pcbs s.current_PCB).file_desc_arr j).fops_table_ptr.bind
          fops_jumptable_t.close_member = some f := by
  intro n
  induction n with
  | zero =>
    intro i _ d hd
    simp [close_open_files_calls] at hd
  | succ n ih =>
    intro i h d hd
    have hrest : ∀ d ∈ close_open_files_calls s n (i + 1),
        ∃ j f, d = .call j f ∧ i ≤ j ∧ j < i + (n + 1) ∧
          (s.pcbs s.current_PCB).open_files &&& shl32 1 j ≠ 0 ∧
          ((s.pcbs s.current_PCB).file_desc_arr j).fops_table_ptr.bind
            fops_jumptable_t.close_member = some f := by
      intro d hd
      obtain ⟨j, f, h1, h2, h3, h4, h5⟩ :=
        ih (i + 1) (fun j hj1 hj2 => h j (by omega) (by omega)) d hd
      exact ⟨j, f, h1, by omega, by omega, h4, h5⟩
    unfold close_open_files_calls at hd
    by_cases hbit : (s.pcbs s.current_PCB).open_files &&& shl32 1 i ≠ 0
    · rw [if_pos hbit] at hd
      obtain ⟨t, ht, hkind⟩ := h i (Nat.le_refl _) (by omega) hbit
      obtain ⟨-, -, ⟨f, hf⟩, -⟩ := file_tables_members t hkind
      rw [dispatch_through_table s i _ t f ht hf] at hd
      simp only [List.mem_cons] at hd
      rcases hd with hd | hd
      · exact ⟨i, f, hd, Nat.le_refl _, by omega, hbit, by rw [ht]; exact hf⟩
      · exact hrest d hd
    · rw [if_neg hbit] at hd
      exact hrest d hd

/-- C28: no call through a `NULL` jump-table entry.  In every state whose
running program holds the console-in table in slot 0, the console-out table in
slot 1 and the RTC, file or directory table in every slot of 2..7 whose bit is
set in `open_files`, and for every descriptor value: `read`, `write` and
`close` either return -1 without a call or call a function that is a member of
the table of slot `fd`, where `fd` is in range, is not 1 for `read`, not 0 for
`write`, neither for `close`, and has its bit set; `read` rejects descriptor 1
and `write` rejects descriptor 0; and every call of `restore_parent` is a
`close` member of the table of a slot in 2..7 whose bit is set.  In the
state-passing models, `close` and `restore_parent` are defined. -/
theorem no_null_dispatch (e : Env) (s : State)
    (h0 : ((s.pcbs s.current_PCB).file_desc_arr 0).fops_table_ptr = some .stdin_jmptable)
    (h1 : ((s.pcbs s.current_PCB).file_desc_arr 1).fops_table_ptr = some .stdout_jmptable)
    (hopen : ∀ i, i < MAX_FDS → 2 ≤ i → CHECK_FLAG (s.pcbs s.current_PCB).open_files i ≠ 0 →
      ((s.pcbs s.current_PCB).file_desc_arr i).fops_table_ptr = some .rtc_jmptable ∨
      ((s.pcbs s.current_PCB).file_desc_arr i).fops_table_ptr = some .file_jmptable ∨
      ((s.pcbs s.current_PCB).file_desc_arr i).fops_table_ptr = some .directory_jmptable) :
    (∀ fd : Int, read s fd = .rejected ∨
      ∃ f, read s fd = .call fd.toNat f ∧ 0 ≤ fd ∧ fd < 8 ∧ fd ≠ 1 ∧
        CHECK_FLAG (s.pcbs s.current_PCB).open_files fd.toNat ≠ 0 ∧
        ((s.pcbs s.current_PCB).file_desc_arr fd.toNat).fops_table_ptr.bind
          fops_jumptable_t.read_member = some f) ∧
    read s 1 = .rejected ∧
    (∀ fd : Int, write s fd = .rejected ∨
      ∃ f, write s fd = .call fd.toNat f ∧ 1 ≤ fd ∧ fd < 8 ∧
        CHECK_FLAG (s.pcbs s.current_PCB).open_files fd.toNat ≠ 0 ∧
        ((s.pcbs s.current_PCB).file_desc_arr fd.toNat).fops_table_ptr.bind
          fops_jumptable_t.write_member = some f) ∧
    write s 0 = .rejected ∧
    (∀ fd : Int, close_call s fd = .rejected ∨
      ∃ f, close_call s fd = .call fd.toNat f ∧ 2 ≤ fd ∧ fd < 8 ∧
        CHECK_FLAG (s.pcbs s.current_PCB).open_files fd.toNat ≠ 0 ∧
        ((s.pcbs s.current_PCB).file_desc_arr fd.toNat).fops_table_ptr.bind
          fops_jumptable_t.close_member = some f) ∧
    (∀ fd : Int, close s fd ≠ .undefined) ∧
    (∀ d ∈ restore_parent_calls s,
      ∃ i f, d = .call i f ∧ 2 ≤ i ∧ i < 8 ∧
        CHECK_FLAG (s.pcbs s.current_PCB).open_files i ≠ 0 ∧
        ((s.pcbs s.current_PCB).file_desc_arr i).fops_table_ptr.bind
          fops_jumptable_t.close_member = some f) ∧
    restore_parent e s ≠ none := by
  have hkind : ∀ i, i < MAX_FDS → 2 ≤ i →
      CHECK_FLAG (s.pcbs s.current_PCB).open_files i ≠ 0 →
      ∃ t, ((s.pcbs s.current_PCB).file_desc_arr i).fops_table_ptr = some t ∧
        (t = .rtc_jmptable ∨ t = .file_jmptable ∨ t = .directory_jmptable) := by
    intro i hi h2 hbit
    rcases hopen i hi h2 hbit with h | h | h
    · exact ⟨_, h, Or.inl rfl⟩
    · exact ⟨_, h, Or.inr (Or.inl rfl)⟩
    · exact ⟨_, h, Or.inr (Or.inr rfl)⟩
  refine ⟨?_, ?_, ?_, ?_, ?_, ?_, ?_, ?_⟩
  · intro fd
    unfold read
    by_cases hr : fd < 0 ∨ fd = 1 ∨ (MAX_FDS : Int) ≤ fd
    · rw [if_pos hr]; exact Or.inl rfl
    · rw [if_neg hr]
      by_cases hbit : CHECK_FLAG (s.pcbs s.current_PCB).open_files fd.toNat = 0
      · rw [if_pos hbit]; exact Or.inl rfl
      · rw [if_neg hbit]
        right
        have hfd := fd_in_range fd (by omega) (by omega)
        have h8 : fd < 8 := by have := hfd.1; unfold MAX_FDS at this; omega
        by_cases hz : fd = 0
        · subst hz
          exact ⟨.terminal_read, dispatch_through_table s _ _ _ _ h0 rfl, by omega, h8, by omega,
            hbit, by rw [Int.toNat_zero, h0]; rfl⟩
        · obtain ⟨t, ht, hk⟩ := hkind fd.toNat hfd.1 (by omega) hbit
          obtain ⟨⟨f, hf⟩, -, -, -⟩ := file_tables_members t hk
          exact ⟨f, dispatch_through_table s _ _ t f ht hf, by omega, h8, by omega, hbit,
            by rw [ht]; exact hf⟩
  · rfl
  · intro fd
    unfold write
    by_cases hr : fd < 1 ∨ (MAX_FDS : Int) ≤ fd
    · rw [if_pos hr]; exact Or.inl rfl
    · rw [if_neg hr]
      by_cases hbit : CHECK_FLAG (s.pcbs s.current_PCB).open_files fd.toNat = 0
      · rw [if_pos hbit]; exact Or.inl rfl
      · rw [if_neg hbit]
        right
        have hfd := fd_in_range fd (by omega) (by omega)
        have h8 : fd < 8 := by have := hfd.1; unfold MAX_FDS at this; omega
        by_cases hz : fd = 1
        · subst hz
          exact ⟨.terminal_write, dispatch_through_table s _ _ _ _ h1 rfl, by omega, h8,
            hbit, by rw [Int.toNat_one, h1]; rfl⟩
        · obtain ⟨t, ht, hk⟩ := hkind fd.toNat hfd.1 (by omega) hbit
          obtain ⟨-, ⟨f, hf⟩, -, -⟩ := file_tables_members t hk
          exact ⟨f, dispatch_through_table s _ _ t f ht hf, by omega, h8, hbit,
            by rw [ht]; exact hf⟩
  · rfl
  · intro fd
    unfold close_call
    by_cases hr : fd < 2 ∨ (MAX_FDS : Int) ≤ fd
    · rw [if_pos hr]; exact Or.inl rfl
    · rw [if_neg hr]
      by_cases hbit : CHECK_FLAG (s.pcbs s.current_PCB).open_files fd.toNat = 0
      · rw [if_pos hbit]; exact Or.inl rfl
      · rw [if_neg hbit]
        right
        have hfd := fd_in_range fd (by omega) (by omega)
        have h8 : fd < 8 := by have := hfd.1; unfold MAX_FDS at this; omega
        obtain ⟨t, ht, hk⟩ := hkind fd.toNat hfd.1 (by omega) hbit
        obtain ⟨-, -, ⟨f, hf⟩, -⟩ := file_tables_members t hk
        exact ⟨f, dispatch_through_table s _ _ t f ht hf, by omega, h8, hbit,
          by rw [ht]; exact hf⟩
  · intro fd
    unfold close
    by_cases hr : fd < 2 ∨ (MAX_FDS : Int) ≤ fd
    · rw [if_pos hr]; exact fun h => Outcome.noConfusion h
    · rw [if_neg hr]
      by_cases hbit : CHECK_FLAG (s.pcbs s.current_PCB).open_files fd.toNat = 0
      · rw [if_pos hbit]; exact fun h => Outcome.noConfusion h
      · rw [if_neg hbit]
        have hfd := fd_in_range fd (by omega) (by omega)
        obtain ⟨t, ht, hk⟩ := hkind fd.toNat hfd.1 (by omega) hbit
        obtain ⟨-, -, -, hc⟩ := file_tables_members t hk
        rw [ht]
        simp only [hc]
        rw [if_neg (by decide)]
        exact fun h => Outcome.noConfusion h
  · intro d hd
    obtain ⟨j, f, hj1, hj2, hj3, hj4, hj5⟩ :=
      close_open_files_calls_ok s (MAX_FDS - 2) 2
        (fun j hj1 hj2 hbit => hkind j (by unfold MAX_FDS at *; omega) hj1 hbit) d hd
    exact ⟨j, f, hj1, hj2, by unfold MAX_FDS at hj3; omega, hj4, hj5⟩
  · have hcl : open_slots_closable (s.pcbs s.current_PCB) := by
      intro i hi h2 hbit
      obtain ⟨t, ht, hk⟩ := hkind i hi h2 hbit
      obtain ⟨-, -, -, hc⟩ := file_tables_members t hk
      unfold slot_closable
      rw [ht]
      simp only [Option.some_bind, hc, Option.isSome_some]
    unfold restore_parent
    rw [close_open_files_of_closable _ hcl]
    exact fun h => Option.noConfusion h

/-- C28 at `three_files_state`, whose program holds the console tables in
slots 0 and 1, a file on descriptor 2, the real-time clock on descriptor 3 and
the directory on descriptor 5: reading descriptor 3 calls `rtc_read`, writing
descriptor 1 calls `terminal_write`, closing descriptor 5 calls
`directory_close`, and `restore_parent` closes descriptors 2, 3 and 5. -/
theorem no_null_dispatch_witness :
    ((three_files_state.pcbs three_files_state.current_PCB).file_desc_arr 0).fops_table_ptr
      = some .stdin_jmptable ∧
    ((three_files_state.pcbs three_files_state.current_PCB).file_desc_arr 1).fops_table_ptr
      = some .stdout_jmptable ∧
    (three_files_state.pcbs three_files_state.current_PCB).open_files = 47 ∧
    read three_files_state 3 = .call 3 .rtc_read ∧
    write three_files_state 1 = .call 1 .terminal_write ∧
    close_call three_files_state 5 = .call 5 .directory_close ∧
    restore_parent_calls three_files_state
      = [.call 2 .file_close, .call 3 .rtc_close, .call 5 .directory_close] ∧
    (∀ fd : Int, close three_files_state fd ≠ .undefined) ∧
    restore_parent two_file_env three_files_state ≠ none := by
  have h := no_null_dispatch two_file_env three_files_state (by decide) (by decide) (by decide)
  exact ⟨by decide, by decide, by decide, by decide, by decide, by decide, by decide,
    h.2.2.2.2.2.1, h.2.2.2.2.2.2.2⟩

/-! ## Keyboard handler bounds -/

theorem keyboard_idx_update (arr : Nat → terminal_t) (j : Nat) (t : terminal_t)
    (ht : j < MAX_TERMINALS → t.keyboard_idx ≤ 127)
    (h : ∀ i, i < MAX_TERMINALS → (arr i).keyboard_idx ≤ 127) :
    ∀ i, i < MAX_TERMINALS → (Function.update arr j t i).keyboard_idx ≤ 127 := by
  intro i hi
  by_cases hij : i = j
  · subst hij
    rw [Function.update_same]
    exact ht hi
  · rw [Function.update_noteq hij]
    exact h i hi

/-- Both tables have 62 entries, so that an index is inside a table exactly
when it is below 62. -/
theorem code_tables_entry (scancode : Nat) :
    (scancode < 62 → (∃ ns, codeASCIINS[scancode]? = some ns) ∧
      ∃ ys, codeASCIIYS[scancode]? = some ys) ∧
    (62 ≤ scancode → codeASCIINS[scancode]? = none ∧ codeASCIIYS[scancode]? = none) := by
  have h1 : codeASCIINS.length = 62 := rfl
  have h2 : codeASCIIYS.length = 62 := rfl
  constructor
  · intro h
    exact ⟨⟨_, List.getElem?_eq_getElem (by omega)⟩, ⟨_, List.getElem?_eq_getElem (by omega)⟩⟩
  · intro h
    exact ⟨List.getElem?_eq_none (by omega), List.getElem?_eq_none (by omega)⟩

/-- With an index of at most 127, `backspace` stays inside the buffer and
leaves an index of at most 127. -/
theorem backspace_defined (e : Env) (c : Console) (buf : List Nat) (bufIdx : Nat)
    (h : bufIdx ≤ 127) :
    ∃ c1 buf1 bufIdx1, backspace e c buf bufIdx = some (c1, buf1, bufIdx1) ∧ bufIdx1 ≤ 127 := by
  unfold backspace
  by_cases h0 : bufIdx = 0
  · subst h0
    simp only [ne_eq, not_true_eq_false, if_false]
    split
    · exact ⟨_, _, _, rfl, by omega⟩
    · exact ⟨_, _, _, rfl, by omega⟩
  · have hs : sub32 bufIdx 1 = bufIdx - 1 := by unfold sub32; omega
    have hr : keyboard_buffer_read buf (bufIdx - 1) = some (buf.getD (bufIdx - 1) 0) := by
      unfold keyboard_buffer_read
      rw [if_pos (by omega)]
    have hw : keyboard_buffer_write buf ((bufIdx - 1) % 128) 0
        = some (buf.set ((bufIdx - 1) % 128) 0) := by
      unfold keyboard_buffer_write
      rw [if_pos (by omega)]
    simp only [ne_eq, h0, not_false_eq_true, if_true, hs, hr, hw]
    split
    · exact ⟨_, _, _, rfl, by omega⟩
    · exact ⟨_, _, _, rfl, by omega⟩

/-- The typable branch is entered with a scancode below 62 only, and then
both table reads are inside the tables. -/
theorem typable_keycode_defined (clear : Console → Console) (s : State) (k : Keyboard)
    (scancode : Nat) (hsc : scancode < 62)
    (hidx : ∀ i, i < MAX_TERMINALS → (s.terminal_arr i).keyboard_idx ≤ 127) :
    ∃ s1 k1, typable_keycode clear s k scancode = some (s1, k1) ∧
      (∀ i, i < MAX_TERMINALS → (s1.terminal_arr i).keyboard_idx ≤ 127) ∧
      s1.terminal_shown = s.terminal_shown := by
  obtain ⟨⟨ns, hns⟩, ⟨ys, hys⟩⟩ := (code_tables_entry scancode).1 hsc
  unfold typable_keycode
  simp only [hns, hys]
  split_ifs
  · exact ⟨_, _, rfl, keyboard_idx_update _ _ _ (fun _ => Nat.zero_le _) hidx, rfl⟩
  · exact ⟨_, _, rfl, hidx, rfl⟩
  · exact ⟨_, _, rfl, hidx, rfl⟩
  · exact ⟨_, _, rfl, hidx, rfl⟩
  · exact ⟨_, _, rfl, hidx, rfl⟩

/-- With the index of the shown terminal at most 127, the keycode is stored
inside the buffer and the index stays at most 127. -/
theorem use_keycode_defined (e : Env) (s : State) (keycode : Nat)
    (hidx : ∀ i, i < MAX_TERMINALS → (s.terminal_arr i).keyboard_idx ≤ 127)
    (hshown : s.terminal_shown < MAX_TERMINALS) :
    ∃ s1, use_keycode e s keycode = some s1 ∧
      (∀ i, i < MAX_TERMINALS → (s1.terminal_arr i).keyboard_idx ≤ 127) ∧
      s1.terminal_shown = s.terminal_shown ∧ s1.terminal_active = s.terminal_active := by
  have hs := hidx _ hshown
  unfold use_keycode
  by_cases hk : keycode = 0
  · simp only [hk, ne_eq, not_true_eq_false, if_false]
    exact ⟨_, rfl, hidx, rfl, rfl⟩
  · simp only [ne_eq, hk, not_false_eq_true, if_true]
    by_cases h127 : (s.terminal_arr s.terminal_shown).keyboard_idx = 127
    · rw [if_pos h127]
      by_cases hn : keycode = 10 ∨ ¬ (s.terminal_arr s.terminal_shown).terminal_newline = 0
      · rw [if_pos hn]
        have hw : keyboard_buffer_write (s.terminal_arr s.terminal_shown).keyboard_buffer 127 10
            = some ((s.terminal_arr s.terminal_shown).keyboard_buffer.set 127 10) := rfl
        simp only [hw]
        exact ⟨_, rfl, keyboard_idx_update _ _ _ (fun _ => hs) hidx, rfl, rfl⟩
      · rw [if_neg hn]
        exact ⟨_, rfl, hidx, rfl, rfl⟩
    · rw [if_neg h127]
      have hw : keyboard_buffer_write (s.terminal_arr s.terminal_shown).keyboard_buffer
          (s.terminal_arr s.terminal_shown).keyboard_idx keycode
          = some ((s.terminal_arr s.terminal_shown).keyboard_buffer.set
              (s.terminal_arr s.terminal_shown).keyboard_idx keycode) := by
        unfold keyboard_buffer_write
        rw [if_pos (by omega)]
      simp only [hw]
      refine ⟨_, rfl, keyboard_idx_update _ _ _ (fun _ => ?_) hidx, rfl, rfl⟩
      show add32 (s.terminal_arr s.terminal_shown).keyboard_idx 1 ≤ 127
      unfold add32
      omega

/-- The scancode chain stays inside the tables and the buffer, and keeps every
index at most 127. -/
theorem scancode_chain_defined (e : Env) (clear : Console → Console) (mem : Nat → Nat)
    (s : State) (k : Keyboard) (scancode : Nat)
    (hidx : ∀ i, i < MAX_TERMINALS → (s.terminal_arr i).keyboard_idx ≤ 127)
    (hshown : s.terminal_shown < MAX_TERMINALS) :
    ∃ s1 k1, scancode_chain e clear mem s k scancode = some (s1, k1) ∧
      (∀ i, i < MAX_TERMINALS → (s1.terminal_arr i).keyboard_idx ≤ 127) ∧
      s1.terminal_shown < MAX_TERMINALS := by
  unfold scancode_chain
  by_cases h1 : scancode = 0x3A
  · rw [if_pos h1]; exact ⟨_, _, rfl, hidx, hshown⟩
  rw [if_neg h1]
  by_cases h2 : scancode = 0x36 ∨ scancode = 0x2A
  · rw [if_pos h2]; exact ⟨_, _, rfl, hidx, hshown⟩
  rw [if_neg h2]
  by_cases h3 : scancode = 0xB6 ∨ scancode = 0xAA
  · rw [if_pos h3]; exact ⟨_, _, rfl, hidx, hshown⟩
  rw [if_neg h3]
  by_cases h4 : scancode = 0x1D
  · rw [if_pos h4]; exact ⟨_, _, rfl, hidx, hshown⟩
  rw [if_neg h4]
  by_cases h5 : scancode = 0x9D
  · rw [if_pos h5]; exact ⟨_, _, rfl, hidx, hshown⟩
  rw [if_neg h5]
  by_cases h6 : scancode = 0x0E
  · rw [if_pos h6]
    obtain ⟨c1, buf1, idx1, hb, hle⟩ := backspace_defined e s.console
      (s.terminal_arr s.terminal_shown).keyboard_buffer
      (s.terminal_arr s.terminal_shown).keyboard_idx (hidx _ hshown)
    simp only [hb]
    exact ⟨_, _, rfl, keyboard_idx_update _ _ _ (fun _ => hle) hidx, hshown⟩
  rw [if_neg h6]
  by_cases h7 : scancode = 0x38
  · rw [if_pos h7]; exact ⟨_, _, rfl, hidx, hshown⟩
  rw [if_neg h7]
  by_cases h8 : scancode = 0xB8
  · rw [if_pos h8]; exact ⟨_, _, rfl, hidx, hshown⟩
  rw [if_neg h8]
  by_cases h9 : 0x3B + MAX_TERMINALS ≤ scancode
  · rw [if_pos h9]; exact ⟨_, _, rfl, hidx, hshown⟩
  rw [if_neg h9]
  by_cases h10 : 0 < k.shiftcaps &&& 0x08
  · rw [if_pos h10]
    by_cases h11 : 0x3B ≤ scancode ∧ scancode < 0x3B + MAX_TERMINALS
    · rw [if_pos h11]
      refine ⟨_, _, rfl, ?_, ?_⟩
      · exact keyboard_idx_update _ _ _ (fun _ => hidx _ hshown) hidx
      · show scancode - 0x3B < MAX_TERMINALS
        unfold MAX_TERMINALS at *
        omega
    · rw [if_neg h11]; exact ⟨_, _, rfl, hidx, hshown⟩
  rw [if_neg h10]
  obtain ⟨s1, k1, h, hi, hsh⟩ := typable_keycode_defined clear s k scancode
    (by unfold MAX_TERMINALS at h9; omega) hidx
  exact ⟨s1, k1, h, hi, by rw [hsh]; exact hshown⟩

/-- The handler on the full line of `full_line_state`: the letter `a`
(scancode 0x1E) is dropped, the index stays 127 and byte 127 stays 0; Enter
(scancode 0x1C) puts the newline into byte 127 and raises the newline flag;
backspace (scancode 0x0E) takes the index to 126. -/
theorem full_line_keys :
    (Keyboard_Handler sample_env id sample_mem full_line_state ⟨0, 0⟩ 0x1E).map
        (fun r => ((r.1.terminal_arr 0).keyboard_idx,
          (r.1.terminal_arr 0).keyboard_buffer.getD 127 0, r.2.keycode))
      = some (127, 0, 0x61) ∧
    (Keyboard_Handler sample_env id sample_mem full_line_state ⟨0, 0⟩ 0x1C).map
        (fun r => ((r.1.terminal_arr 0).keyboard_idx,
          (r.1.terminal_arr 0).keyboard_buffer.getD 127 0, (r.1.terminal_arr 0).terminal_newline))
      = some (127, 10, 1) ∧
    (Keyboard_Handler sample_env id sample_mem full_line_state ⟨0, 0⟩ 0x0E).map
        (fun r => ((r.1.terminal_arr 0).keyboard_idx,
          (r.1.terminal_arr 0).keyboard_buffer.getD 126 7))
      = some (126, 0) := by
  refine ⟨?_, ?_, ?_⟩ <;> rfl

/-- C30: keyboard handler bounds.  Both scancode tables have 62 entries, a
table read at an index of 62 or more and a buffer access at an index of 128 or
more are undefined in the model, and for every environment, every scancode and
every value of the keyboard variables (modifier flags and last keycode), in a
state where `terminal_shown` points into the terminal array and every
terminal has `keyboard_idx ≤ 127`, `Keyboard_Handler` (with `backspace`) is
defined, that is, it reads the tables only below index 62 and accesses the line
buffers only below index 128, and afterwards `terminal_shown` still points into
the array and every terminal has `keyboard_idx ≤ 127`. -/
theorem Keyboard_Handler_bounds (e : Env) (clear : Console → Console) (mem : Nat → Nat)
    (s : State) (k : Keyboard) (scancode : Nat)
    (hidx : ∀ i, i < MAX_TERMINALS → (s.terminal_arr i).keyboard_idx ≤ 127)
    (hshown : s.terminal_shown < MAX_TERMINALS) :
    codeASCIINS.length = 62 ∧ codeASCIIYS.length = 62 ∧
    (62 ≤ scancode → typable_keycode clear s k scancode = none) ∧
    (∀ buf i v, 128 ≤ i →
      keyboard_buffer_read buf i = none ∧ keyboard_buffer_write buf i v = none) ∧
    ∃ s1 k1, Keyboard_Handler e clear mem s k scancode = some (s1, k1) ∧
      (∀ i, i < MAX_TERMINALS → (s1.terminal_arr i).keyboard_idx ≤ 127) ∧
      s1.terminal_shown < MAX_TERMINALS := by
  refine ⟨rfl, rfl, ?_, ?_, ?_⟩
  · intro h
    unfold typable_keycode
    rw [((code_tables_entry scancode).2 h).1]
  · intro buf i v h
    unfold keyboard_buffer_read keyboard_buffer_write
    rw [if_neg (by omega), if_neg (by omega)]
    exact ⟨rfl, rfl⟩
  · unfold Keyboard_Handler
    obtain ⟨s1, k1, h1, hi1, hs1⟩ := scancode_chain_defined e clear mem
      { s with
        terminal_arr := Function.update s.terminal_arr s.terminal_active
          { s.terminal_arr s.terminal_active with
            cursor_x := s.console.screen_x
            cursor_y := s.console.screen_y }
        console :=
          { s.console with
            video_mem := VMEM_BASE_ADDR
            screen_x := (Function.update s.terminal_arr s.terminal_active
              { s.terminal_arr s.terminal_active with
                cursor_x := s.console.screen_x
                cursor_y := s.console.screen_y } s.terminal_shown).cursor_x
            screen_y := (Function.update s.terminal_arr s.terminal_active
              { s.terminal_arr s.terminal_active with
                cursor_x := s.console.screen_x
                cursor_y := s.console.screen_y } s.terminal_shown).cursor_y } }
      k scancode
      (keyboard_idx_update _ _ _ (fun ha => hidx _ ha) hidx) hshown
    simp only [h1]
    obtain ⟨s2, h2, hi2, hs2, -⟩ := use_keycode_defined e s1 k1.keycode hi1 hs1
    simp only [h2]
    exact ⟨_, _, rfl, keyboard_idx_update _ _ _ (fun ha => hi2 _ ha) hi2, by rw [hs2]; exact hs1⟩

/-- C30 at `full_line_state`, where terminal 0 is shown with its index at
127, for the letter `a` (scancode 0x1E) with no modifier held: the handler is
defined and leaves every index at most 127. -/
theorem Keyboard_Handler_bounds_witness :
    (∀ i, i < MAX_TERMINALS → (full_line_state.terminal_arr i).keyboard_idx ≤ 127) ∧
    full_line_state.terminal_shown < MAX_TERMINALS ∧
    (full_line_state.terminal_arr full_line_state.terminal_shown).keyboard_idx = 127 ∧
    ∃ s1 k1, Keyboard_Handler sample_env id sample_mem full_line_state ⟨0, 0⟩ 0x1E = some (s1, k1) ∧
      (∀ i, i < MAX_TERMINALS → (s1.terminal_arr i).keyboard_idx ≤ 127) ∧
      s1.terminal_shown < MAX_TERMINALS :=
  ⟨by decide, by decide, by decide,
    (Keyboard_Handler_bounds sample_env id sample_mem full_line_state ⟨0, 0⟩ 0x1E
      (by decide) (by decide)).2.2.2.2⟩

/-! ## A system call between the first timer ticks -/

/-- C8, evaluated on the failing run.  From the boot state (`init_terminals`
done, `pit_counter = 0`, `activeProcesses = 0`, shell image loadable) the first
timer tick starts the shell of terminal 0 with id 0.  Before the second tick
that shell calls `execute`, and the lowest-free search gives the new program
id 1.  The second tick makes terminal 1 active and launches its shell, which
receives id 2, not 1: `currentPID = 2`, the terminal's record names 2, the
shell's parent is recorded as 1, and bits 0..2 of `activeProcesses` are set.
The third tick makes terminal 2 active and launches its shell with id 3, with
bits 0..3 set. -/
theorem bootstrap_shell_ids_shift :
    boot_state = boot_from zero_state ∧
    boot_state.pit_counter = 0 ∧ boot_state.activeProcesses = 0 ∧
    PIT_Handler sample_env boot_state 0x7FDF00 0x7FDE00
      = .user_mode tick0_state (VIRTUAL_USER_BASE_ADDR + _4MB) 0x080482E8 ∧
    tick0_state.TA_idx = 0 ∧ tick0_state.currentPID = 0 ∧ tick0_state.activeProcesses = 1 ∧
    execute sample_env tick0_state shell_command 0x7FFE00
      = .user_mode early_child_state (VIRTUAL_USER_BASE_ADDR + _4MB) 0x080482E8 ∧
    early_child_state.TA_idx = 0 ∧ early_child_state.currentPID = 1 ∧
    early_child_state.activeProcesses = 3 ∧ early_child_state.pit_counter = 1 ∧
    PIT_Handler sample_env early_child_state 0x7FDF00 0x7FDE00
      = .user_mode early_tick1_state (VIRTUAL_USER_BASE_ADDR + _4MB) 0x080482E8 ∧
    early_tick1_state.TA_idx = 1 ∧ early_tick1_state.terminal_active = 1 ∧
    early_tick1_state.currentPID = 2 ∧ early_tick1_state.current_PCB = pcb_addr 2 ∧
    (early_tick1_state.pcbs early_tick1_state.current_PCB).id = 2 ∧
    (early_tick1_state.pcbs early_tick1_state.current_PCB).parent_pid = 1 ∧
    (early_tick1_state.terminal_arr 1).currentPID = 2 ∧
    early_tick1_state.activeProcesses = 7 ∧
    PIT_Handler sample_env early_tick1_state 0x7FBF00 0x7FBE00
      = .user_mode early_tick2_state (VIRTUAL_USER_BASE_ADDR + _4MB) 0x080482E8 ∧
    early_tick2_state.TA_idx = 2 ∧ early_tick2_state.terminal_active = 2 ∧
    early_tick2_state.currentPID = 3 ∧ early_tick2_state.current_PCB = pcb_addr 3 ∧
    (early_tick2_state.pcbs early_tick2_state.current_PCB).id = 3 ∧
    (early_tick2_state.terminal_arr 2).currentPID = 3 ∧
    early_tick2_state.activeProcesses = 15 ∧ early_tick2_state.pit_counter = 3 :=
  ⟨rfl, rfl, rfl, rfl, rfl, rfl, rfl, rfl, rfl, rfl, rfl, rfl, rfl, rfl, rfl, rfl, rfl, rfl, rfl,
   rfl, rfl, rfl, rfl, rfl, rfl, rfl, rfl, rfl, rfl, rfl⟩

end OS
